import Mathlib

/-!
# Aeroponic control loop: shallow embedding and verified properties

The controllers of `ard.cpp` (and, where they differ, of `esp8266.cpp` and
`esp32.cpp`) are embedded as pure functions on an explicit `State` record that
holds the sketch's global variables, the relay pin levels, the stepper
position and a chronological log of the actuator writes.

Modelling conventions

* `unsigned long` is 32 bits wide on all three boards.  Timestamps are `Nat`
  and the subtraction `a - b` of the source is `usub a b`, computed modulo
  `2 ^ 32`.
* `float` values are represented by the rational number they denote and float
  arithmetic is exact; comparisons of floats are exact in the source as well.
  The integer stored in `ph_pump_duration` depends on the rounding of the float
  operations: the functions of the reservoir monitor are embedded a second
  time, as `Rounded.measureWaterLevel`, `Rounded.calculateReservoirVolume` and
  `Rounded.checkReservoirVolume`, with every operation rounded to binary32 or
  binary64 as on the board.
  A sensor read that returns NaN is `none`.  The thresholds `1.5`, `5.5` and
  `6.5` are binary fractions; no `float` lies between `0.8` and the binary
  rounding of the literal `0.8`, so comparing a `float` with the rational `0.8`
  gives the result of the source's comparison.
* Values returned by the sensor drivers (`sht31.readHumidity()`,
  `analogRead`, `readpH()`, `measureWaterLevel()`) are arguments of the
  function in which the read occurs.  The `Serial` output is not modelled.
* The relays are active low: writing `LOW` switches a pump on, `HIGH`
  switches it off.
* Library code is outside the sketch: `exp` and the macro `PI` are parameters,
  `map` is the integer map of the Arduino core, and a call of
  `AccelStepper::run` is one step toward the target.
-/

namespace Aeroponics

/-! ## Constants (`#define`s of the sketch) -/

def VPD_PUMP_DURATION : Nat := 5000
def MIX_PUMP_DURATION : Nat := 1000
def PH_CHECK_INTERVAL : Nat := 30000
def PH_WAIT_INTERVAL : Nat := 18000
def PH_LOWER_LIMIT : ℚ := 5.5
def PH_UPPER_LIMIT : ℚ := 6.5
def DOSAGE_RATE : ℚ := 0.00025
def RESERVOIR_RADIUS : ℚ := 20.0
def RESERVOIR_HEIGHT : ℚ := 35.0
def RESERVOIR_CHECK_INTERVAL : Nat := 3600
def ROTATION_INTERVAL : Nat := 5000
def STEPS_PER_REVOLUTION : Int := 200
def STEPS_90_DEGREES : Int := STEPS_PER_REVOLUTION / 4

/-- Number of values of an `unsigned long` (32 bits). -/
def ULONG_RANGE : Nat := 2 ^ 32

/-- Subtraction of two `unsigned long` values, as the source's `a - b`. -/
def usub (a b : Nat) : Nat := (a + (ULONG_RANGE - b % ULONG_RANGE)) % ULONG_RANGE

/-- Conversion of a `long` to `unsigned long`, as done by the usual arithmetic
conversions when a `long` is compared with an `unsigned long`. -/
def toULong (d : Int) : Nat := (d % (ULONG_RANGE : Int)).toNat

/-- Conversion of a float value to `long`: truncation toward zero. -/
def truncToLong (q : ℚ) : Int := if 0 ≤ q then ⌊q⌋ else ⌈q⌉

/-! ## State -/

/-- Logic level of an output pin. -/
inductive Level where
  | LOW
  | HIGH
  deriving DecidableEq, Repr

/-- The four relay pins driven by the controllers. -/
inductive Pin where
  | VPD_PUMP_RELAY
  | ACID_PUMP_RELAY
  | BASE_PUMP_RELAY
  | MIX_PUMP_RELAY
  deriving DecidableEq, Repr

/-- Entries of the chronological log: relay writes, blocking delays, and the
assignments to the two pH mode flags. -/
inductive Event where
  | digitalWrite (pin : Pin) (level : Level)
  | delay (ms : Nat)
  | setPHAdjusting (b : Bool)
  | setPHWaiting (b : Bool)
  deriving DecidableEq, Repr

/-- The global variables of the sketch, the relay pin levels, the position and
target of the `AccelStepper` object, and the log. -/
structure State where
  lastVPDCycleTime : Nat
  vpdCycleInterval : Nat
  lastpHCheckTime : Nat
  lastReservoirCheckTime : Nat
  lastRotationTime : Nat
  isVPDPumping : Bool
  isPHAdjusting : Bool
  isPHWaiting : Bool
  ph_pump_duration : Int
  LIGHT_THRESHOLD : Int
  PH_TARGET : ℚ
  /-- Only in `esp32.cpp`. -/
  isRotating : Bool
  vpdPumpRelay : Level
  acidPumpRelay : Level
  basePumpRelay : Level
  mixPumpRelay : Level
  stepperCurrentPos : Int
  stepperTargetPos : Int
  log : List Event

/-- The globals as initialised in `ard.cpp`, after `setup()` has driven the
four relay pins `HIGH`. -/
def initState : State where
  lastVPDCycleTime := 0
  vpdCycleInterval := 1200
  lastpHCheckTime := 0
  lastReservoirCheckTime := 0
  lastRotationTime := 0
  isVPDPumping := false
  isPHAdjusting := false
  isPHWaiting := false
  ph_pump_duration := 0
  LIGHT_THRESHOLD := 300
  PH_TARGET := 6.0
  isRotating := false
  vpdPumpRelay := Level.HIGH
  acidPumpRelay := Level.HIGH
  basePumpRelay := Level.HIGH
  mixPumpRelay := Level.HIGH
  stepperCurrentPos := 0
  stepperTargetPos := 0
  log := []

/-- Primitive `digitalWrite(pin, level)` on a relay pin: sets the pin level and
records the write. -/
def digitalWrite (s : State) (pin : Pin) (level : Level) : State :=
  let s1 : State := { s with log := s.log ++ [Event.digitalWrite pin level] }
  match pin with
  | Pin.VPD_PUMP_RELAY => { s1 with vpdPumpRelay := level }
  | Pin.ACID_PUMP_RELAY => { s1 with acidPumpRelay := level }
  | Pin.BASE_PUMP_RELAY => { s1 with basePumpRelay := level }
  | Pin.MIX_PUMP_RELAY => { s1 with mixPumpRelay := level }

/-- Primitive `delay(ms)`: blocks; only recorded in the log. -/
def delay (s : State) (ms : Nat) : State :=
  { s with log := s.log ++ [Event.delay ms] }

/-! ## Misting controller -/

/-- Function `calculateVPD`; the library function `exp` is a parameter. -/
def calculateVPD (exp : ℚ → ℚ) (temperature humidity : ℚ) : ℚ :=
  let svp := 0.6108 * exp (17.27 * temperature / (temperature + 237.3))
  let avp := (humidity / 100.0) * svp
  svp - avp

/-- Function `updateVPDCycleInterval`. -/
def updateVPDCycleInterval (s : State) (vpd : ℚ) : State :=
  { s with vpdCycleInterval :=
      if vpd > 1.5 then 6000 else if vpd < 0.8 then 18000 else 12000 }

/-- First `if` of `handleVPDControl` in `ard.cpp`: start of a misting cycle.
The arguments `humidity` and `temperature` are the values read inside. -/
def vpdCycleStart (exp : ℚ → ℚ) (s : State) (currentTime : Nat)
    (humidity temperature : Option ℚ) : State :=
  if usub currentTime s.lastVPDCycleTime ≥ s.vpdCycleInterval then
    let s1 : State := { s with lastVPDCycleTime := currentTime }
    let s2 : State :=
      match humidity, temperature with
      | some h, some t => updateVPDCycleInterval s1 (calculateVPD exp t h)
      | _, _ => s1
    let s3 := digitalWrite s2 Pin.VPD_PUMP_RELAY Level.LOW
    { s3 with isVPDPumping := true }
  else s

/-- Second `if` of `handleVPDControl`: end of the pump pulse. -/
def vpdPumpStop (s : State) (currentTime : Nat) : State :=
  if s.isVPDPumping = true ∧ usub currentTime s.lastVPDCycleTime ≥ VPD_PUMP_DURATION then
    let s1 := digitalWrite s Pin.VPD_PUMP_RELAY Level.HIGH
    { s1 with isVPDPumping := false }
  else s

/-- Function `handleVPDControl` of `ard.cpp`. -/
def handleVPDControl (exp : ℚ → ℚ) (s : State) (currentTime : Nat)
    (humidity temperature : Option ℚ) : State :=
  vpdPumpStop (vpdCycleStart exp s currentTime humidity temperature) currentTime

/-- Function `handleVPDControl` of `esp8266.cpp`; its two `if` statements are
those of `ard.cpp`, up to the text of the serial messages. -/
def Esp8266.handleVPDControl (exp : ℚ → ℚ) (s : State) (currentTime : Nat)
    (humidity temperature : Option ℚ) : State :=
  let s0 : State :=
    if usub currentTime s.lastVPDCycleTime ≥ s.vpdCycleInterval then
      let s1 : State := { s with lastVPDCycleTime := currentTime }
      let s2 : State :=
        match humidity, temperature with
        | some h, some t => updateVPDCycleInterval s1 (calculateVPD exp t h)
        | _, _ => s1
      let s3 := digitalWrite s2 Pin.VPD_PUMP_RELAY Level.LOW
      { s3 with isVPDPumping := true }
    else s
  if s0.isVPDPumping = true ∧ usub currentTime s0.lastVPDCycleTime ≥ VPD_PUMP_DURATION then
    let s1 := digitalWrite s0 Pin.VPD_PUMP_RELAY Level.HIGH
    { s1 with isVPDPumping := false }
  else s0

/-- States of the misting controller reachable from the initial state by ticks
of `handleVPDControl`, at any times and with any sensor reads (and whatever
the library `exp` returns). -/
inductive MistReachable : State → Prop where
  | init : MistReachable initState
  | tick (exp : ℚ → ℚ) (s : State) (currentTime : Nat) (humidity temperature : Option ℚ) :
      MistReachable s →
      MistReachable (handleVPDControl exp s currentTime humidity temperature)

/-! ## pH controller -/

/-- Function `checkAndAdjustPH`; `pH` is the value returned by `readpH()`. -/
def checkAndAdjustPH (s : State) (currentTime : Nat) (pH : ℚ) : State :=
  let s1 : State := { s with lastpHCheckTime := currentTime }
  if pH < PH_LOWER_LIMIT ∨ pH > PH_UPPER_LIMIT then
    let s2 :=
      if pH < s1.PH_TARGET then digitalWrite s1 Pin.BASE_PUMP_RELAY Level.LOW
      else digitalWrite s1 Pin.ACID_PUMP_RELAY Level.LOW
    { s2 with isPHAdjusting := true, log := s2.log ++ [Event.setPHAdjusting true] }
  else s1

/-- First `if` of `handlePHControl`: the scheduled check from `Idle`. -/
def phIdleCheck (s : State) (currentTime : Nat) (pH : ℚ) : State :=
  if s.isPHAdjusting = false ∧ s.isPHWaiting = false ∧
      usub currentTime s.lastpHCheckTime ≥ PH_CHECK_INTERVAL then
    checkAndAdjustPH s currentTime pH
  else s

/-- Second `if` of `handlePHControl`: the recheck that ends `Waiting`. -/
def phWaitCheck (s : State) (currentTime : Nat) (pH : ℚ) : State :=
  if s.isPHWaiting = true ∧ usub currentTime s.lastpHCheckTime ≥ PH_WAIT_INTERVAL then
    let s1 : State :=
      { s with isPHWaiting := false, log := s.log ++ [Event.setPHWaiting false] }
    checkAndAdjustPH s1 currentTime pH
  else s

/-- Guard of the third `if` of `handlePHControl`; the `long` duration is
converted to `unsigned long` for the comparison. -/
def dosingElapsed (s : State) (currentTime : Nat) : Prop :=
  s.isPHAdjusting = true ∧ usub currentTime s.lastpHCheckTime ≥ toULong s.ph_pump_duration

instance (s : State) (currentTime : Nat) : Decidable (dosingElapsed s currentTime) := by
  unfold dosingElapsed; infer_instance

/-- Third `if` of `handlePHControl`: the `Dosing → Waiting` transition. -/
def phDoseEnd (s : State) (currentTime : Nat) : State :=
  if dosingElapsed s currentTime then
    let s1 := digitalWrite s Pin.ACID_PUMP_RELAY Level.HIGH
    let s2 := digitalWrite s1 Pin.BASE_PUMP_RELAY Level.HIGH
    let s3 := digitalWrite s2 Pin.MIX_PUMP_RELAY Level.LOW
    let s4 := delay s3 MIX_PUMP_DURATION
    let s5 := digitalWrite s4 Pin.MIX_PUMP_RELAY Level.HIGH
    let s6 : State := { s5 with isPHAdjusting := false, log := s5.log ++ [Event.setPHAdjusting false] }
    { s6 with isPHWaiting := true, log := s6.log ++ [Event.setPHWaiting true] }
  else s

/-- Function `handlePHControl`.  At most one of the two calls of
`checkAndAdjustPH` is executed in a tick (see `phWaitCheck_after_idle_check`),
so a single `readpH()` value is passed. -/
def handlePHControl (s : State) (currentTime : Nat) (pH : ℚ) : State :=
  phDoseEnd (phWaitCheck (phIdleCheck s currentTime pH) currentTime pH) currentTime

/-- States of the pH controller reachable from the initial state by ticks of
`handlePHControl`; between ticks the reservoir monitor may store any dosing
duration and the configuration endpoint any pH target. -/
inductive PHReachable : State → Prop where
  | init : PHReachable initState
  | tick (s : State) (currentTime : Nat) (pH : ℚ) (duration : Int) (target : ℚ) :
      PHReachable s →
      PHReachable
        (handlePHControl { s with ph_pump_duration := duration, PH_TARGET := target }
          currentTime pH)

/-! ## Reservoir monitor -/

/-- Function `measureWaterLevel`; `duration` is the echo time returned by
`pulseIn`. -/
def measureWaterLevel (duration : Int) : ℚ :=
  RESERVOIR_HEIGHT - ((duration : ℚ) * 0.034 / 2)

/-- Function `calculateReservoirVolume`.  The macro `PI` comes from the Arduino
core and is a parameter. -/
def calculateReservoirVolume (PI : ℚ) (waterLevel : ℚ) : ℚ :=
  PI * RESERVOIR_RADIUS * RESERVOIR_RADIUS * waterLevel / 1000.0

/-- The value of the macro `PI` in the Arduino core headers. -/
def ARDUINO_PI : ℚ := 3.1415926535897932384626433832795

/-- Function `checkReservoirVolume` in exact arithmetic; `waterLevel` is the
value returned by the call of `measureWaterLevel()` inside.  The product is not
rounded before the conversion to `long`; `Rounded.checkReservoirVolume` is the
same function with the rounding of the board, and the duration it stores can
differ from this one. -/
def checkReservoirVolume (PI : ℚ) (s : State) (currentTime : Nat) (waterLevel : ℚ) : State :=
  if usub currentTime s.lastReservoirCheckTime ≥ RESERVOIR_CHECK_INTERVAL then
    let s1 : State := { s with lastReservoirCheckTime := currentTime }
    let volume := calculateReservoirVolume PI waterLevel
    { s1 with ph_pump_duration := truncToLong (volume * DOSAGE_RATE * 1000000) }
  else s

/-! ## Rotation controller -/

/-- Method `AccelStepper::moveTo`. -/
def stepperMoveTo (s : State) (absolute : Int) : State :=
  { s with stepperTargetPos := absolute }

/-- Method `AccelStepper::distanceToGo`. -/
def stepperDistanceToGo (s : State) : Int :=
  s.stepperTargetPos - s.stepperCurrentPos

/-- Method `AccelStepper::run`, for a call in which a step is executed: the
position moves one step toward the target.  Calls in which no step is yet due
leave the stepper unchanged and are not modelled. -/
def stepperRun (s : State) : State :=
  if s.stepperCurrentPos < s.stepperTargetPos then
    { s with stepperCurrentPos := s.stepperCurrentPos + 1 }
  else if s.stepperTargetPos < s.stepperCurrentPos then
    { s with stepperCurrentPos := s.stepperCurrentPos - 1 }
  else s

/-- Loop `while (stepper.distanceToGo() != 0) stepper.run();` with at most
`fuel` iterations. -/
def stepperRunLoop : Nat → State → State
  | 0, s => s
  | fuel + 1, s =>
    if stepperDistanceToGo s ≠ 0 then stepperRunLoop fuel (stepperRun s) else s

/-- The blocking loop, run for as many iterations as the distance requires. -/
def stepperRunToPosition (s : State) : State :=
  stepperRunLoop (stepperDistanceToGo s).natAbs s

/-- Function `checkLightAndRotate` of `ard.cpp`; `lightIntensity` is the value
returned by `analogRead(LDR_PIN)`. -/
def checkLightAndRotate (s : State) (currentTime : Nat) (lightIntensity : Int) : State :=
  if usub currentTime s.lastRotationTime ≥ ROTATION_INTERVAL then
    let s1 : State := { s with lastRotationTime := currentTime }
    if lightIntensity > s1.LIGHT_THRESHOLD then
      let s2 := stepperMoveTo s1 (s1.stepperCurrentPos + STEPS_90_DEGREES)
      stepperRunToPosition s2
    else s1
  else s

/-- Function `checkLightAndRotate` of `esp32.cpp`, which also maintains the
flag `isRotating`. -/
def Esp32.checkLightAndRotate (s : State) (currentTime : Nat) (lightLevel : Int) : State :=
  if usub currentTime s.lastRotationTime ≥ ROTATION_INTERVAL then
    let s1 : State := { s with lastRotationTime := currentTime }
    if lightLevel > s1.LIGHT_THRESHOLD then
      let s2 : State := { s1 with isRotating := true }
      let s3 := stepperMoveTo s2 (s2.stepperCurrentPos + STEPS_90_DEGREES)
      let s4 := stepperRunToPosition s3
      { s4 with isRotating := false }
    else s1
  else s

/-- The globals as initialised in `esp32.cpp`: as in `ard.cpp`, except for the
light threshold. -/
def Esp32.initState : State := { Aeroponics.initState with LIGHT_THRESHOLD := 2000 }

/-! ## Misting controller of `esp32.cpp` -/

/-- Constant `DEFAULT_TEMPERATURE` of `esp32.cpp`. -/
def Esp32.DEFAULT_TEMPERATURE : ℚ := 25.0

/-- Constant `DEFAULT_HUMIDITY` of `esp32.cpp`. -/
def Esp32.DEFAULT_HUMIDITY : ℚ := 60.0

/-- Function `handleVPDControl` of `esp32.cpp`: when either read is NaN both
local readings are replaced by the defaults, and the interval update is not
conditional.  The functions `calculateVPD` and `updateVPDCycleInterval` have
the same text in `esp32.cpp` as in `ard.cpp`. -/
def Esp32.handleVPDControl (exp : ℚ → ℚ) (s : State) (currentTime : Nat)
    (humidity temperature : Option ℚ) : State :=
  let s0 : State :=
    if usub currentTime s.lastVPDCycleTime ≥ s.vpdCycleInterval then
      let s1 : State := { s with lastVPDCycleTime := currentTime }
      let readings : ℚ × ℚ :=
        match humidity, temperature with
        | some h, some t => (h, t)
        | _, _ => (Esp32.DEFAULT_HUMIDITY, Esp32.DEFAULT_TEMPERATURE)
      let vpd := calculateVPD exp readings.2 readings.1
      let s2 := updateVPDCycleInterval s1 vpd
      let s3 := digitalWrite s2 Pin.VPD_PUMP_RELAY Level.LOW
      { s3 with isVPDPumping := true }
    else s
  if s0.isVPDPumping = true ∧ usub currentTime s0.lastVPDCycleTime ≥ VPD_PUMP_DURATION then
    let s1 := digitalWrite s0 Pin.VPD_PUMP_RELAY Level.HIGH
    { s1 with isVPDPumping := false }
  else s0

/-- Partial sum of degree 10 of the exponential series: a computable stand-in
for the library `exp`, used in examples. -/
def expTaylor (x : ℚ) : ℚ :=
  1 + x + x ^ 2 / 2 + x ^ 3 / 6 + x ^ 4 / 24 + x ^ 5 / 120 + x ^ 6 / 720 + x ^ 7 / 5040 +
    x ^ 8 / 40320 + x ^ 9 / 362880 + x ^ 10 / 3628800

/-- The argument passed to `exp` by `calculateVPD` for a temperature. -/
def svpExponent (temperature : ℚ) : ℚ := 17.27 * temperature / (temperature + 237.3)

/-- A run of misting ticks: `handleVPDControl` applied at each time of the list
with the reads of that tick (humidity, temperature). -/
def mistRun (exp : ℚ → ℚ) (s : State) : List (Nat × Option ℚ × Option ℚ) → State
  | [] => s
  | (currentTime, humidity, temperature) :: rest =>
    mistRun exp (handleVPDControl exp s currentTime humidity temperature) rest

/-! ## pH reading -/

/-- Function `map` of the Arduino core (AVR and ESP32 cores): `long` arithmetic,
the division truncates toward zero. -/
def map (x in_min in_max out_min out_max : Int) : Int :=
  Int.tdiv ((x - in_min) * (out_max - out_min)) (in_max - in_min) + out_min

/-- Function `readpH` of `ard.cpp`; `sensorValue` is the value returned by
`analogRead(PH_PIN)`.  The `long` result of `map` is converted to `float`. -/
def readpH (sensorValue : Int) : ℚ := ((map sensorValue 0 1023 0 14 : Int) : ℚ)

/-- Function `readpH` of `esp32.cpp` (12-bit converter). -/
def Esp32.readpH (sensorValue : Int) : ℚ := ((map sensorValue 0 4095 0 14 : Int) : ℚ)

/-- Function `readpH` of `esp8266.cpp`; the `map` of the ESP8266 core is a
parameter `coreMap`, of which only the `long` result type is used. -/
def Esp8266.readpH (coreMap : Int → Int → Int → Int → Int → Int) (sensorValue : Int) : ℚ :=
  ((coreMap sensorValue 0 1023 0 14 : Int) : ℚ)

/-! ## Scheduler -/

/-- The sensor globals of the sketch that `loop()` assigns at the start of each
pass (`temperature`, `humidity`, `vpd`, `pH`, `waterLevel`, `reservoirVolume`,
`lightIntensity`).  NaN is `none`. -/
structure SensorGlobals where
  temperature : Option ℚ
  humidity : Option ℚ
  vpd : Option ℚ
  pH : ℚ
  waterLevel : ℚ
  reservoirVolume : ℚ
  lightIntensity : Int

/-- The values returned by the sensor reads of one pass of `loop()`, in program
order: the five reads in `loop()` itself, then the reads inside
`handleVPDControl`, `checkAndAdjustPH`, `checkReservoirVolume` and
`checkLightAndRotate` (used only if the read is reached). -/
structure TickReads where
  loopTemperature : Option ℚ
  loopHumidity : Option ℚ
  loopPHRaw : Int
  loopEcho : Int
  loopLight : Int
  vpdHumidity : Option ℚ
  vpdTemperature : Option ℚ
  phRaw : Int
  reservoirEcho : Int
  rotationLight : Int

/-- The assignments to the sensor globals at the start of `loop()`. -/
def loopSnapshot (exp : ℚ → ℚ) (PI : ℚ) (r : TickReads) : SensorGlobals where
  temperature := r.loopTemperature
  humidity := r.loopHumidity
  vpd :=
    match r.loopTemperature, r.loopHumidity with
    | some t, some h => some (calculateVPD exp t h)
    | _, _ => none
  pH := readpH r.loopPHRaw
  waterLevel := measureWaterLevel r.loopEcho
  reservoirVolume := calculateReservoirVolume PI (measureWaterLevel r.loopEcho)
  lightIntensity := r.loopLight

/-- Function `loop` of `ard.cpp`: the snapshot assignments, the four
controllers in source order, and the final `stepper.run()`.  The sensor
globals are overwritten, so the previous ones are not an argument. -/
def loop (exp : ℚ → ℚ) (PI : ℚ) (s : State) (currentTime : Nat) (r : TickReads) :
    State × SensorGlobals :=
  let g := loopSnapshot exp PI r
  let s1 := handleVPDControl exp s currentTime r.vpdHumidity r.vpdTemperature
  let s2 := handlePHControl s1 currentTime (readpH r.phRaw)
  let s3 := checkReservoirVolume PI s2 currentTime (measureWaterLevel r.reservoirEcho)
  let s4 := checkLightAndRotate s3 currentTime r.rotationLight
  (stepperRun s4, g)

/-- A run of the scheduler: `loop` applied at each time of the list with the
reads of that pass. -/
def loopRun (exp : ℚ → ℚ) (PI : ℚ) (s : State) : List (Nat × TickReads) → State
  | [] => s
  | (currentTime, r) :: rest => loopRun exp PI (loop exp PI s currentTime r).1 rest

/-! ## Example run used for the dose-length scenario -/

/-- Sensor reads of one pass in which the temperature is 25, the humidity 60,
the light reading 0, and the reads of the pH check and of the reservoir check
are the arguments. -/
def exampleReads (phRaw reservoirEcho : Int) : TickReads where
  loopTemperature := some 25
  loopHumidity := some 60
  loopPHRaw := 480
  loopEcho := 0
  loopLight := 0
  vpdHumidity := some 60
  vpdTemperature := some 25
  phRaw := phRaw
  reservoirEcho := reservoirEcho
  rotationLight := 0

/-- The state after the pass at time 3600 of the example run. -/
def exampleState1 : State :=
  { initState with
    lastVPDCycleTime := 3600
    vpdCycleInterval := 12000
    isVPDPumping := true
    vpdPumpRelay := Level.LOW
    lastReservoirCheckTime := 3600
    ph_pump_duration := 10995
    log := [Event.digitalWrite Pin.VPD_PUMP_RELAY Level.LOW] }

/-- The state after the pass at time 30000 of the example run: a dose has begun
with `ph_pump_duration = 10995`. -/
def exampleState2 : State :=
  { exampleState1 with
    lastVPDCycleTime := 30000
    lastpHCheckTime := 30000
    isPHAdjusting := true
    basePumpRelay := Level.LOW
    lastReservoirCheckTime := 30000
    lastRotationTime := 30000
    log := [Event.digitalWrite Pin.VPD_PUMP_RELAY Level.LOW,
            Event.digitalWrite Pin.VPD_PUMP_RELAY Level.LOW,
            Event.digitalWrite Pin.BASE_PUMP_RELAY Level.LOW,
            Event.setPHAdjusting true] }

/-- The state after the pass at time 33600 of the example run, in which the
reservoir monitor stores `duration`. -/
def exampleState3 (duration : Int) : State :=
  { exampleState2 with
    lastReservoirCheckTime := 33600
    ph_pump_duration := duration }

/-- The relay invariant of the pH controller: the two mode flags exclude each
other, the acid and base relays are off unless `isPHAdjusting` holds, they are
never both on, and the mix relay is off. -/
def PHRelaySafe (s : State) : Prop :=
  ¬ (s.isPHAdjusting = true ∧ s.isPHWaiting = true) ∧
  (s.isPHAdjusting = false → s.acidPumpRelay = Level.HIGH ∧ s.basePumpRelay = Level.HIGH) ∧
  ¬ (s.acidPumpRelay = Level.LOW ∧ s.basePumpRelay = Level.LOW) ∧
  s.mixPumpRelay = Level.HIGH

/-! ## Pin definitions of `esp32.cpp` -/

def Esp32.PH_PIN : Nat := 1
def Esp32.VPD_PUMP_RELAY : Nat := 2
def Esp32.ACID_PUMP_RELAY : Nat := 3
def Esp32.BASE_PUMP_RELAY : Nat := 4
def Esp32.MIX_PUMP_RELAY : Nat := 5
def Esp32.TRIG_PIN : Nat := 6
def Esp32.ECHO_PIN : Nat := 7
/-- The pin read by `analogRead(LDR_PIN)` in `loop` and in `checkLightAndRotate`. -/
def Esp32.LDR_PIN : Nat := 2
def Esp32.STEPPER_STEP_PIN : Nat := 9
def Esp32.STEPPER_DIR_PIN : Nat := 10

/-- The pin number that `digitalWrite` drives for each relay in `esp32.cpp`. -/
def Esp32.pinNumber : Pin → Nat
  | Pin.VPD_PUMP_RELAY => Esp32.VPD_PUMP_RELAY
  | Pin.ACID_PUMP_RELAY => Esp32.ACID_PUMP_RELAY
  | Pin.BASE_PUMP_RELAY => Esp32.BASE_PUMP_RELAY
  | Pin.MIX_PUMP_RELAY => Esp32.MIX_PUMP_RELAY

/-- The ten pin constants of `esp32.cpp` in the order of their definition: pH,
the four relays, trigger, echo, LDR, stepper step and stepper direction. -/
def Esp32.pinConstants : List Nat :=
  [Esp32.PH_PIN, Esp32.VPD_PUMP_RELAY, Esp32.ACID_PUMP_RELAY, Esp32.BASE_PUMP_RELAY,
   Esp32.MIX_PUMP_RELAY, Esp32.TRIG_PIN, Esp32.ECHO_PIN, Esp32.LDR_PIN,
   Esp32.STEPPER_STEP_PIN, Esp32.STEPPER_DIR_PIN]

/-! ## Reservoir monitor with the rounding of the floating-point operations -/

/-- Rounding of a rational to the nearest integer, ties to the even one. -/
def roundNearestEven (x : ℚ) : Int :=
  if x - ⌊x⌋ < 1 / 2 then ⌊x⌋
  else if 1 / 2 < x - ⌊x⌋ then ⌊x⌋ + 1
  else if ⌊x⌋ % 2 = 0 then ⌊x⌋
  else ⌊x⌋ + 1

/-- Rounding of a rational to the nearest binary floating-point number with a
significand of `p` bits, ties to even (the IEEE 754 default).  The exponent is
`Int.log 2 |q|` and is not bounded: the values of the reservoir monitor are far
inside the normal range of both formats. -/
def roundBinary (p : Nat) (q : ℚ) : ℚ :=
  if q = 0 then 0
  else
    let ulp : ℚ := 2 ^ (Int.log 2 |q| - (p : Int) + 1)
    (roundNearestEven (q / ulp) : ℚ) * ulp

/-- Floating-point arithmetic of a board: the rounding of a value to the type
`float` and to the type `double`. -/
structure FloatArith where
  roundFloat : ℚ → ℚ
  roundDouble : ℚ → ℚ

/-- Arithmetic of the AVR boards: `float` and `double` are both binary32. -/
def avrArith : FloatArith where
  roundFloat := roundBinary 24
  roundDouble := roundBinary 24

/-- Arithmetic of the ESP8266 and the ESP32: `float` is binary32, `double` is
binary64. -/
def espArith : FloatArith where
  roundFloat := roundBinary 24
  roundDouble := roundBinary 53

/-- Arithmetic without rounding. -/
def exactArith : FloatArith where
  roundFloat := id
  roundDouble := id

/-- Function `measureWaterLevel` with the rounding of every operation.  The
operands are converted to `double` (the literals are of type `double`), the
result is converted to `float` by the `return`.  The literals `35.0` and `2`
are floating-point numbers of both formats. -/
def Rounded.measureWaterLevel (A : FloatArith) (duration : Int) : ℚ :=
  A.roundFloat (A.roundDouble (RESERVOIR_HEIGHT -
    A.roundDouble (A.roundDouble (A.roundDouble (duration : ℚ) * A.roundDouble 0.034) / 2)))

/-- Function `calculateReservoirVolume` with the rounding of every operation,
evaluated from left to right in `double` and converted to `float` by the
`return`.  The literals `20.0` and `1000.0` are floating-point numbers of both
formats. -/
def Rounded.calculateReservoirVolume (A : FloatArith) (PI : ℚ) (waterLevel : ℚ) : ℚ :=
  A.roundFloat (A.roundDouble (A.roundDouble (A.roundDouble
    (A.roundDouble (A.roundDouble PI * RESERVOIR_RADIUS) * RESERVOIR_RADIUS) * waterLevel) /
      1000.0))

/-- The right-hand side of the assignment to `ph_pump_duration` in
`checkReservoirVolume`: the product `volume * DOSAGE_RATE * 1000000`, evaluated
from left to right in `double`, then converted to `long`. -/
def Rounded.dosingDuration (A : FloatArith) (volume : ℚ) : Int :=
  truncToLong (A.roundDouble (A.roundDouble (volume * A.roundDouble DOSAGE_RATE) * 1000000))

/-- Function `checkReservoirVolume` with the rounding of every operation;
`waterLevel` is the `float` returned by the call of `measureWaterLevel()`
inside. -/
def Rounded.checkReservoirVolume (A : FloatArith) (PI : ℚ) (s : State) (currentTime : Nat)
    (waterLevel : ℚ) : State :=
  if usub currentTime s.lastReservoirCheckTime ≥ RESERVOIR_CHECK_INTERVAL then
    let s1 : State := { s with lastReservoirCheckTime := currentTime }
    let volume := Rounded.calculateReservoirVolume A PI waterLevel
    { s1 with ph_pump_duration := Rounded.dosingDuration A volume }
  else s

/-! ## Basic facts -/

theorem usub_self (a : Nat) : usub a a = 0 := by
  unfold usub ULONG_RANGE
  have h := Nat.mod_lt a (show 0 < 2 ^ 32 by norm_num)
  omega

/-! ## Misting bands (C1) -/

/-- C1: for every VPD value `v`, `updateVPDCycleInterval` sets the cycle interval
to 6000 ms iff `v > 1.5`, to 18000 ms iff `v < 0.8`, and to 12000 ms exactly in
the remaining case; `v = 1.5` and `v = 0.8` both give 12000 ms. -/
theorem C1_updateVPDCycleInterval_bands (s : State) (v : ℚ) :
    ((updateVPDCycleInterval s v).vpdCycleInterval = 6000 ↔ v > 1.5) ∧
    ((updateVPDCycleInterval s v).vpdCycleInterval = 18000 ↔ v < 0.8) ∧
    ((updateVPDCycleInterval s v).vpdCycleInterval = 12000 ↔ ¬ v > 1.5 ∧ ¬ v < 0.8) ∧
    (updateVPDCycleInterval s 1.5).vpdCycleInterval = 12000 ∧
    (updateVPDCycleInterval s 0.8).vpdCycleInterval = 12000 := by
  have key : ∀ w : ℚ, (updateVPDCycleInterval s w).vpdCycleInterval =
      if w > 1.5 then 6000 else if w < 0.8 then 18000 else 12000 := fun _ => rfl
  refine ⟨?_, ?_, ?_, ?_, ?_⟩
  · rw [key]; split_ifs <;> simp_all
  · rw [key]; split_ifs with h1 h2
    · have : ¬ v < 0.8 := by norm_num at h1 ⊢; linarith
      simp [this]
    · simp [h2]
    · simp [h2]
  · rw [key]; split_ifs with h1 h2 <;> simp_all
  · rw [key]; norm_num
  · rw [key]; norm_num

/-! ## pH check and the dosing sequence (C2, C3) -/

/-- When the scheduled check of the first `if` runs, the second `if` of
`handlePHControl` does nothing: `readpH()` is called at most once per tick. -/
theorem phWaitCheck_after_idle_check (s : State) (currentTime : Nat) (p q : ℚ)
    (h : s.isPHAdjusting = false ∧ s.isPHWaiting = false ∧
      usub currentTime s.lastpHCheckTime ≥ PH_CHECK_INTERVAL) :
    phWaitCheck (phIdleCheck s currentTime p) currentTime q = phIdleCheck s currentTime p := by
  have hw : (phIdleCheck s currentTime p).isPHWaiting = false := by
    simp only [phIdleCheck, checkAndAdjustPH, digitalWrite]
    split_ifs <;> simp [h.2.1]
  simp [phWaitCheck, hw]

/-- C2: for every pH reading `p` and every target, `checkAndAdjustPH` on a reading
outside `[5.5, 6.5]` writes exactly one pump relay low, the base pump when
`p < target` and the acid pump otherwise, and sets `isPHAdjusting` (Dosing); on a
reading inside `[5.5, 6.5]` it writes no relay and leaves both mode flags as
they were, so an Idle controller stays Idle.  With `p = 5.0` and target `6.0`
the base pump is switched on. -/
theorem C2_checkAndAdjustPH_dose_decision (s : State) (currentTime : Nat) (p : ℚ) :
    ((p < 5.5 ∨ p > 6.5) →
      (checkAndAdjustPH s currentTime p).isPHAdjusting = true ∧
      (p < s.PH_TARGET →
        (checkAndAdjustPH s currentTime p).log =
          s.log ++ [Event.digitalWrite Pin.BASE_PUMP_RELAY Level.LOW, Event.setPHAdjusting true] ∧
        (checkAndAdjustPH s currentTime p).basePumpRelay = Level.LOW ∧
        (checkAndAdjustPH s currentTime p).acidPumpRelay = s.acidPumpRelay) ∧
      (¬ p < s.PH_TARGET →
        (checkAndAdjustPH s currentTime p).log =
          s.log ++ [Event.digitalWrite Pin.ACID_PUMP_RELAY Level.LOW, Event.setPHAdjusting true] ∧
        (checkAndAdjustPH s currentTime p).acidPumpRelay = Level.LOW ∧
        (checkAndAdjustPH s currentTime p).basePumpRelay = s.basePumpRelay)) ∧
    ((5.5 ≤ p ∧ p ≤ 6.5) →
      (checkAndAdjustPH s currentTime p).log = s.log ∧
      (checkAndAdjustPH s currentTime p).acidPumpRelay = s.acidPumpRelay ∧
      (checkAndAdjustPH s currentTime p).basePumpRelay = s.basePumpRelay ∧
      (checkAndAdjustPH s currentTime p).mixPumpRelay = s.mixPumpRelay ∧
      (checkAndAdjustPH s currentTime p).isPHAdjusting = s.isPHAdjusting ∧
      (checkAndAdjustPH s currentTime p).isPHWaiting = s.isPHWaiting) ∧
    (checkAndAdjustPH { initState with PH_TARGET := 6.0 } currentTime 5.0).log =
      [Event.digitalWrite Pin.BASE_PUMP_RELAY Level.LOW, Event.setPHAdjusting true] := by
  refine ⟨?_, ?_, ?_⟩
  · intro hout
    have hout2 : p < PH_LOWER_LIMIT ∨ p > PH_UPPER_LIMIT := by
      simpa [PH_LOWER_LIMIT, PH_UPPER_LIMIT] using hout
    refine ⟨?_, ?_, ?_⟩
    · simp [checkAndAdjustPH, hout2]
    · intro hlt
      simp [checkAndAdjustPH, hout2, hlt, digitalWrite]
    · intro hge
      simp [checkAndAdjustPH, hout2, hge, digitalWrite]
  · intro hin
    have hin2 : ¬ (p < PH_LOWER_LIMIT ∨ p > PH_UPPER_LIMIT) := by
      simp only [PH_LOWER_LIMIT, PH_UPPER_LIMIT]
      rcases hin with ⟨h1, h2⟩
      push_neg
      exact ⟨h1, h2⟩
    simp [checkAndAdjustPH, hin2]
  · have h1 : (5.0 : ℚ) < PH_LOWER_LIMIT ∨ (5.0 : ℚ) > PH_UPPER_LIMIT := by
      left; norm_num [PH_LOWER_LIMIT]
    have h2 : (5.0 : ℚ) < 6.0 := by norm_num
    simp [checkAndAdjustPH, h1, h2, digitalWrite, initState]

/-- Witness for C2: a reading of 5.0 with target 6.0 switches the base pump on. -/
theorem C2_checkAndAdjustPH_dose_decision_witness :
    ((5.0 : ℚ) < 5.5 ∨ (5.0 : ℚ) > 6.5) ∧ (5.0 : ℚ) < initState.PH_TARGET ∧
    (checkAndAdjustPH initState 30000 5.0).isPHAdjusting = true ∧
    (checkAndAdjustPH initState 30000 5.0).basePumpRelay = Level.LOW :=
  have hout : (5.0 : ℚ) < 5.5 ∨ (5.0 : ℚ) > 6.5 := Or.inl (by norm_num)
  have hlt : (5.0 : ℚ) < initState.PH_TARGET := by norm_num [initState]
  ⟨hout, hlt, ((C2_checkAndAdjustPH_dose_decision initState 30000 5.0).1 hout).1,
   (((C2_checkAndAdjustPH_dose_decision initState 30000 5.0).1 hout).2.1 hlt).2.1⟩

/-- C3: when the third `if` of `handlePHControl` fires (the Dosing to Waiting
transition), the writes it appends to the log are exactly: acid pump off, base
pump off, mix pump on, delay of 1000 ms, mix pump off, `isPHAdjusting` cleared,
`isPHWaiting` set, in this order; when it does not fire it writes nothing. -/
theorem C3_dosing_to_waiting_order (s : State) (currentTime : Nat) (pH : ℚ) :
    (dosingElapsed (phWaitCheck (phIdleCheck s currentTime pH) currentTime pH) currentTime →
      (handlePHControl s currentTime pH).log =
        (phWaitCheck (phIdleCheck s currentTime pH) currentTime pH).log ++
          [Event.digitalWrite Pin.ACID_PUMP_RELAY Level.HIGH,
           Event.digitalWrite Pin.BASE_PUMP_RELAY Level.HIGH,
           Event.digitalWrite Pin.MIX_PUMP_RELAY Level.LOW,
           Event.delay 1000,
           Event.digitalWrite Pin.MIX_PUMP_RELAY Level.HIGH,
           Event.setPHAdjusting false,
           Event.setPHWaiting true] ∧
      (handlePHControl s currentTime pH).isPHAdjusting = false ∧
      (handlePHControl s currentTime pH).isPHWaiting = true ∧
      (handlePHControl s currentTime pH).acidPumpRelay = Level.HIGH ∧
      (handlePHControl s currentTime pH).basePumpRelay = Level.HIGH ∧
      (handlePHControl s currentTime pH).mixPumpRelay = Level.HIGH) ∧
    (¬ dosingElapsed (phWaitCheck (phIdleCheck s currentTime pH) currentTime pH) currentTime →
      handlePHControl s currentTime pH =
        phWaitCheck (phIdleCheck s currentTime pH) currentTime pH) := by
  constructor
  · intro h
    simp [handlePHControl, phDoseEnd, h, digitalWrite, delay, MIX_PUMP_DURATION]
  · intro h
    simp [handlePHControl, phDoseEnd, h]

/-- Witness for C3: a dose started at time 30000 with duration 10000 ends at
time 40000. -/
theorem C3_dosing_to_waiting_order_witness :
    dosingElapsed
      (phWaitCheck
        (phIdleCheck
          { initState with
            lastpHCheckTime := 30000,
            isPHAdjusting := true,
            ph_pump_duration := 10000,
            basePumpRelay := Level.LOW } 40000 5.0) 40000 5.0) 40000 ∧
    (handlePHControl
        { initState with
          lastpHCheckTime := 30000,
          isPHAdjusting := true,
          ph_pump_duration := 10000,
          basePumpRelay := Level.LOW } 40000 5.0).log =
      [Event.digitalWrite Pin.ACID_PUMP_RELAY Level.HIGH,
       Event.digitalWrite Pin.BASE_PUMP_RELAY Level.HIGH,
       Event.digitalWrite Pin.MIX_PUMP_RELAY Level.LOW,
       Event.delay 1000,
       Event.digitalWrite Pin.MIX_PUMP_RELAY Level.HIGH,
       Event.setPHAdjusting false,
       Event.setPHWaiting true] :=
  have h : dosingElapsed
      (phWaitCheck
        (phIdleCheck
          { initState with
            lastpHCheckTime := 30000,
            isPHAdjusting := true,
            ph_pump_duration := 10000,
            basePumpRelay := Level.LOW } 40000 5.0) 40000 5.0) 40000 := by
    simp [dosingElapsed, phWaitCheck, phIdleCheck, initState, usub, ULONG_RANGE, toULong]
  ⟨h, by
    have h2 := ((C3_dosing_to_waiting_order _ 40000 5.0).1 h).1
    rw [h2]
    simp [phWaitCheck, phIdleCheck, initState]⟩

/-! ## Rotation (C4) -/

/-- A stepper that is at its target is unchanged by setting its position to the
target. -/
theorem stepper_at_target (s : State) (h : s.stepperTargetPos = s.stepperCurrentPos) :
    s = { s with stepperCurrentPos := s.stepperTargetPos } := by
  cases s
  simp only at h
  simp [h]

/-- With fuel at least the distance to go, the blocking loop terminates with the
position equal to the target and nothing else changed. -/
theorem stepperRunLoop_reaches_target (fuel : Nat) :
    ∀ s : State, (stepperDistanceToGo s).natAbs ≤ fuel →
      stepperRunLoop fuel s = { s with stepperCurrentPos := s.stepperTargetPos } := by
  induction fuel with
  | zero =>
    intro s h
    have h0 : s.stepperTargetPos = s.stepperCurrentPos := by
      simp only [stepperDistanceToGo] at h; omega
    simpa [stepperRunLoop] using stepper_at_target s h0
  | succ n ih =>
    intro s h
    simp only [stepperDistanceToGo] at h
    by_cases hd : stepperDistanceToGo s = 0
    · have h0 : s.stepperTargetPos = s.stepperCurrentPos := by
        simp only [stepperDistanceToGo] at hd; omega
      simpa [stepperRunLoop, hd] using stepper_at_target s h0
    · have hne : s.stepperTargetPos ≠ s.stepperCurrentPos := by
        intro hc; apply hd; simp [stepperDistanceToGo, hc]
      simp only [stepperRunLoop, hd, ne_eq, not_false_eq_true, if_true]
      by_cases hlt : s.stepperCurrentPos < s.stepperTargetPos
      · have hrun : stepperRun s = { s with stepperCurrentPos := s.stepperCurrentPos + 1 } := by
          simp [stepperRun, hlt]
        rw [hrun, ih]
        simp only [stepperDistanceToGo]; omega
      · have hgt : s.stepperTargetPos < s.stepperCurrentPos := by omega
        have hrun : stepperRun s = { s with stepperCurrentPos := s.stepperCurrentPos - 1 } := by
          simp [stepperRun, hlt, hgt]
        rw [hrun, ih]
        simp only [stepperDistanceToGo]; omega

/-- The blocking loop ends at the target position. -/
theorem stepperRunToPosition_eq (s : State) :
    stepperRunToPosition s = { s with stepperCurrentPos := s.stepperTargetPos } :=
  stepperRunLoop_reaches_target _ s (le_refl _)

/-- C4: in the `ard` and `esp32` variants, for every state, light reading and
threshold, `checkLightAndRotate` advances the carrier position by exactly
`STEPS_PER_REVOLUTION / 4 = 50` steps when the check is due
(`now - lastRotationTime >= 5000`) and the reading exceeds the threshold, and
leaves the position unchanged otherwise; so the position never decreases.  With
threshold 2000, a reading of 2500 rotates and a reading of 1500 does not. -/
theorem C4_checkLightAndRotate_quarter_turn (s : State) (currentTime : Nat) (lightIntensity : Int) :
    (checkLightAndRotate s currentTime lightIntensity).stepperCurrentPos =
      (if usub currentTime s.lastRotationTime ≥ 5000 ∧ lightIntensity > s.LIGHT_THRESHOLD
        then s.stepperCurrentPos + 50 else s.stepperCurrentPos) ∧
    (Esp32.checkLightAndRotate s currentTime lightIntensity).stepperCurrentPos =
      (if usub currentTime s.lastRotationTime ≥ 5000 ∧ lightIntensity > s.LIGHT_THRESHOLD
        then s.stepperCurrentPos + 50 else s.stepperCurrentPos) ∧
    stepperDistanceToGo (checkLightAndRotate s currentTime lightIntensity) =
      (if usub currentTime s.lastRotationTime ≥ 5000 ∧ lightIntensity > s.LIGHT_THRESHOLD
        then 0 else stepperDistanceToGo s) ∧
    s.stepperCurrentPos ≤ (checkLightAndRotate s currentTime lightIntensity).stepperCurrentPos ∧
    s.stepperCurrentPos ≤ (Esp32.checkLightAndRotate s currentTime lightIntensity).stepperCurrentPos ∧
    STEPS_PER_REVOLUTION / 4 = 50 ∧
    (Esp32.checkLightAndRotate Esp32.initState 5000 2500).stepperCurrentPos = 50 ∧
    (Esp32.checkLightAndRotate Esp32.initState 5000 1500).stepperCurrentPos = 0 := by
  have hA : (checkLightAndRotate s currentTime lightIntensity).stepperCurrentPos =
      (if usub currentTime s.lastRotationTime ≥ 5000 ∧ lightIntensity > s.LIGHT_THRESHOLD
        then s.stepperCurrentPos + 50 else s.stepperCurrentPos) := by
    simp only [checkLightAndRotate, ROTATION_INTERVAL, stepperRunToPosition_eq, stepperMoveTo,
      STEPS_90_DEGREES, STEPS_PER_REVOLUTION]
    by_cases h1 : usub currentTime s.lastRotationTime ≥ 5000 <;>
      by_cases h2 : lightIntensity > s.LIGHT_THRESHOLD <;> simp [h1, h2]
  have hE : (Esp32.checkLightAndRotate s currentTime lightIntensity).stepperCurrentPos =
      (if usub currentTime s.lastRotationTime ≥ 5000 ∧ lightIntensity > s.LIGHT_THRESHOLD
        then s.stepperCurrentPos + 50 else s.stepperCurrentPos) := by
    simp only [Esp32.checkLightAndRotate, ROTATION_INTERVAL, stepperRunToPosition_eq,
      stepperMoveTo, STEPS_90_DEGREES, STEPS_PER_REVOLUTION]
    by_cases h1 : usub currentTime s.lastRotationTime ≥ 5000 <;>
      by_cases h2 : lightIntensity > s.LIGHT_THRESHOLD <;> simp [h1, h2]
  refine ⟨hA, hE, ?_, ?_, ?_, ?_, ?_, ?_⟩
  · simp only [checkLightAndRotate, ROTATION_INTERVAL, stepperRunToPosition_eq, stepperMoveTo,
      STEPS_90_DEGREES, STEPS_PER_REVOLUTION, stepperDistanceToGo]
    by_cases h1 : usub currentTime s.lastRotationTime ≥ 5000 <;>
      by_cases h2 : lightIntensity > s.LIGHT_THRESHOLD <;> simp [h1, h2]
  · rw [hA]; split_ifs <;> omega
  · rw [hE]; split_ifs <;> omega
  · decide
  · simp [Esp32.checkLightAndRotate, stepperRunToPosition_eq, stepperMoveTo, Esp32.initState,
      initState, usub, ULONG_RANGE, ROTATION_INTERVAL, STEPS_90_DEGREES, STEPS_PER_REVOLUTION]
  · simp [Esp32.checkLightAndRotate, stepperRunToPosition_eq, stepperMoveTo, Esp32.initState,
      initState, usub, ULONG_RANGE, ROTATION_INTERVAL, STEPS_90_DEGREES, STEPS_PER_REVOLUTION]

/-! ## Reservoir volume (C5) -/

/-- Truncation toward zero is monotone. -/
theorem truncToLong_mono {a b : ℚ} (h : a ≤ b) : truncToLong a ≤ truncToLong b := by
  unfold truncToLong
  split_ifs with ha hb hb
  · exact Int.floor_mono h
  · exact absurd (le_trans ha h) hb
  · have h1 : ⌈a⌉ ≤ 0 := by
      rw [Int.ceil_le]; push_neg at ha; exact_mod_cast ha.le
    have h2 : (0 : Int) ≤ ⌊b⌋ := Int.floor_nonneg.mpr hb
    exact le_trans h1 h2
  · exact Int.ceil_mono h

/-- The volume is `PI * 20 ^ 2 * waterLevel / 1000`. -/
theorem calculateReservoirVolume_eq (PI waterLevel : ℚ) :
    calculateReservoirVolume PI waterLevel = PI * 20 ^ 2 * waterLevel / 1000 := by
  simp only [calculateReservoirVolume, RESERVOIR_RADIUS]
  norm_num
  ring

/-- C5, as stated, fails: an echo time of 3000 microseconds gives a water level
of -16 cm, for which `calculateReservoirVolume` is negative and differs from the
clamped cylinder volume. -/
theorem C5_counterexample :
    measureWaterLevel 3000 = -16 ∧
    calculateReservoirVolume ARDUINO_PI (measureWaterLevel 3000) < 0 ∧
    calculateReservoirVolume ARDUINO_PI (measureWaterLevel 3000) ≠
      ARDUINO_PI * 20 ^ 2 * max (measureWaterLevel 3000) 0 / 1000 := by
  have h : measureWaterLevel 3000 = -16 := by
    norm_num [measureWaterLevel, RESERVOIR_HEIGHT]
  refine ⟨h, ?_, ?_⟩
  · rw [h, calculateReservoirVolume_eq]; norm_num [ARDUINO_PI]
  · rw [h, calculateReservoirVolume_eq]; norm_num [ARDUINO_PI]

/-- C5, amended: `calculateReservoirVolume` is the unclamped cylinder volume
`PI * 20 ^ 2 * level / 1000`; it is strictly increasing in the level over all
levels, zero exactly at level 0, negative for negative levels, and equal to the
clamped formula for levels that are not negative. -/
theorem C5_volume_unclamped (PI : ℚ) (hPI : 0 < PI) (level_1 level_2 : ℚ) :
    calculateReservoirVolume PI level_1 = PI * 20 ^ 2 * level_1 / 1000 ∧
    (level_1 < level_2 →
      calculateReservoirVolume PI level_1 < calculateReservoirVolume PI level_2) ∧
    (calculateReservoirVolume PI level_1 = 0 ↔ level_1 = 0) ∧
    (level_1 < 0 → calculateReservoirVolume PI level_1 < 0) ∧
    (0 ≤ level_1 →
      calculateReservoirVolume PI level_1 = PI * 20 ^ 2 * max level_1 0 / 1000) := by
  have hc : (0 : ℚ) < PI * 20 ^ 2 / 1000 := by positivity
  have hv : ∀ l : ℚ, calculateReservoirVolume PI l = PI * 20 ^ 2 / 1000 * l := by
    intro l; rw [calculateReservoirVolume_eq]; ring
  refine ⟨calculateReservoirVolume_eq PI level_1, ?_, ?_, ?_, ?_⟩
  · intro h
    rw [hv, hv]
    exact mul_lt_mul_of_pos_left h hc
  · rw [hv]
    constructor
    · intro h
      rcases mul_eq_zero.mp h with h0 | h0
      · exact absurd h0 (ne_of_gt hc)
      · exact h0
    · intro h; rw [h, mul_zero]
  · intro h
    rw [hv]
    exact mul_neg_of_pos_of_neg hc h
  · intro h
    rw [max_eq_left h]
    exact calculateReservoirVolume_eq PI level_1

/-- Witness for C5 (amended) at the Arduino value of `PI`. -/
theorem C5_volume_unclamped_witness :
    (0 : ℚ) < ARDUINO_PI ∧
    calculateReservoirVolume ARDUINO_PI (-16) < calculateReservoirVolume ARDUINO_PI 30 :=
  ⟨by norm_num [ARDUINO_PI],
   (C5_volume_unclamped ARDUINO_PI (by norm_num [ARDUINO_PI]) (-16) 30).2.1 (by norm_num)⟩

/-! ## Mode exclusion of the pH controller (C7) -/

/-- Function `checkAndAdjustPH` never writes `isPHWaiting`. -/
theorem checkAndAdjustPH_isPHWaiting (s : State) (currentTime : Nat) (pH : ℚ) :
    (checkAndAdjustPH s currentTime pH).isPHWaiting = s.isPHWaiting := by
  simp only [checkAndAdjustPH, digitalWrite]
  split_ifs <;> rfl

/-- The first `if` of `handlePHControl` preserves mode exclusion. -/
theorem phIdleCheck_exclusive (s : State) (currentTime : Nat) (pH : ℚ)
    (h : ¬ (s.isPHAdjusting = true ∧ s.isPHWaiting = true)) :
    ¬ ((phIdleCheck s currentTime pH).isPHAdjusting = true ∧
       (phIdleCheck s currentTime pH).isPHWaiting = true) := by
  unfold phIdleCheck
  split_ifs with hc
  · rw [checkAndAdjustPH_isPHWaiting]
    simp [hc.2.1]
  · exact h

/-- The second `if` of `handlePHControl` preserves mode exclusion. -/
theorem phWaitCheck_exclusive (s : State) (currentTime : Nat) (pH : ℚ)
    (h : ¬ (s.isPHAdjusting = true ∧ s.isPHWaiting = true)) :
    ¬ ((phWaitCheck s currentTime pH).isPHAdjusting = true ∧
       (phWaitCheck s currentTime pH).isPHWaiting = true) := by
  unfold phWaitCheck
  split_ifs with hc
  · simp only [checkAndAdjustPH_isPHWaiting]
    simp
  · exact h

/-- The third `if` of `handlePHControl` preserves mode exclusion. -/
theorem phDoseEnd_exclusive (s : State) (currentTime : Nat)
    (h : ¬ (s.isPHAdjusting = true ∧ s.isPHWaiting = true)) :
    ¬ ((phDoseEnd s currentTime).isPHAdjusting = true ∧
       (phDoseEnd s currentTime).isPHWaiting = true) := by
  unfold phDoseEnd
  split_ifs with hc
  · simp [digitalWrite, delay]
  · exact h

/-- One tick of `handlePHControl` preserves mode exclusion. -/
theorem handlePHControl_exclusive (s : State) (currentTime : Nat) (pH : ℚ)
    (h : ¬ (s.isPHAdjusting = true ∧ s.isPHWaiting = true)) :
    ¬ ((handlePHControl s currentTime pH).isPHAdjusting = true ∧
       (handlePHControl s currentTime pH).isPHWaiting = true) :=
  phDoseEnd_exclusive _ _ (phWaitCheck_exclusive _ _ _ (phIdleCheck_exclusive _ _ _ h))

/-- C7: in every state reachable from the initial state by ticks of
`handlePHControl`, at any times, with any pH readings, dosing durations and
targets, `isPHAdjusting` and `isPHWaiting` are not both true. -/
theorem C7_dosing_waiting_exclusive (s : State) (h : PHReachable s) :
    ¬ (s.isPHAdjusting = true ∧ s.isPHWaiting = true) := by
  induction h with
  | init => simp [initState]
  | tick s currentTime pH duration target _ ih =>
    exact handlePHControl_exclusive _ currentTime pH ih

/-- Witness for C7: the state after a first check that starts a dose. -/
theorem C7_dosing_waiting_exclusive_witness :
    PHReachable (handlePHControl
      { initState with ph_pump_duration := 10000, PH_TARGET := 6.0 } 30000 5.0) ∧
    ¬ ((handlePHControl
        { initState with ph_pump_duration := 10000, PH_TARGET := 6.0 } 30000 5.0).isPHAdjusting = true ∧
       (handlePHControl
        { initState with ph_pump_duration := 10000, PH_TARGET := 6.0 } 30000 5.0).isPHWaiting = true) :=
  ⟨PHReachable.tick initState 30000 5.0 10000 6.0 PHReachable.init,
   C7_dosing_waiting_exclusive _ (PHReachable.tick initState 30000 5.0 10000 6.0 PHReachable.init)⟩

/-! ## Misting controller: interval values, pump stop, invalid reads (C8, C9, C10) -/

/-- Function `updateVPDCycleInterval` stores one of the three band durations. -/
theorem updateVPDCycleInterval_values (s : State) (vpd : ℚ) :
    (updateVPDCycleInterval s vpd).vpdCycleInterval = 6000 ∨
    (updateVPDCycleInterval s vpd).vpdCycleInterval = 12000 ∨
    (updateVPDCycleInterval s vpd).vpdCycleInterval = 18000 := by
  simp only [updateVPDCycleInterval]
  split_ifs <;> simp

/-- The pump-stop check does not write `vpdCycleInterval`. -/
theorem vpdPumpStop_vpdCycleInterval (s : State) (currentTime : Nat) :
    (vpdPumpStop s currentTime).vpdCycleInterval = s.vpdCycleInterval := by
  simp only [vpdPumpStop, digitalWrite]
  split_ifs <;> rfl

/-- The pump-stop check does not write `lastVPDCycleTime`. -/
theorem vpdPumpStop_lastVPDCycleTime (s : State) (currentTime : Nat) :
    (vpdPumpStop s currentTime).lastVPDCycleTime = s.lastVPDCycleTime := by
  simp only [vpdPumpStop, digitalWrite]
  split_ifs <;> rfl

/-- The cycle-start check changes nothing when the interval has not elapsed. -/
theorem vpdCycleStart_skip (exp : ℚ → ℚ) (s : State) (currentTime : Nat)
    (humidity temperature : Option ℚ)
    (h : usub currentTime s.lastVPDCycleTime < s.vpdCycleInterval) :
    vpdCycleStart exp s currentTime humidity temperature = s := by
  simp [vpdCycleStart, not_le.mpr h]

/-- The interval after the cycle-start check. -/
theorem vpdCycleStart_vpdCycleInterval (exp : ℚ → ℚ) (s : State) (currentTime : Nat)
    (humidity temperature : Option ℚ) :
    (vpdCycleStart exp s currentTime humidity temperature).vpdCycleInterval =
      if usub currentTime s.lastVPDCycleTime ≥ s.vpdCycleInterval then
        match humidity, temperature with
        | some h, some t => (updateVPDCycleInterval s (calculateVPD exp t h)).vpdCycleInterval
        | _, _ => s.vpdCycleInterval
      else s.vpdCycleInterval := by
  simp only [vpdCycleStart, digitalWrite]
  split_ifs
  · cases humidity <;> cases temperature <;> rfl
  · rfl

/-- C8, as stated, fails: the initial state has `vpdCycleInterval = 1200`, and so
has the state after a first cycle start whose sensor reads are invalid. -/
theorem C8_counterexample :
    MistReachable initState ∧ initState.vpdCycleInterval = 1200 ∧
    MistReachable (handleVPDControl (fun _ => 1) initState 1200 none none) ∧
    (handleVPDControl (fun _ => 1) initState 1200 none none).vpdCycleInterval = 1200 ∧
    ¬ (∀ s : State, MistReachable s →
        s.vpdCycleInterval = 6000 ∨ s.vpdCycleInterval = 12000 ∨ s.vpdCycleInterval = 18000) := by
  refine ⟨MistReachable.init, rfl, MistReachable.tick _ _ _ _ _ MistReachable.init, ?_, ?_⟩
  · rw [handleVPDControl, vpdPumpStop_vpdCycleInterval, vpdCycleStart_vpdCycleInterval]
    simp [initState]
  · intro h
    have h0 := h initState MistReachable.init
    simp [initState] at h0

/-- C8, amended: in every reachable state of the misting controller,
`vpdCycleInterval` is its initial default or one of 6000, 12000 and 18000 ms;
after any tick in which a cycle starts with valid humidity and temperature
reads it is one of 6000, 12000 and 18000 ms. -/
theorem C8_cycleInterval_values (s : State) :
    (MistReachable s →
      s.vpdCycleInterval = initState.vpdCycleInterval ∨
      s.vpdCycleInterval = 6000 ∨ s.vpdCycleInterval = 12000 ∨ s.vpdCycleInterval = 18000) ∧
    (∀ (exp : ℚ → ℚ) (currentTime : Nat) (humidity temperature : ℚ),
      usub currentTime s.lastVPDCycleTime ≥ s.vpdCycleInterval →
      (handleVPDControl exp s currentTime (some humidity) (some temperature)).vpdCycleInterval
          = 6000 ∨
      (handleVPDControl exp s currentTime (some humidity) (some temperature)).vpdCycleInterval
          = 12000 ∨
      (handleVPDControl exp s currentTime (some humidity) (some temperature)).vpdCycleInterval
          = 18000) := by
  constructor
  · intro h
    induction h with
    | init => exact Or.inl rfl
    | tick exp s currentTime humidity temperature _ ih =>
      rw [handleVPDControl, vpdPumpStop_vpdCycleInterval, vpdCycleStart_vpdCycleInterval]
      split_ifs
      · cases humidity with
        | none => exact ih
        | some hum =>
          cases temperature with
          | none => exact ih
          | some t => exact Or.inr (updateVPDCycleInterval_values _ _)
      · exact ih
  · intro exp currentTime humidity temperature hdue
    rw [handleVPDControl, vpdPumpStop_vpdCycleInterval, vpdCycleStart_vpdCycleInterval, if_pos hdue]
    exact updateVPDCycleInterval_values _ _

/-- Witness for C8 (amended): the state after a first cycle start. -/
theorem C8_cycleInterval_values_witness :
    MistReachable (handleVPDControl (fun _ => 1) initState 1200 (some 60) (some 25)) ∧
    ((handleVPDControl (fun _ => 1) initState 1200 (some 60) (some 25)).vpdCycleInterval
        = initState.vpdCycleInterval ∨
     (handleVPDControl (fun _ => 1) initState 1200 (some 60) (some 25)).vpdCycleInterval = 6000 ∨
     (handleVPDControl (fun _ => 1) initState 1200 (some 60) (some 25)).vpdCycleInterval = 12000 ∨
     (handleVPDControl (fun _ => 1) initState 1200 (some 60) (some 25)).vpdCycleInterval = 18000) :=
  ⟨MistReachable.tick _ _ _ _ _ MistReachable.init,
   (C8_cycleInterval_values _).1 (MistReachable.tick _ _ _ _ _ MistReachable.init)⟩

/-- C9: in a tick in which no cycle starts
(`now - lastVPDCycleTime < vpdCycleInterval`), `handleVPDControl` switches the
mist relay off and clears `isVPDPumping` if `isVPDPumping` holds and
`now - lastVPDCycleTime >= 5000`, and otherwise changes nothing; in both cases
`lastVPDCycleTime` and `vpdCycleInterval` are unchanged. -/
theorem C9_pump_stop_without_cycle_start (exp : ℚ → ℚ) (s : State) (currentTime : Nat)
    (humidity temperature : Option ℚ)
    (hno : usub currentTime s.lastVPDCycleTime < s.vpdCycleInterval) :
    (s.isVPDPumping = true ∧ usub currentTime s.lastVPDCycleTime ≥ 5000 →
      (handleVPDControl exp s currentTime humidity temperature).vpdPumpRelay = Level.HIGH ∧
      (handleVPDControl exp s currentTime humidity temperature).isVPDPumping = false ∧
      (handleVPDControl exp s currentTime humidity temperature).log =
        s.log ++ [Event.digitalWrite Pin.VPD_PUMP_RELAY Level.HIGH]) ∧
    (¬ (s.isVPDPumping = true ∧ usub currentTime s.lastVPDCycleTime ≥ 5000) →
      handleVPDControl exp s currentTime humidity temperature = s) ∧
    (handleVPDControl exp s currentTime humidity temperature).lastVPDCycleTime =
      s.lastVPDCycleTime ∧
    (handleVPDControl exp s currentTime humidity temperature).vpdCycleInterval =
      s.vpdCycleInterval := by
  have hs : handleVPDControl exp s currentTime humidity temperature = vpdPumpStop s currentTime := by
    rw [handleVPDControl, vpdCycleStart_skip exp s currentTime humidity temperature hno]
  rw [hs]
  refine ⟨?_, ?_, vpdPumpStop_lastVPDCycleTime _ _, vpdPumpStop_vpdCycleInterval _ _⟩
  · intro h
    have h2 : s.isVPDPumping = true ∧ usub currentTime s.lastVPDCycleTime ≥ VPD_PUMP_DURATION := h
    simp [vpdPumpStop, h2, digitalWrite]
  · intro h
    have h2 : ¬ (s.isVPDPumping = true ∧ usub currentTime s.lastVPDCycleTime ≥ VPD_PUMP_DURATION) := h
    simp only [vpdPumpStop, if_neg h2]

/-- Witness for C9: a pump that was switched on at time 0 is switched off at
time 5000. -/
theorem C9_pump_stop_without_cycle_start_witness :
    usub 5000 ({ initState with
                  vpdCycleInterval := 12000,
                  isVPDPumping := true,
                  vpdPumpRelay := Level.LOW } : State).lastVPDCycleTime < 12000 ∧
    (handleVPDControl (fun _ => 1)
      { initState with
        vpdCycleInterval := 12000,
        isVPDPumping := true,
        vpdPumpRelay := Level.LOW } 5000 (some 60) (some 25)).vpdPumpRelay = Level.HIGH :=
  have hno : usub 5000 ({ initState with
                  vpdCycleInterval := 12000,
                  isVPDPumping := true,
                  vpdPumpRelay := Level.LOW } : State).lastVPDCycleTime < 12000 := by
    simp [usub, ULONG_RANGE, initState]
  ⟨hno, ((C9_pump_stop_without_cycle_start (fun _ => 1)
      { initState with
        vpdCycleInterval := 12000,
        isVPDPumping := true,
        vpdPumpRelay := Level.LOW } 5000 (some 60) (some 25) hno).1
      ⟨rfl, by simp [usub, ULONG_RANGE, initState]⟩).1⟩

/-- The `esp8266` misting tick coincides with the `ard` one. -/
theorem Esp8266.handleVPDControl_eq (exp : ℚ → ℚ) (s : State) (currentTime : Nat)
    (humidity temperature : Option ℚ) :
    Esp8266.handleVPDControl exp s currentTime humidity temperature =
      Aeroponics.handleVPDControl exp s currentTime humidity temperature := rfl

/-- C10: in the `ard` and `esp8266` variants, when a misting cycle starts and the
humidity or the temperature read is NaN, `handleVPDControl` keeps
`vpdCycleInterval`, sets `lastVPDCycleTime` to the current time, sets
`isVPDPumping` and switches the mist relay on; nothing else changes. -/
theorem C10_invalid_read_keeps_interval (exp : ℚ → ℚ) (s : State) (currentTime : Nat)
    (humidity temperature : Option ℚ)
    (hdue : usub currentTime s.lastVPDCycleTime ≥ s.vpdCycleInterval)
    (hnan : humidity = none ∨ temperature = none) :
    (handleVPDControl exp s currentTime humidity temperature =
      { s with lastVPDCycleTime := currentTime, isVPDPumping := true,
               vpdPumpRelay := Level.LOW,
               log := s.log ++ [Event.digitalWrite Pin.VPD_PUMP_RELAY Level.LOW] }) ∧
    (Esp8266.handleVPDControl exp s currentTime humidity temperature =
      { s with lastVPDCycleTime := currentTime, isVPDPumping := true,
               vpdPumpRelay := Level.LOW,
               log := s.log ++ [Event.digitalWrite Pin.VPD_PUMP_RELAY Level.LOW] }) ∧
    (handleVPDControl exp s currentTime humidity temperature).vpdCycleInterval =
      s.vpdCycleInterval := by
  have hstart : vpdCycleStart exp s currentTime humidity temperature =
      { s with lastVPDCycleTime := currentTime, isVPDPumping := true,
               vpdPumpRelay := Level.LOW,
               log := s.log ++ [Event.digitalWrite Pin.VPD_PUMP_RELAY Level.LOW] } := by
    simp only [vpdCycleStart, if_pos hdue, digitalWrite]
    rcases hnan with h | h
    · subst h; rfl
    · subst h; cases humidity <;> rfl
  have hA : handleVPDControl exp s currentTime humidity temperature =
      { s with lastVPDCycleTime := currentTime, isVPDPumping := true,
               vpdPumpRelay := Level.LOW,
               log := s.log ++ [Event.digitalWrite Pin.VPD_PUMP_RELAY Level.LOW] } := by
    rw [handleVPDControl, hstart]
    simp [vpdPumpStop, usub_self, VPD_PUMP_DURATION]
  refine ⟨hA, ?_, ?_⟩
  · rw [Esp8266.handleVPDControl_eq]; exact hA
  · rw [hA]

/-- Witness for C10: the first cycle start with an invalid humidity read. -/
theorem C10_invalid_read_keeps_interval_witness :
    usub 1200 initState.lastVPDCycleTime ≥ initState.vpdCycleInterval ∧
    (handleVPDControl (fun _ => 1) initState 1200 none (some 25)).vpdCycleInterval = 1200 ∧
    (handleVPDControl (fun _ => 1) initState 1200 none (some 25)).isVPDPumping = true :=
  have hdue : usub 1200 initState.lastVPDCycleTime ≥ initState.vpdCycleInterval := by
    simp [usub, ULONG_RANGE, initState]
  have h := (C10_invalid_read_keeps_interval (fun _ => 1) initState 1200 none (some 25)
    hdue (Or.inl rfl)).1
  ⟨hdue, by rw [h]; rfl, by rw [h]⟩

/-! ## Clock overflow (C16) -/

/-- Unsigned subtraction recovers the elapsed time across a counter wrap. -/
theorem usub_wrapped (last d : Nat) (hd : d < 2 ^ 32) :
    usub ((last + d) % 2 ^ 32) last = d := by
  unfold usub ULONG_RANGE
  have h1 := Nat.mod_lt last (show 0 < 2 ^ 32 by norm_num)
  omega

/-- C16: for every last-event timestamp, every elapsed time `d < 2 ^ 32` and every
interval, with `now = (last + d) mod 2 ^ 32` the test `now - last >= interval`
holds iff `d >= interval`, also when the counter wrapped and `now < last`;
accordingly the cycle start of the misting controller, the scheduled pH check,
the reservoir check and the rotation check fire iff `d` has reached their
interval. -/
theorem C16_elapsed_tests_tolerate_overflow (exp : ℚ → ℚ) (PI : ℚ) (s : State)
    (d : Nat) (hd : d < 2 ^ 32)
    (humidity temperature : Option ℚ) (pH waterLevel : ℚ) (lightIntensity : Int) :
    (∀ last interval : Nat, usub ((last + d) % 2 ^ 32) last ≥ interval ↔ d ≥ interval) ∧
    (d < s.vpdCycleInterval →
      vpdCycleStart exp s ((s.lastVPDCycleTime + d) % 2 ^ 32) humidity temperature = s) ∧
    (d ≥ s.vpdCycleInterval →
      (vpdCycleStart exp s ((s.lastVPDCycleTime + d) % 2 ^ 32) humidity
        temperature).lastVPDCycleTime = (s.lastVPDCycleTime + d) % 2 ^ 32 ∧
      (vpdCycleStart exp s ((s.lastVPDCycleTime + d) % 2 ^ 32) humidity
        temperature).isVPDPumping = true) ∧
    (d < 30000 → phIdleCheck s ((s.lastpHCheckTime + d) % 2 ^ 32) pH = s) ∧
    (d ≥ 30000 → s.isPHAdjusting = false → s.isPHWaiting = false →
      phIdleCheck s ((s.lastpHCheckTime + d) % 2 ^ 32) pH =
        checkAndAdjustPH s ((s.lastpHCheckTime + d) % 2 ^ 32) pH) ∧
    (d < 3600 →
      checkReservoirVolume PI s ((s.lastReservoirCheckTime + d) % 2 ^ 32) waterLevel = s) ∧
    (d ≥ 3600 →
      (checkReservoirVolume PI s ((s.lastReservoirCheckTime + d) % 2 ^ 32)
        waterLevel).lastReservoirCheckTime = (s.lastReservoirCheckTime + d) % 2 ^ 32) ∧
    (d < 5000 →
      checkLightAndRotate s ((s.lastRotationTime + d) % 2 ^ 32) lightIntensity = s) ∧
    (d ≥ 5000 →
      (checkLightAndRotate s ((s.lastRotationTime + d) % 2 ^ 32)
        lightIntensity).lastRotationTime = (s.lastRotationTime + d) % 2 ^ 32) := by
  have hw : ∀ last : Nat, usub ((last + d) % 2 ^ 32) last = d := fun last =>
    usub_wrapped last d hd
  refine ⟨?_, ?_, ?_, ?_, ?_, ?_, ?_, ?_, ?_⟩
  · intro last interval; rw [hw]
  · intro h
    exact vpdCycleStart_skip exp s _ humidity temperature (by rw [hw]; exact h)
  · intro h
    have h2 : usub ((s.lastVPDCycleTime + d) % 2 ^ 32) s.lastVPDCycleTime ≥ s.vpdCycleInterval := by
      rw [hw]; exact h
    simp only [vpdCycleStart, if_pos h2, digitalWrite]
    exact ⟨by cases humidity <;> cases temperature <;> rfl, trivial⟩
  · intro h
    have h2 : ¬ (s.isPHAdjusting = false ∧ s.isPHWaiting = false ∧
        usub ((s.lastpHCheckTime + d) % 2 ^ 32) s.lastpHCheckTime ≥ PH_CHECK_INTERVAL) := by
      rw [hw]; simp only [PH_CHECK_INTERVAL]; omega
    simp only [phIdleCheck, if_neg h2]
  · intro h ha hwt
    have h2 : s.isPHAdjusting = false ∧ s.isPHWaiting = false ∧
        usub ((s.lastpHCheckTime + d) % 2 ^ 32) s.lastpHCheckTime ≥ PH_CHECK_INTERVAL := by
      rw [hw]; exact ⟨ha, hwt, h⟩
    simp only [phIdleCheck, if_pos h2]
  · intro h
    have h2 : ¬ (usub ((s.lastReservoirCheckTime + d) % 2 ^ 32) s.lastReservoirCheckTime ≥
        RESERVOIR_CHECK_INTERVAL) := by
      rw [hw]; simp only [RESERVOIR_CHECK_INTERVAL]; omega
    simp only [checkReservoirVolume, if_neg h2]
  · intro h
    have h2 : usub ((s.lastReservoirCheckTime + d) % 2 ^ 32) s.lastReservoirCheckTime ≥
        RESERVOIR_CHECK_INTERVAL := by
      rw [hw]; exact h
    simp only [checkReservoirVolume, if_pos h2]
  · intro h
    have h2 : ¬ (usub ((s.lastRotationTime + d) % 2 ^ 32) s.lastRotationTime ≥
        ROTATION_INTERVAL) := by
      rw [hw]; simp only [ROTATION_INTERVAL]; omega
    simp only [checkLightAndRotate, if_neg h2]
  · intro h
    have h2 : usub ((s.lastRotationTime + d) % 2 ^ 32) s.lastRotationTime ≥
        ROTATION_INTERVAL := by
      rw [hw]; exact h
    simp only [checkLightAndRotate, if_pos h2, stepperRunToPosition_eq, stepperMoveTo]
    split_ifs <;> rfl

/-- Witness for C16: the rotation check 5000 ms after a timestamp 100 ms before
the counter wraps. -/
theorem C16_elapsed_tests_tolerate_overflow_witness :
    (5000 : Nat) < 2 ^ 32 ∧
    (4294967196 + 5000) % 2 ^ 32 = 4900 ∧
    (checkLightAndRotate
      { initState with lastRotationTime := 4294967196 } 4900 0).lastRotationTime = 4900 :=
  ⟨by norm_num, by norm_num,
   (C16_elapsed_tests_tolerate_overflow (fun _ => 1) ARDUINO_PI
      { initState with lastRotationTime := 4294967196 } 5000 (by norm_num)
      none none 6 30 0).2.2.2.2.2.2.2.2 (by norm_num)⟩

/-- The cycle-start check, when due, records the time and switches the pump on. -/
theorem vpdCycleStart_due (exp : ℚ → ℚ) (s : State) (currentTime : Nat)
    (humidity temperature : Option ℚ)
    (h : usub currentTime s.lastVPDCycleTime ≥ s.vpdCycleInterval) :
    (vpdCycleStart exp s currentTime humidity temperature).lastVPDCycleTime = currentTime ∧
    (vpdCycleStart exp s currentTime humidity temperature).isVPDPumping = true ∧
    (vpdCycleStart exp s currentTime humidity temperature).vpdPumpRelay = Level.LOW := by
  simp only [vpdCycleStart, if_pos h, digitalWrite]
  exact ⟨by cases humidity <;> cases temperature <;> rfl, trivial, trivial⟩

/-- The pump-stop check changes nothing when its guard is false. -/
theorem vpdPumpStop_idle (s : State) (currentTime : Nat)
    (h : ¬ (s.isVPDPumping = true ∧ usub currentTime s.lastVPDCycleTime ≥ VPD_PUMP_DURATION)) :
    vpdPumpStop s currentTime = s := by
  simp only [vpdPumpStop, if_neg h]

/-- The pump-stop check does not fire in the tick in which a cycle starts. -/
theorem vpdPumpStop_after_start (exp : ℚ → ℚ) (s : State) (currentTime : Nat)
    (humidity temperature : Option ℚ)
    (h : usub currentTime s.lastVPDCycleTime ≥ s.vpdCycleInterval) :
    vpdPumpStop (vpdCycleStart exp s currentTime humidity temperature) currentTime =
      vpdCycleStart exp s currentTime humidity temperature := by
  apply vpdPumpStop_idle
  rw [(vpdCycleStart_due exp s currentTime humidity temperature h).1, usub_self]
  simp [VPD_PUMP_DURATION]

/-! ## Misting: order of the two checks, short intervals (C14, C20) -/

/-- The pump-stop check keeps the cycle timer and the interval. -/
theorem vpdPumpStop_preserves_timer (s : State) (currentTime : Nat) :
    (vpdPumpStop s currentTime).lastVPDCycleTime = s.lastVPDCycleTime ∧
    (vpdPumpStop s currentTime).vpdCycleInterval = s.vpdCycleInterval :=
  ⟨vpdPumpStop_lastVPDCycleTime s currentTime, vpdPumpStop_vpdCycleInterval s currentTime⟩

/-- The interval stored by a cycle start depends on the reads alone. -/
theorem vpdCycleStart_fields_of_due (exp : ℚ → ℚ) (s t : State) (currentTime : Nat)
    (humidity temperature : Option ℚ)
    (hs : usub currentTime s.lastVPDCycleTime ≥ s.vpdCycleInterval)
    (ht : usub currentTime t.lastVPDCycleTime ≥ t.vpdCycleInterval)
    (hi : s.vpdCycleInterval = t.vpdCycleInterval) :
    (vpdCycleStart exp s currentTime humidity temperature).vpdCycleInterval =
      (vpdCycleStart exp t currentTime humidity temperature).vpdCycleInterval := by
  rw [vpdCycleStart_vpdCycleInterval, vpdCycleStart_vpdCycleInterval, if_pos hs, if_pos ht]
  cases humidity <;> cases temperature <;> simp [hi, updateVPDCycleInterval]

/-- C14: the two checks of the misting tick commute on the misting state: for
every state, time and sensor reads, the cycle-start check followed by the
pump-stop check (the order of `handleVPDControl`) and the pump-stop check
followed by the cycle-start check end with the same `lastVPDCycleTime`,
`vpdCycleInterval`, `isVPDPumping` and mist relay level. -/
theorem C14_misting_checks_commute (exp : ℚ → ℚ) (s : State) (currentTime : Nat)
    (humidity temperature : Option ℚ) :
    handleVPDControl exp s currentTime humidity temperature =
      vpdPumpStop (vpdCycleStart exp s currentTime humidity temperature) currentTime ∧
    (vpdPumpStop (vpdCycleStart exp s currentTime humidity temperature)
        currentTime).lastVPDCycleTime =
      (vpdCycleStart exp (vpdPumpStop s currentTime) currentTime humidity
        temperature).lastVPDCycleTime ∧
    (vpdPumpStop (vpdCycleStart exp s currentTime humidity temperature)
        currentTime).vpdCycleInterval =
      (vpdCycleStart exp (vpdPumpStop s currentTime) currentTime humidity
        temperature).vpdCycleInterval ∧
    (vpdPumpStop (vpdCycleStart exp s currentTime humidity temperature)
        currentTime).isVPDPumping =
      (vpdCycleStart exp (vpdPumpStop s currentTime) currentTime humidity
        temperature).isVPDPumping ∧
    (vpdPumpStop (vpdCycleStart exp s currentTime humidity temperature)
        currentTime).vpdPumpRelay =
      (vpdCycleStart exp (vpdPumpStop s currentTime) currentTime humidity
        temperature).vpdPumpRelay := by
  refine ⟨rfl, ?_⟩
  have hp := vpdPumpStop_preserves_timer s currentTime
  by_cases hdue : usub currentTime s.lastVPDCycleTime ≥ s.vpdCycleInterval
  · have hdue2 : usub currentTime (vpdPumpStop s currentTime).lastVPDCycleTime ≥
        (vpdPumpStop s currentTime).vpdCycleInterval := by
      rw [hp.1, hp.2]; exact hdue
    rw [vpdPumpStop_after_start exp s currentTime humidity temperature hdue]
    have h1 := vpdCycleStart_due exp s currentTime humidity temperature hdue
    have h2 := vpdCycleStart_due exp (vpdPumpStop s currentTime) currentTime humidity
      temperature hdue2
    refine ⟨?_, ?_, ?_, ?_⟩
    · rw [h1.1, h2.1]
    · exact vpdCycleStart_fields_of_due exp s _ currentTime humidity temperature hdue hdue2
        hp.2.symm
    · rw [h1.2.1, h2.2.1]
    · rw [h1.2.2, h2.2.2]
  · have hlt : usub currentTime s.lastVPDCycleTime < s.vpdCycleInterval := not_le.mp hdue
    have hlt2 : usub currentTime (vpdPumpStop s currentTime).lastVPDCycleTime <
        (vpdPumpStop s currentTime).vpdCycleInterval := by
      rw [hp.1, hp.2]; exact hlt
    rw [vpdCycleStart_skip exp s currentTime humidity temperature hlt,
      vpdCycleStart_skip exp _ currentTime humidity temperature hlt2]
    exact ⟨rfl, rfl, rfl, rfl⟩

/-- The mist relay is on in every reachable state in which `isVPDPumping`
holds. -/
theorem mist_relay_on_while_pumping (s : State) (h : MistReachable s) :
    s.isVPDPumping = true → s.vpdPumpRelay = Level.LOW := by
  induction h with
  | init => simp [initState]
  | tick exp s currentTime humidity temperature _ ih =>
    intro hp
    by_cases hdue : usub currentTime s.lastVPDCycleTime ≥ s.vpdCycleInterval
    · rw [handleVPDControl, vpdPumpStop_after_start exp s currentTime humidity temperature hdue]
      exact (vpdCycleStart_due exp s currentTime humidity temperature hdue).2.2
    · have hlt : usub currentTime s.lastVPDCycleTime < s.vpdCycleInterval := not_le.mp hdue
      rw [handleVPDControl, vpdCycleStart_skip exp s currentTime humidity temperature hlt] at hp ⊢
      by_cases hc : s.isVPDPumping = true ∧
          usub currentTime s.lastVPDCycleTime ≥ VPD_PUMP_DURATION
      · simp [vpdPumpStop, hc, digitalWrite] at hp
      · rw [vpdPumpStop_idle s currentTime hc] at hp ⊢
        exact ih hp

/-- With an interval of at most 5000 ms and the pump on, a misting tick is its
cycle-start check alone. -/
theorem handleVPDControl_short_interval (exp : ℚ → ℚ) (s : State) (currentTime : Nat)
    (humidity temperature : Option ℚ)
    (hint : s.vpdCycleInterval ≤ 5000) (hp : s.isVPDPumping = true) :
    handleVPDControl exp s currentTime humidity temperature =
      vpdCycleStart exp s currentTime humidity temperature ∧
    (handleVPDControl exp s currentTime humidity temperature).isVPDPumping = true ∧
    (s.vpdPumpRelay = Level.LOW →
      (handleVPDControl exp s currentTime humidity temperature).vpdPumpRelay = Level.LOW) := by
  by_cases hdue : usub currentTime s.lastVPDCycleTime ≥ s.vpdCycleInterval
  · rw [handleVPDControl, vpdPumpStop_after_start exp s currentTime humidity temperature hdue]
    have h1 := vpdCycleStart_due exp s currentTime humidity temperature hdue
    exact ⟨rfl, h1.2.1, fun _ => h1.2.2⟩
  · have hlt : usub currentTime s.lastVPDCycleTime < s.vpdCycleInterval := not_le.mp hdue
    have hc : ¬ (s.isVPDPumping = true ∧
        usub currentTime s.lastVPDCycleTime ≥ VPD_PUMP_DURATION) := by
      simp only [VPD_PUMP_DURATION]; omega
    rw [handleVPDControl, vpdCycleStart_skip exp s currentTime humidity temperature hlt,
      vpdPumpStop_idle s currentTime hc]
    exact ⟨rfl, hp, fun h => h⟩

/-- Over a run of ticks with invalid reads a short interval is kept and the pump
stays on. -/
theorem mistRun_invalid_reads (exp : ℚ → ℚ) (ticks : List (Nat × Option ℚ × Option ℚ)) :
    ∀ s : State, s.vpdCycleInterval ≤ 5000 → s.isVPDPumping = true →
      s.vpdPumpRelay = Level.LOW →
      (∀ t ∈ ticks, t.2.1 = none ∨ t.2.2 = none) →
      (mistRun exp s ticks).vpdCycleInterval = s.vpdCycleInterval ∧
      (mistRun exp s ticks).isVPDPumping = true ∧
      (mistRun exp s ticks).vpdPumpRelay = Level.LOW := by
  induction ticks with
  | nil => intro s _ hp hr _; exact ⟨rfl, hp, hr⟩
  | cons t rest ih =>
    intro s hint hp hr hall
    obtain ⟨currentTime, humidity, temperature⟩ := t
    have hnan : humidity = none ∨ temperature = none := hall _ (List.mem_cons_self _ _)
    have hstep := handleVPDControl_short_interval exp s currentTime humidity temperature hint hp
    have hi : (handleVPDControl exp s currentTime humidity temperature).vpdCycleInterval =
        s.vpdCycleInterval := by
      rw [handleVPDControl, vpdPumpStop_vpdCycleInterval, vpdCycleStart_vpdCycleInterval]
      rcases hnan with h | h <;> subst h
      · simp
      · cases humidity <;> simp
    have hrec := ih (handleVPDControl exp s currentTime humidity temperature)
      (by rw [hi]; exact hint) hstep.2.1 (hstep.2.2 hr)
      (fun t ht => hall t (List.mem_cons_of_mem _ ht))
    simp only [mistRun]
    exact ⟨by rw [hrec.1, hi], hrec.2.1, hrec.2.2⟩

/-- C20: while `vpdCycleInterval` is at most the pump duration of 5000 ms, the
pump-stop check never fires: for every state with `vpdCycleInterval <= 5000`
and `isVPDPumping`, and every time, the tick of `handleVPDControl` is its
cycle-start check alone, `isVPDPumping` stays true and an active mist relay
stays active (the relay is active in every reachable state that is pumping);
over any run of ticks whose reads are invalid the interval is kept, so the
pump stays on throughout. -/
theorem C20_pump_never_stops_with_short_interval (exp : ℚ → ℚ) (s : State)
    (hint : s.vpdCycleInterval ≤ 5000) (hp : s.isVPDPumping = true) :
    (∀ (currentTime : Nat) (humidity temperature : Option ℚ),
      handleVPDControl exp s currentTime humidity temperature =
        vpdCycleStart exp s currentTime humidity temperature ∧
      (handleVPDControl exp s currentTime humidity temperature).isVPDPumping = true ∧
      (s.vpdPumpRelay = Level.LOW →
        (handleVPDControl exp s currentTime humidity temperature).vpdPumpRelay = Level.LOW)) ∧
    (MistReachable s → s.vpdPumpRelay = Level.LOW) ∧
    (∀ ticks : List (Nat × Option ℚ × Option ℚ),
      s.vpdPumpRelay = Level.LOW →
      (∀ t ∈ ticks, t.2.1 = none ∨ t.2.2 = none) →
      (mistRun exp s ticks).vpdCycleInterval = s.vpdCycleInterval ∧
      (mistRun exp s ticks).isVPDPumping = true ∧
      (mistRun exp s ticks).vpdPumpRelay = Level.LOW) :=
  ⟨fun currentTime humidity temperature =>
      handleVPDControl_short_interval exp s currentTime humidity temperature hint hp,
   fun hr => mist_relay_on_while_pumping s hr hp,
   fun ticks hr hall => mistRun_invalid_reads exp ticks s hint hp hr hall⟩

/-- Witness for C20: after the first cycle start with invalid reads the interval
is still 1200 and the pump is on; it is still on 60 s later. -/
theorem C20_pump_never_stops_with_short_interval_witness :
    (handleVPDControl expTaylor initState 1200 none none).vpdCycleInterval ≤ 5000 ∧
    (handleVPDControl expTaylor initState 1200 none none).isVPDPumping = true ∧
    (handleVPDControl expTaylor
      (handleVPDControl expTaylor initState 1200 none none) 61200 none none).isVPDPumping
        = true :=
  have hdue : usub 1200 initState.lastVPDCycleTime ≥ initState.vpdCycleInterval := by
    simp [usub, ULONG_RANGE, initState]
  have hint : (handleVPDControl expTaylor initState 1200 none none).vpdCycleInterval ≤ 5000 := by
    rw [handleVPDControl, vpdPumpStop_vpdCycleInterval, vpdCycleStart_vpdCycleInterval]
    simp [initState]
  have hp : (handleVPDControl expTaylor initState 1200 none none).isVPDPumping = true := by
    rw [handleVPDControl, vpdPumpStop_after_start expTaylor initState 1200 none none hdue]
    exact (vpdCycleStart_due expTaylor initState 1200 none none hdue).2.1
  ⟨hint, hp, ((C20_pump_never_stops_with_short_interval expTaylor _ hint hp).1
    61200 none none).2.1⟩

/-! ## The default scenario (C15) and the defaults of `esp32.cpp` (C11) -/

/-- The exponent for 25 C as a fraction. -/
theorem svpExponent_25 : svpExponent 25 = 8635 / 5246 := by
  norm_num [svpExponent]

/-- Bounds on the real exponential at the exponent for 25 C. -/
theorem real_exp_svpExponent_bounds :
    (5.18 : ℝ) < Real.exp (8635 / 5246) ∧ Real.exp (8635 / 5246) < 5.19 := by
  constructor
  · have h := Real.sum_le_exp_of_nonneg (show (0 : ℝ) ≤ 8635 / 5246 by norm_num) 8
    simp only [Finset.sum_range_succ, Finset.sum_range_zero, Nat.factorial] at h
    norm_num at h
    linarith
  · have hsplit : (8635 / 5246 : ℝ) = 1 + 3389 / 5246 := by norm_num
    rw [hsplit, Real.exp_add]
    have h1 := Real.exp_one_lt_d9
    have h2 := Real.exp_bound' (show (0 : ℝ) ≤ 3389 / 5246 by norm_num)
      (show (3389 / 5246 : ℝ) ≤ 1 by norm_num) (show 0 < 4 by norm_num)
    simp only [Finset.sum_range_succ, Finset.sum_range_zero, Nat.factorial] at h2
    norm_num at h2
    have h3 : (0 : ℝ) < Real.exp (3389 / 5246) := Real.exp_pos _
    have h4 : (0 : ℝ) < Real.exp 1 := Real.exp_pos _
    nlinarith

/-- The VPD for humidity 60 and temperature 25 in terms of the value of `exp`. -/
theorem calculateVPD_default (exp : ℚ → ℚ) :
    calculateVPD exp 25 60 = 0.24432 * exp (svpExponent 25) := by
  simp only [calculateVPD, svpExponent]
  ring

/-- With an accurate `exp` the VPD for humidity 60 and temperature 25 lies between
1.26 and 1.28. -/
theorem calculateVPD_default_bounds (exp : ℚ → ℚ)
    (hexp : |((exp (svpExponent 25) : ℚ) : ℝ) - Real.exp ((svpExponent 25 : ℚ) : ℝ)| ≤ 1 / 100) :
    1.26 < calculateVPD exp 25 60 ∧ calculateVPD exp 25 60 < 1.28 := by
  have hx : ((svpExponent 25 : ℚ) : ℝ) = 8635 / 5246 := by
    rw [svpExponent_25]; norm_num
  rw [hx] at hexp
  have hb := real_exp_svpExponent_bounds
  have habs := abs_le.mp hexp
  have hlo : ((5.17 : ℚ) : ℝ) < ((exp (svpExponent 25) : ℚ) : ℝ) := by
    push_cast; norm_num at hb ⊢; linarith [habs.1, hb.1]
  have hhi : ((exp (svpExponent 25) : ℚ) : ℝ) < ((5.20 : ℚ) : ℝ) := by
    push_cast; norm_num at hb ⊢; linarith [habs.2, hb.2]
  have hlo2 : (5.17 : ℚ) < exp (svpExponent 25) := by exact_mod_cast hlo
  have hhi2 : exp (svpExponent 25) < (5.20 : ℚ) := by exact_mod_cast hhi
  rw [calculateVPD_default]
  constructor
  · norm_num at hlo2 ⊢; linarith
  · norm_num at hhi2 ⊢; linarith

/-- The partial sum `expTaylor` is within 0.01 of the real exponential at the
exponent for 25 C. -/
theorem expTaylor_accurate :
    |((expTaylor (svpExponent 25) : ℚ) : ℝ) - Real.exp ((svpExponent 25 : ℚ) : ℝ)| ≤ 1 / 100 := by
  have hx : ((svpExponent 25 : ℚ) : ℝ) = 8635 / 5246 := by
    rw [svpExponent_25]; norm_num
  have hv : (5.18 : ℚ) < expTaylor (svpExponent 25) ∧ expTaylor (svpExponent 25) < 5.19 := by
    rw [svpExponent_25]; norm_num [expTaylor]
  have hlo : ((5.18 : ℚ) : ℝ) < ((expTaylor (svpExponent 25) : ℚ) : ℝ) := by exact_mod_cast hv.1
  have hhi : ((expTaylor (svpExponent 25) : ℚ) : ℝ) < ((5.19 : ℚ) : ℝ) := by exact_mod_cast hv.2
  rw [hx]
  have hb := real_exp_svpExponent_bounds
  rw [abs_le]
  push_cast at hlo hhi
  norm_num at hb hlo hhi ⊢
  constructor <;> linarith [hb.1, hb.2]

/-- C15: for humidity 60 % and temperature 25 C, and every library `exp` whose
value at the argument `17.27 * 25 / (25 + 237.3)` is within 0.01 of the real
exponential, `calculateVPD` returns `svp - (60/100) * svp` with
`svp = 0.6108 * exp (...)`, a value between 1.26 and 1.28 kPa: it is neither
`> 1.5` nor `< 0.8`, so `updateVPDCycleInterval` stores 12000 ms and a cycle
start of `handleVPDControl` with these readings sets `vpdCycleInterval` to
12000 ms. -/
theorem C15_default_scenario_middle_band (exp : ℚ → ℚ)
    (hexp : |((exp (svpExponent 25) : ℚ) : ℝ) - Real.exp ((svpExponent 25 : ℚ) : ℝ)| ≤ 1 / 100) :
    calculateVPD exp 25 60 =
      0.6108 * exp (17.27 * 25 / (25 + 237.3)) -
        (60 / 100) * (0.6108 * exp (17.27 * 25 / (25 + 237.3))) ∧
    1.26 < calculateVPD exp 25 60 ∧ calculateVPD exp 25 60 < 1.28 ∧
    ¬ calculateVPD exp 25 60 > 1.5 ∧ ¬ calculateVPD exp 25 60 < 0.8 ∧
    (∀ s : State, (updateVPDCycleInterval s (calculateVPD exp 25 60)).vpdCycleInterval = 12000) ∧
    (∀ (s : State) (currentTime : Nat),
      usub currentTime s.lastVPDCycleTime ≥ s.vpdCycleInterval →
      (handleVPDControl exp s currentTime (some 60) (some 25)).vpdCycleInterval = 12000) := by
  have hb := calculateVPD_default_bounds exp hexp
  have h1 : ¬ calculateVPD exp 25 60 > 1.5 := by
    have := hb.2; norm_num at this ⊢; linarith
  have h2 : ¬ calculateVPD exp 25 60 < 0.8 := by
    have := hb.1; norm_num at this ⊢; linarith
  have h3 : ∀ s : State,
      (updateVPDCycleInterval s (calculateVPD exp 25 60)).vpdCycleInterval = 12000 := by
    intro s
    simp only [updateVPDCycleInterval, if_neg h1, if_neg h2]
  refine ⟨?_, hb.1, hb.2, h1, h2, h3, ?_⟩
  · simp only [calculateVPD]; norm_num
  · intro s currentTime hdue
    rw [handleVPDControl, vpdPumpStop_vpdCycleInterval, vpdCycleStart_vpdCycleInterval,
      if_pos hdue]
    simp only [updateVPDCycleInterval, if_neg h1, if_neg h2]

/-- Witness for C15: the degree-10 partial sum of the exponential series. -/
theorem C15_default_scenario_middle_band_witness :
    |((expTaylor (svpExponent 25) : ℚ) : ℝ) - Real.exp ((svpExponent 25 : ℚ) : ℝ)| ≤ 1 / 100 ∧
    (updateVPDCycleInterval initState (calculateVPD expTaylor 25 60)).vpdCycleInterval = 12000 :=
  ⟨expTaylor_accurate,
   (C15_default_scenario_middle_band expTaylor expTaylor_accurate).2.2.2.2.2.1 initState⟩

/-- The `esp32` misting tick at a cycle start with an invalid read. -/
theorem Esp32.handleVPDControl_invalid (exp : ℚ → ℚ) (s : State) (currentTime : Nat)
    (humidity temperature : Option ℚ)
    (hdue : usub currentTime s.lastVPDCycleTime ≥ s.vpdCycleInterval)
    (hnan : humidity = none ∨ temperature = none) :
    Esp32.handleVPDControl exp s currentTime humidity temperature =
      { s with
        lastVPDCycleTime := currentTime,
        vpdCycleInterval := (updateVPDCycleInterval s (calculateVPD exp 25 60)).vpdCycleInterval,
        isVPDPumping := true,
        vpdPumpRelay := Level.LOW,
        log := s.log ++ [Event.digitalWrite Pin.VPD_PUMP_RELAY Level.LOW] } := by
  have h0 : ¬ (VPD_PUMP_DURATION ≤ usub currentTime currentTime) := by
    rw [usub_self]; simp [VPD_PUMP_DURATION]
  have hd : Esp32.DEFAULT_HUMIDITY = 60 := by norm_num [Esp32.DEFAULT_HUMIDITY]
  have ht : Esp32.DEFAULT_TEMPERATURE = 25 := by norm_num [Esp32.DEFAULT_TEMPERATURE]
  unfold Esp32.handleVPDControl
  rw [if_pos hdue]
  rcases hnan with h | h <;> subst h
  · simp only [digitalWrite, updateVPDCycleInterval, hd, ht]
    rw [if_neg (by simp only [ge_iff_le, h0, and_false, not_false_eq_true])]
  · cases humidity <;> simp only [digitalWrite, updateVPDCycleInterval, hd, ht] <;>
      rw [if_neg (by simp only [ge_iff_le, h0, and_false, not_false_eq_true])]

/-- The `esp32` misting tick at a cycle start with valid reads. -/
theorem Esp32.handleVPDControl_valid (exp : ℚ → ℚ) (s : State) (currentTime : Nat)
    (humidity temperature : ℚ)
    (hdue : usub currentTime s.lastVPDCycleTime ≥ s.vpdCycleInterval) :
    Esp32.handleVPDControl exp s currentTime (some humidity) (some temperature) =
      { s with
        lastVPDCycleTime := currentTime,
        vpdCycleInterval :=
          (updateVPDCycleInterval s (calculateVPD exp temperature humidity)).vpdCycleInterval,
        isVPDPumping := true,
        vpdPumpRelay := Level.LOW,
        log := s.log ++ [Event.digitalWrite Pin.VPD_PUMP_RELAY Level.LOW] } := by
  have h0 : ¬ (VPD_PUMP_DURATION ≤ usub currentTime currentTime) := by
    rw [usub_self]; simp [VPD_PUMP_DURATION]
  unfold Esp32.handleVPDControl
  rw [if_pos hdue]
  simp only [digitalWrite, updateVPDCycleInterval]
  rw [if_neg (by simp only [ge_iff_le, h0, and_false, not_false_eq_true])]

/-- C11, as stated, fails: in `esp32.cpp` the first cycle start with an invalid
humidity read replaces the previous interval 1200 by a band value (12000 for
an accurate `exp`), whatever `exp` returns. -/
theorem C11_counterexample :
    usub 1200 Esp32.initState.lastVPDCycleTime ≥ Esp32.initState.vpdCycleInterval ∧
    Esp32.initState.vpdCycleInterval = 1200 ∧
    (Esp32.handleVPDControl expTaylor Esp32.initState 1200 none (some 25)).vpdCycleInterval
      = 12000 ∧
    (∀ exp : ℚ → ℚ,
      (Esp32.handleVPDControl exp Esp32.initState 1200 none (some 25)).vpdCycleInterval
        ≠ 1200) := by
  have hdue : usub 1200 Esp32.initState.lastVPDCycleTime ≥ Esp32.initState.vpdCycleInterval := by
    simp [usub, ULONG_RANGE, Esp32.initState, initState]
  refine ⟨hdue, rfl, ?_, ?_⟩
  · rw [Esp32.handleVPDControl_invalid expTaylor _ 1200 none (some 25) hdue (Or.inl rfl)]
    have hb := calculateVPD_default_bounds expTaylor expTaylor_accurate
    have h1 : ¬ calculateVPD expTaylor 25 60 > 1.5 := by
      have := hb.2; norm_num at this ⊢; linarith
    have h2 : ¬ calculateVPD expTaylor 25 60 < 0.8 := by
      have := hb.1; norm_num at this ⊢; linarith
    simp only [updateVPDCycleInterval, if_neg h1, if_neg h2]
  · intro exp
    rw [Esp32.handleVPDControl_invalid exp _ 1200 none (some 25) hdue (Or.inl rfl)]
    rcases updateVPDCycleInterval_values Esp32.initState (calculateVPD exp 25 60) with h | h | h <;>
      simp only [h] <;> norm_num

/-- C11, amended: in the `esp32` variant, when a misting cycle starts and the
humidity or the temperature read is NaN, `handleVPDControl` behaves as with the
default readings (humidity 60, temperature 25): `vpdCycleInterval` is
recomputed from the VPD of the defaults, so it is one of 6000, 12000 and
18000 ms (12000 ms when `exp` is accurate) and the previous interval is not
retained; `lastVPDCycleTime` becomes the current time, `isVPDPumping` is set
and the mist relay is switched on. -/
theorem C11_esp32_invalid_read_uses_defaults (exp : ℚ → ℚ) (s : State) (currentTime : Nat)
    (humidity temperature : Option ℚ)
    (hdue : usub currentTime s.lastVPDCycleTime ≥ s.vpdCycleInterval)
    (hnan : humidity = none ∨ temperature = none) :
    Esp32.handleVPDControl exp s currentTime humidity temperature =
      Esp32.handleVPDControl exp s currentTime (some 60) (some 25) ∧
    (Esp32.handleVPDControl exp s currentTime humidity temperature).vpdCycleInterval =
      (updateVPDCycleInterval s (calculateVPD exp 25 60)).vpdCycleInterval ∧
    ((Esp32.handleVPDControl exp s currentTime humidity temperature).vpdCycleInterval = 6000 ∨
     (Esp32.handleVPDControl exp s currentTime humidity temperature).vpdCycleInterval = 12000 ∨
     (Esp32.handleVPDControl exp s currentTime humidity temperature).vpdCycleInterval = 18000) ∧
    (|((exp (svpExponent 25) : ℚ) : ℝ) - Real.exp ((svpExponent 25 : ℚ) : ℝ)| ≤ 1 / 100 →
      (Esp32.handleVPDControl exp s currentTime humidity temperature).vpdCycleInterval
        = 12000) ∧
    (Esp32.handleVPDControl exp s currentTime humidity temperature).lastVPDCycleTime
      = currentTime ∧
    (Esp32.handleVPDControl exp s currentTime humidity temperature).isVPDPumping = true ∧
    (Esp32.handleVPDControl exp s currentTime humidity temperature).vpdPumpRelay = Level.LOW := by
  have hE := Esp32.handleVPDControl_invalid exp s currentTime humidity temperature hdue hnan
  have hD := Esp32.handleVPDControl_valid exp s currentTime 60 25 hdue
  refine ⟨?_, ?_, ?_, ?_, ?_, ?_, ?_⟩
  · rw [hE, hD]
  · rw [hE]
  · rw [hE]; exact updateVPDCycleInterval_values s _
  · intro hexp
    rw [hE]
    have hb := calculateVPD_default_bounds exp hexp
    have h1 : ¬ calculateVPD exp 25 60 > 1.5 := by
      have := hb.2; norm_num at this ⊢; linarith
    have h2 : ¬ calculateVPD exp 25 60 < 0.8 := by
      have := hb.1; norm_num at this ⊢; linarith
    simp only [updateVPDCycleInterval, if_neg h1, if_neg h2]
  · rw [hE]
  · rw [hE]
  · rw [hE]

/-- Witness for C11 (amended): the first cycle start with an invalid humidity
read stores 12000 ms. -/
theorem C11_esp32_invalid_read_uses_defaults_witness :
    usub 1200 Esp32.initState.lastVPDCycleTime ≥ Esp32.initState.vpdCycleInterval ∧
    (Esp32.handleVPDControl expTaylor Esp32.initState 1200 none (some 25)).isVPDPumping
      = true :=
  have hdue : usub 1200 Esp32.initState.lastVPDCycleTime ≥ Esp32.initState.vpdCycleInterval := by
    simp [usub, ULONG_RANGE, Esp32.initState, initState]
  ⟨hdue, (C11_esp32_invalid_read_uses_defaults expTaylor Esp32.initState 1200 none (some 25)
    hdue (Or.inl rfl)).2.2.2.2.2.1⟩

/-! ## The pH tick inside a pass of the scheduler -/


/-- In Dosing the tick of `handlePHControl` is its third `if` alone. -/
theorem handlePHControl_in_dosing (s : State) (currentTime : Nat) (pH : ℚ)
    (ha : s.isPHAdjusting = true) (hw : s.isPHWaiting = false) :
    handlePHControl s currentTime pH = phDoseEnd s currentTime := by
  have h1 : phIdleCheck s currentTime pH = s := by
    simp [phIdleCheck, ha]
  have h2 : phWaitCheck s currentTime pH = s := by
    simp [phWaitCheck, hw]
  rw [handlePHControl, h1, h2]

/-- The third `if` of `handlePHControl` on a state in which `isPHAdjusting`
holds. -/
theorem phDoseEnd_isPHAdjusting (s : State) (currentTime : Nat) (ha : s.isPHAdjusting = true) :
    ((phDoseEnd s currentTime).isPHAdjusting = false ↔
      usub currentTime s.lastpHCheckTime ≥ toULong s.ph_pump_duration) ∧
    (usub currentTime s.lastpHCheckTime ≥ toULong s.ph_pump_duration →
      (phDoseEnd s currentTime).isPHWaiting = true) ∧
    (¬ usub currentTime s.lastpHCheckTime ≥ toULong s.ph_pump_duration →
      phDoseEnd s currentTime = s) := by
  by_cases h : usub currentTime s.lastpHCheckTime ≥ toULong s.ph_pump_duration
  · have hd : dosingElapsed s currentTime := ⟨ha, h⟩
    simp [phDoseEnd, hd, h, digitalWrite, delay]
  · have hd : ¬ dosingElapsed s currentTime := fun hc => h hc.2
    simp [phDoseEnd, hd, h, ha]

/-- The misting tick does not write the variables of the pH controller. -/
theorem handleVPDControl_ph_frame (exp : ℚ → ℚ) (s : State) (currentTime : Nat)
    (humidity temperature : Option ℚ) :
    (handleVPDControl exp s currentTime humidity temperature).isPHAdjusting = s.isPHAdjusting ∧
    (handleVPDControl exp s currentTime humidity temperature).isPHWaiting = s.isPHWaiting ∧
    (handleVPDControl exp s currentTime humidity temperature).lastpHCheckTime =
      s.lastpHCheckTime ∧
    (handleVPDControl exp s currentTime humidity temperature).ph_pump_duration =
      s.ph_pump_duration := by
  simp only [handleVPDControl, vpdPumpStop, vpdCycleStart, digitalWrite, updateVPDCycleInterval]
  cases humidity <;> cases temperature <;> split_ifs <;> exact ⟨rfl, rfl, rfl, rfl⟩

/-- The reservoir check does not write the mode flags nor the pH timer. -/
theorem checkReservoirVolume_ph_frame (PI : ℚ) (s : State) (currentTime : Nat)
    (waterLevel : ℚ) :
    (checkReservoirVolume PI s currentTime waterLevel).isPHAdjusting = s.isPHAdjusting ∧
    (checkReservoirVolume PI s currentTime waterLevel).isPHWaiting = s.isPHWaiting ∧
    (checkReservoirVolume PI s currentTime waterLevel).lastpHCheckTime = s.lastpHCheckTime := by
  simp only [checkReservoirVolume]
  split_ifs <;> exact ⟨rfl, rfl, rfl⟩

/-- The rotation check does not write the variables of the pH controller. -/
theorem checkLightAndRotate_ph_frame (s : State) (currentTime : Nat) (lightIntensity : Int) :
    (checkLightAndRotate s currentTime lightIntensity).isPHAdjusting = s.isPHAdjusting ∧
    (checkLightAndRotate s currentTime lightIntensity).isPHWaiting = s.isPHWaiting ∧
    (checkLightAndRotate s currentTime lightIntensity).lastpHCheckTime = s.lastpHCheckTime ∧
    (checkLightAndRotate s currentTime lightIntensity).ph_pump_duration = s.ph_pump_duration := by
  simp only [checkLightAndRotate, stepperRunToPosition_eq, stepperMoveTo]
  split_ifs <;> exact ⟨rfl, rfl, rfl, rfl⟩

/-- A stepper step does not write the variables of the pH controller. -/
theorem stepperRun_ph_frame (s : State) :
    (stepperRun s).isPHAdjusting = s.isPHAdjusting ∧
    (stepperRun s).isPHWaiting = s.isPHWaiting ∧
    (stepperRun s).lastpHCheckTime = s.lastpHCheckTime ∧
    (stepperRun s).ph_pump_duration = s.ph_pump_duration := by
  simp only [stepperRun]
  split_ifs <;> exact ⟨rfl, rfl, rfl, rfl⟩

/-- In a pass of `loop` that starts in Dosing, the controller is still in Dosing
afterwards exactly when the elapsed time is below the `ph_pump_duration` held
at the start of the pass. -/
theorem loop_in_dosing (exp : ℚ → ℚ) (PI : ℚ) (s : State) (currentTime : Nat) (r : TickReads)
    (ha : s.isPHAdjusting = true) (hw : s.isPHWaiting = false) :
    ((loop exp PI s currentTime r).1.isPHAdjusting = false ↔
      usub currentTime s.lastpHCheckTime ≥ toULong s.ph_pump_duration) := by
  have hf := handleVPDControl_ph_frame exp s currentTime r.vpdHumidity r.vpdTemperature
  simp only [loop]
  rw [(stepperRun_ph_frame _).1, (checkLightAndRotate_ph_frame _ _ _).1,
    (checkReservoirVolume_ph_frame _ _ _ _).1,
    handlePHControl_in_dosing _ currentTime _ (by rw [hf.1]; exact ha) (by rw [hf.2.1]; exact hw)]
  have h := (phDoseEnd_isPHAdjusting
    (handleVPDControl exp s currentTime r.vpdHumidity r.vpdTemperature) currentTime
    (by rw [hf.1]; exact ha)).1
  rw [hf.2.2.1, hf.2.2.2] at h
  exact h

/-! ## Dose length (C13) and check schedule (C12) -/

/-- The misting tick does not write the reservoir timer. -/
theorem handleVPDControl_reservoir_frame (exp : ℚ → ℚ) (s : State) (currentTime : Nat)
    (humidity temperature : Option ℚ) :
    (handleVPDControl exp s currentTime humidity temperature).lastReservoirCheckTime =
      s.lastReservoirCheckTime := by
  simp only [handleVPDControl, vpdPumpStop, vpdCycleStart, digitalWrite, updateVPDCycleInterval]
  cases humidity <;> cases temperature <;> split_ifs <;> rfl

/-- A pass of `loop` that starts in Dosing before the dose has elapsed stays in
Dosing, keeps `lastpHCheckTime`, and ends with the `ph_pump_duration` written
by the reservoir check of this pass if that check is due. -/
theorem loop_dosing_continues (exp : ℚ → ℚ) (PI : ℚ) (s : State) (currentTime : Nat)
    (r : TickReads) (ha : s.isPHAdjusting = true) (hw : s.isPHWaiting = false)
    (hn : ¬ usub currentTime s.lastpHCheckTime ≥ toULong s.ph_pump_duration) :
    (loop exp PI s currentTime r).1.isPHAdjusting = true ∧
    (loop exp PI s currentTime r).1.isPHWaiting = false ∧
    (loop exp PI s currentTime r).1.lastpHCheckTime = s.lastpHCheckTime ∧
    (loop exp PI s currentTime r).1.ph_pump_duration =
      (if usub currentTime s.lastReservoirCheckTime ≥ 3600 then
        truncToLong (calculateReservoirVolume PI (measureWaterLevel r.reservoirEcho) *
          DOSAGE_RATE * 1000000)
       else s.ph_pump_duration) := by
  have hf := handleVPDControl_ph_frame exp s currentTime r.vpdHumidity r.vpdTemperature
  have hr := handleVPDControl_reservoir_frame exp s currentTime r.vpdHumidity r.vpdTemperature
  have hph : handlePHControl (handleVPDControl exp s currentTime r.vpdHumidity r.vpdTemperature)
      currentTime (readpH r.phRaw) =
      handleVPDControl exp s currentTime r.vpdHumidity r.vpdTemperature := by
    rw [handlePHControl_in_dosing _ currentTime _ (by rw [hf.1]; exact ha)
      (by rw [hf.2.1]; exact hw)]
    apply (phDoseEnd_isPHAdjusting _ currentTime (by rw [hf.1]; exact ha)).2.2
    rw [hf.2.2.1, hf.2.2.2]; exact hn
  simp only [loop]
  rw [hph]
  refine ⟨?_, ?_, ?_, ?_⟩
  · rw [(stepperRun_ph_frame _).1, (checkLightAndRotate_ph_frame _ _ _).1,
      (checkReservoirVolume_ph_frame _ _ _ _).1, hf.1, ha]
  · rw [(stepperRun_ph_frame _).2.1, (checkLightAndRotate_ph_frame _ _ _).2.1,
      (checkReservoirVolume_ph_frame _ _ _ _).2.1, hf.2.1, hw]
  · rw [(stepperRun_ph_frame _).2.2.1, (checkLightAndRotate_ph_frame _ _ _).2.2.1,
      (checkReservoirVolume_ph_frame _ _ _ _).2.2, hf.2.2.1]
  · rw [(stepperRun_ph_frame _).2.2.2, (checkLightAndRotate_ph_frame _ _ _).2.2.2]
    simp only [checkReservoirVolume, hr, RESERVOIR_CHECK_INTERVAL]
    split_ifs
    · rfl
    · exact hf.2.2.2

/-- Truncation of a value that is not negative, from integer bounds. -/
theorem truncToLong_eq_of_bounds (q : ℚ) (z : Int) (h0 : 0 ≤ q) (h1 : (z : ℚ) ≤ q)
    (h2 : q < (z : ℚ) + 1) : truncToLong q = z := by
  simp only [truncToLong, if_pos h0]
  exact Int.floor_eq_iff.mpr ⟨h1, h2⟩

/-- The dosing duration computed for an echo time of 0. -/
theorem dosing_duration_echo_0 :
    truncToLong (calculateReservoirVolume ARDUINO_PI (measureWaterLevel 0) *
      DOSAGE_RATE * 1000000) = 10995 := by
  apply truncToLong_eq_of_bounds <;>
    norm_num [calculateReservoirVolume, measureWaterLevel, ARDUINO_PI, DOSAGE_RATE,
      RESERVOIR_RADIUS, RESERVOIR_HEIGHT]

/-- The dosing duration computed for an echo time of 1000 microseconds. -/
theorem dosing_duration_echo_1000 :
    truncToLong (calculateReservoirVolume ARDUINO_PI (measureWaterLevel 1000) *
      DOSAGE_RATE * 1000000) = 5654 := by
  apply truncToLong_eq_of_bounds <;>
    norm_num [calculateReservoirVolume, measureWaterLevel, ARDUINO_PI, DOSAGE_RATE,
      RESERVOIR_RADIUS, RESERVOIR_HEIGHT]

/-- The raw reading 400 is mapped to pH 5. -/
theorem readpH_400 : readpH 400 = 5 := by
  simp [readpH, map]
  rfl

/-- With `expTaylor` the VPD for humidity 60 and temperature 25 is in the middle
band. -/
theorem expTaylor_band :
    ¬ calculateVPD expTaylor 25 60 > 1.5 ∧ ¬ calculateVPD expTaylor 25 60 < 0.8 := by
  have hb := calculateVPD_default_bounds expTaylor expTaylor_accurate
  constructor
  · have := hb.2; norm_num at this ⊢; linarith
  · have := hb.1; norm_num at this ⊢; linarith

/-- First pass of the example run. -/
theorem example_pass_1 :
    (loop expTaylor ARDUINO_PI initState 3600 (exampleReads 400 0)).1 = exampleState1 := by
  simp [loop, exampleReads, exampleState1, handleVPDControl, vpdCycleStart, vpdPumpStop,
    handlePHControl, phIdleCheck, phWaitCheck, phDoseEnd, dosingElapsed, checkReservoirVolume,
    checkLightAndRotate, stepperRun, digitalWrite, updateVPDCycleInterval, initState, usub,
    ULONG_RANGE, expTaylor_band.1, expTaylor_band.2, dosing_duration_echo_0,
    VPD_PUMP_DURATION, PH_CHECK_INTERVAL, PH_WAIT_INTERVAL, RESERVOIR_CHECK_INTERVAL,
    ROTATION_INTERVAL]

/-- Second pass of the example run: the dose begins. -/
theorem example_pass_2 :
    (loop expTaylor ARDUINO_PI exampleState1 30000 (exampleReads 400 0)).1 = exampleState2 := by
  simp [loop, exampleReads, exampleState1, exampleState2, handleVPDControl, vpdCycleStart,
    vpdPumpStop, handlePHControl, phIdleCheck, phWaitCheck, phDoseEnd, dosingElapsed,
    checkAndAdjustPH, checkReservoirVolume, toULong,
    checkLightAndRotate, stepperRun, digitalWrite, updateVPDCycleInterval, initState, usub,
    ULONG_RANGE, expTaylor_band.1, expTaylor_band.2, dosing_duration_echo_0, readpH_400,
    VPD_PUMP_DURATION, PH_CHECK_INTERVAL, PH_WAIT_INTERVAL, RESERVOIR_CHECK_INTERVAL,
    ROTATION_INTERVAL, PH_LOWER_LIMIT, PH_UPPER_LIMIT]
  norm_num

/-- The variables of the pH controller when the dose has begun. -/
theorem exampleState2_fields :
    exampleState2.isPHAdjusting = true ∧ exampleState2.isPHWaiting = false ∧
    exampleState2.lastpHCheckTime = 30000 ∧ exampleState2.ph_pump_duration = 10995 ∧
    exampleState2.lastReservoirCheckTime = 30000 :=
  ⟨rfl, rfl, rfl, rfl, rfl⟩

/-- Third pass of the example run: the reservoir check stores a new duration
while the controller is in Dosing. -/
theorem example_pass_3 (echo : Int) :
    (loop expTaylor ARDUINO_PI exampleState2 33600 (exampleReads 400 echo)).1.isPHAdjusting
      = true ∧
    (loop expTaylor ARDUINO_PI exampleState2 33600 (exampleReads 400 echo)).1.isPHWaiting
      = false ∧
    (loop expTaylor ARDUINO_PI exampleState2 33600 (exampleReads 400 echo)).1.lastpHCheckTime
      = 30000 ∧
    (loop expTaylor ARDUINO_PI exampleState2 33600 (exampleReads 400 echo)).1.ph_pump_duration
      = truncToLong (calculateReservoirVolume ARDUINO_PI (measureWaterLevel echo) *
          DOSAGE_RATE * 1000000) := by
  have hn : ¬ usub 33600 exampleState2.lastpHCheckTime ≥ toULong exampleState2.ph_pump_duration := by
    simp [exampleState2_fields.2.2.1, exampleState2_fields.2.2.2.1, usub, ULONG_RANGE, toULong]
  have hdue : usub 33600 exampleState2.lastReservoirCheckTime ≥ 3600 := by
    simp [exampleState2_fields.2.2.2.2, usub, ULONG_RANGE]
  have h := loop_dosing_continues expTaylor ARDUINO_PI exampleState2 33600
    (exampleReads 400 echo) rfl rfl hn
  rw [if_pos hdue] at h
  exact h

/-- Fourth pass of the example run: Dosing ends iff 6000 ms reach the duration
stored by the third pass. -/
theorem example_pass_4 (echo echo2 : Int) :
    ((loop expTaylor ARDUINO_PI
        (loop expTaylor ARDUINO_PI exampleState2 33600 (exampleReads 400 echo)).1
        36000 (exampleReads 400 echo2)).1.isPHAdjusting = false ↔
      6000 ≥ toULong (truncToLong (calculateReservoirVolume ARDUINO_PI (measureWaterLevel echo) *
          DOSAGE_RATE * 1000000))) := by
  have h3 := example_pass_3 echo
  have h := loop_in_dosing expTaylor ARDUINO_PI
    (loop expTaylor ARDUINO_PI exampleState2 33600 (exampleReads 400 echo)).1
    36000 (exampleReads 400 echo2) h3.1 h3.2.1
  rw [h3.2.2.1, h3.2.2.2] at h
  have hu : usub 36000 30000 = 6000 := by simp [usub, ULONG_RANGE]
  rw [hu] at h
  exact h

/-- Unfolding of a run at its first pass. -/
theorem loopRun_cons (exp : ℚ → ℚ) (PI : ℚ) (s : State) (currentTime : Nat) (r : TickReads)
    (rest : List (Nat × TickReads)) :
    loopRun exp PI s ((currentTime, r) :: rest) =
      loopRun exp PI (loop exp PI s currentTime r).1 rest := rfl

/-- The empty run. -/
theorem loopRun_nil (exp : ℚ → ℚ) (PI : ℚ) (s : State) : loopRun exp PI s [] = s := rfl

/-- The first two passes of the example run end in `exampleState2`. -/
theorem example_run_to_dosing :
    loopRun expTaylor ARDUINO_PI initState
      [(3600, exampleReads 400 0), (30000, exampleReads 400 0)] = exampleState2 := by
  rw [loopRun_cons, example_pass_1, loopRun_cons, example_pass_2, loopRun_nil]

/-- Any run that starts with the first two passes of the example run continues
from `exampleState2`. -/
theorem example_run_from_dosing (rest : List (Nat × TickReads)) :
    loopRun expTaylor ARDUINO_PI initState
      ((3600, exampleReads 400 0) :: (30000, exampleReads 400 0) :: rest) =
    loopRun expTaylor ARDUINO_PI exampleState2 rest := by
  rw [loopRun_cons, example_pass_1, loopRun_cons, example_pass_2]

/-- C13, as stated, fails.  In the run with passes at 3600, 30000, 33600 and
36000 a dose begins at 30000 with `ph_pump_duration = 10995`; the reservoir
check at 33600 stores 5654 while the controller is in Dosing, and the pass at
36000 leaves Dosing after 6000 ms, before the 10995 ms held when dosing began
have elapsed.  The same run without the change is still in Dosing at 36000. -/
theorem C13_counterexample :
    loopRun expTaylor ARDUINO_PI initState
      [(3600, exampleReads 400 0), (30000, exampleReads 400 0)] = exampleState2 ∧
    exampleState2.isPHAdjusting = true ∧
    exampleState2.lastpHCheckTime = 30000 ∧
    exampleState2.ph_pump_duration = 10995 ∧
    (loopRun expTaylor ARDUINO_PI initState
      [(3600, exampleReads 400 0), (30000, exampleReads 400 0),
       (33600, exampleReads 400 1000)]).isPHAdjusting = true ∧
    (loopRun expTaylor ARDUINO_PI initState
      [(3600, exampleReads 400 0), (30000, exampleReads 400 0),
       (33600, exampleReads 400 1000)]).ph_pump_duration = 5654 ∧
    usub 36000 30000 < toULong 10995 ∧
    (loopRun expTaylor ARDUINO_PI initState
      [(3600, exampleReads 400 0), (30000, exampleReads 400 0),
       (33600, exampleReads 400 1000), (36000, exampleReads 400 1000)]).isPHAdjusting = false ∧
    (loopRun expTaylor ARDUINO_PI initState
      [(3600, exampleReads 400 0), (30000, exampleReads 400 0),
       (33600, exampleReads 400 0), (36000, exampleReads 400 0)]).isPHAdjusting = true := by
  refine ⟨example_run_to_dosing, rfl, rfl, rfl, ?_, ?_, ?_, ?_, ?_⟩
  · rw [example_run_from_dosing, loopRun_cons, loopRun_nil]
    exact (example_pass_3 1000).1
  · rw [example_run_from_dosing, loopRun_cons, loopRun_nil, (example_pass_3 1000).2.2.2,
      dosing_duration_echo_1000]
  · simp [usub, ULONG_RANGE, toULong]
  · rw [example_run_from_dosing, loopRun_cons, loopRun_cons, loopRun_nil,
      example_pass_4 1000 1000, dosing_duration_echo_1000]
    simp [toULong, ULONG_RANGE]
  · rw [example_run_from_dosing, loopRun_cons, loopRun_cons, loopRun_nil]
    have h := example_pass_4 0 0
    rw [dosing_duration_echo_0] at h
    have hne : ¬ (6000 ≥ toULong 10995) := by simp [toULong, ULONG_RANGE]
    cases hb : (loop expTaylor ARDUINO_PI
        (loop expTaylor ARDUINO_PI exampleState2 33600 (exampleReads 400 0)).1
        36000 (exampleReads 400 0)).1.isPHAdjusting
    · exact absurd (h.mp hb) hne
    · rfl

/-- C13, amended: the dose length is not latched when dosing begins.  In every
pass of `loop` that starts in Dosing, the controller leaves Dosing exactly when
`now - lastpHCheckTime >= ph_pump_duration` for the value of
`ph_pump_duration` current at that pass (converted to `unsigned long`); when it
stays in Dosing, the reservoir check of the same pass, if due, replaces
`ph_pump_duration`, and that new value is the one compared in the next pass. -/
theorem C13_dose_ends_by_current_duration (exp : ℚ → ℚ) (PI : ℚ) (s : State)
    (currentTime : Nat) (r : TickReads)
    (ha : s.isPHAdjusting = true) (hw : s.isPHWaiting = false) :
    ((handlePHControl s currentTime (readpH r.phRaw)).isPHAdjusting = false ↔
      usub currentTime s.lastpHCheckTime ≥ toULong s.ph_pump_duration) ∧
    ((loop exp PI s currentTime r).1.isPHAdjusting = false ↔
      usub currentTime s.lastpHCheckTime ≥ toULong s.ph_pump_duration) ∧
    (¬ usub currentTime s.lastpHCheckTime ≥ toULong s.ph_pump_duration →
      (loop exp PI s currentTime r).1.isPHAdjusting = true ∧
      (loop exp PI s currentTime r).1.isPHWaiting = false ∧
      (loop exp PI s currentTime r).1.lastpHCheckTime = s.lastpHCheckTime ∧
      (loop exp PI s currentTime r).1.ph_pump_duration =
        (if usub currentTime s.lastReservoirCheckTime ≥ 3600 then
          truncToLong (calculateReservoirVolume PI (measureWaterLevel r.reservoirEcho) *
            DOSAGE_RATE * 1000000)
         else s.ph_pump_duration)) := by
  refine ⟨?_, loop_in_dosing exp PI s currentTime r ha hw,
    loop_dosing_continues exp PI s currentTime r ha hw⟩
  rw [handlePHControl_in_dosing s currentTime _ ha hw]
  exact (phDoseEnd_isPHAdjusting s currentTime ha).1

/-- Witness for C13 (amended): the pass at 33600 of the example run, with an
echo time of 1000 microseconds, stays in Dosing and stores the duration 5654. -/
theorem C13_dose_ends_by_current_duration_witness :
    exampleState2.isPHAdjusting = true ∧ exampleState2.isPHWaiting = false ∧
    ¬ usub 33600 exampleState2.lastpHCheckTime ≥ toULong exampleState2.ph_pump_duration ∧
    (loop expTaylor ARDUINO_PI exampleState2 33600 (exampleReads 400 1000)).1.ph_pump_duration
      = 5654 :=
  have hn : ¬ usub 33600 exampleState2.lastpHCheckTime ≥
      toULong exampleState2.ph_pump_duration := by
    simp [exampleState2_fields.2.2.1, exampleState2_fields.2.2.2.1, usub, ULONG_RANGE, toULong]
  have hdue : usub 33600 exampleState2.lastReservoirCheckTime ≥ 3600 := by
    simp [exampleState2_fields.2.2.2.2, usub, ULONG_RANGE]
  ⟨rfl, rfl, hn, by
    have h := ((C13_dose_ends_by_current_duration expTaylor ARDUINO_PI exampleState2 33600
      (exampleReads 400 1000) rfl rfl).2.2 hn).2.2.2
    rw [if_pos hdue] at h
    rw [h]
    exact dosing_duration_echo_1000⟩

/-- Function `checkAndAdjustPH` always records the time of the check. -/
theorem checkAndAdjustPH_lastpHCheckTime (s : State) (currentTime : Nat) (pH : ℚ) :
    (checkAndAdjustPH s currentTime pH).lastpHCheckTime = currentTime := by
  simp only [checkAndAdjustPH, digitalWrite]
  split_ifs <;> rfl

/-- An out-of-range reading sets `isPHAdjusting`. -/
theorem checkAndAdjustPH_out_of_range (s : State) (currentTime : Nat) (pH : ℚ)
    (h : pH < 5.5 ∨ pH > 6.5) :
    (checkAndAdjustPH s currentTime pH).isPHAdjusting = true := by
  have h2 : pH < PH_LOWER_LIMIT ∨ pH > PH_UPPER_LIMIT := by
    simpa [PH_LOWER_LIMIT, PH_UPPER_LIMIT] using h
  simp [checkAndAdjustPH, h2]

/-- A positive elapsed time separates the two timestamps. -/
theorem usub_pos_ne (a b : Nat) (h : 0 < usub a b) : b ≠ a := by
  intro hab
  rw [hab, usub_self] at h
  exact absurd h (lt_irrefl 0)

/-- The third `if` of `handlePHControl` does not write `lastpHCheckTime`. -/
theorem phDoseEnd_lastpHCheckTime (s : State) (currentTime : Nat) :
    (phDoseEnd s currentTime).lastpHCheckTime = s.lastpHCheckTime := by
  unfold phDoseEnd
  split_ifs with hc
  · simp [digitalWrite, delay]
  · rfl

/-- C12: for every state and time, the first two `if`s of `handlePHControl` run
`checkAndAdjustPH` exactly when (neither `isPHAdjusting` nor `isPHWaiting`, and
`now - lastpHCheckTime >= 30000`) or (`isPHWaiting`, and
`now - lastpHCheckTime >= 18000`), and otherwise leave the state unchanged;
whenever the check runs, `isPHWaiting` is false and `lastpHCheckTime` is the
current time afterwards, whatever the reading; and an out-of-range reading
from Waiting sets `isPHAdjusting` in the same tick, which does not end in
Idle. -/
theorem C12_check_schedule (s : State) (currentTime : Nat) (pH : ℚ) :
    handlePHControl s currentTime pH =
      phDoseEnd (phWaitCheck (phIdleCheck s currentTime pH) currentTime pH) currentTime ∧
    (s.isPHAdjusting = false ∧ s.isPHWaiting = false ∧
        usub currentTime s.lastpHCheckTime ≥ 30000 →
      phWaitCheck (phIdleCheck s currentTime pH) currentTime pH =
        checkAndAdjustPH s currentTime pH) ∧
    (s.isPHWaiting = true ∧ usub currentTime s.lastpHCheckTime ≥ 18000 →
      phWaitCheck (phIdleCheck s currentTime pH) currentTime pH =
        checkAndAdjustPH
          { s with isPHWaiting := false, log := s.log ++ [Event.setPHWaiting false] }
          currentTime pH) ∧
    (((s.isPHAdjusting = false ∧ s.isPHWaiting = false ∧
          usub currentTime s.lastpHCheckTime ≥ 30000) ∨
        (s.isPHWaiting = true ∧ usub currentTime s.lastpHCheckTime ≥ 18000)) ↔
      phWaitCheck (phIdleCheck s currentTime pH) currentTime pH ≠ s) ∧
    (((s.isPHAdjusting = false ∧ s.isPHWaiting = false ∧
          usub currentTime s.lastpHCheckTime ≥ 30000) ∨
        (s.isPHWaiting = true ∧ usub currentTime s.lastpHCheckTime ≥ 18000)) →
      (phWaitCheck (phIdleCheck s currentTime pH) currentTime pH).isPHWaiting = false ∧
      (phWaitCheck (phIdleCheck s currentTime pH) currentTime pH).lastpHCheckTime
        = currentTime ∧
      (handlePHControl s currentTime pH).lastpHCheckTime = currentTime) ∧
    (s.isPHWaiting = true ∧ usub currentTime s.lastpHCheckTime ≥ 18000 →
      (pH < 5.5 ∨ pH > 6.5) →
      (phWaitCheck (phIdleCheck s currentTime pH) currentTime pH).isPHAdjusting = true ∧
      (phWaitCheck (phIdleCheck s currentTime pH) currentTime pH).isPHWaiting = false ∧
      ((handlePHControl s currentTime pH).isPHAdjusting = true ∨
       (handlePHControl s currentTime pH).isPHWaiting = true)) := by
  have hA : s.isPHAdjusting = false ∧ s.isPHWaiting = false ∧
        usub currentTime s.lastpHCheckTime ≥ 30000 →
      phWaitCheck (phIdleCheck s currentTime pH) currentTime pH =
        checkAndAdjustPH s currentTime pH := by
    intro h
    have hc : s.isPHAdjusting = false ∧ s.isPHWaiting = false ∧
        usub currentTime s.lastpHCheckTime ≥ PH_CHECK_INTERVAL := h
    rw [phWaitCheck_after_idle_check s currentTime pH pH hc]
    simp only [phIdleCheck, if_pos hc]
  have hB : s.isPHWaiting = true ∧ usub currentTime s.lastpHCheckTime ≥ 18000 →
      phWaitCheck (phIdleCheck s currentTime pH) currentTime pH =
        checkAndAdjustPH
          { s with isPHWaiting := false, log := s.log ++ [Event.setPHWaiting false] }
          currentTime pH := by
    intro h
    have hc : s.isPHWaiting = true ∧ usub currentTime s.lastpHCheckTime ≥ PH_WAIT_INTERVAL := h
    have hi : phIdleCheck s currentTime pH = s := by
      simp [phIdleCheck, h.1]
    rw [hi]
    simp only [phWaitCheck, if_pos hc]
  have hC : ¬ (s.isPHAdjusting = false ∧ s.isPHWaiting = false ∧
        usub currentTime s.lastpHCheckTime ≥ 30000) →
      ¬ (s.isPHWaiting = true ∧ usub currentTime s.lastpHCheckTime ≥ 18000) →
      phWaitCheck (phIdleCheck s currentTime pH) currentTime pH = s := by
    intro h1 h2
    have hc1 : ¬ (s.isPHAdjusting = false ∧ s.isPHWaiting = false ∧
        usub currentTime s.lastpHCheckTime ≥ PH_CHECK_INTERVAL) := h1
    have hc2 : ¬ (s.isPHWaiting = true ∧
        usub currentTime s.lastpHCheckTime ≥ PH_WAIT_INTERVAL) := h2
    simp only [phIdleCheck, if_neg hc1, phWaitCheck, if_neg hc2]
  have hD : ((s.isPHAdjusting = false ∧ s.isPHWaiting = false ∧
          usub currentTime s.lastpHCheckTime ≥ 30000) ∨
        (s.isPHWaiting = true ∧ usub currentTime s.lastpHCheckTime ≥ 18000)) →
      (phWaitCheck (phIdleCheck s currentTime pH) currentTime pH).isPHWaiting = false ∧
      (phWaitCheck (phIdleCheck s currentTime pH) currentTime pH).lastpHCheckTime
        = currentTime := by
    rintro (h | h)
    · rw [hA h, checkAndAdjustPH_isPHWaiting, checkAndAdjustPH_lastpHCheckTime]
      exact ⟨h.2.1, rfl⟩
    · rw [hB h, checkAndAdjustPH_isPHWaiting, checkAndAdjustPH_lastpHCheckTime]
      exact ⟨rfl, rfl⟩
  refine ⟨rfl, hA, hB, ?_, ?_, ?_⟩
  rotate_left
  · intro h
    refine ⟨(hD h).1, (hD h).2, ?_⟩
    rw [handlePHControl, phDoseEnd_lastpHCheckTime]
    exact (hD h).2
  rotate_left
  · constructor
    · intro h heq
      have hl := (hD h).2
      rw [heq] at hl
      have hpos : 0 < usub currentTime s.lastpHCheckTime := by
        rcases h with h | h
        · have := h.2.2; omega
        · have := h.2; omega
      exact usub_pos_ne _ _ hpos hl
    · intro hne
      by_contra hcon
      push_neg at hcon
      apply hne
      exact hC (fun h => absurd h.2.2 (not_le.mpr (hcon.1 h.1 h.2.1)))
        (fun h => absurd h.2 (not_le.mpr (hcon.2 h.1)))
  · intro h hout
    have hadj : (phWaitCheck (phIdleCheck s currentTime pH) currentTime pH).isPHAdjusting
        = true := by
      rw [hB h]; exact checkAndAdjustPH_out_of_range _ _ _ hout
    refine ⟨hadj, (hD (Or.inr h)).1, ?_⟩
    rw [handlePHControl]
    by_cases he : usub currentTime
        (phWaitCheck (phIdleCheck s currentTime pH) currentTime pH).lastpHCheckTime ≥
        toULong (phWaitCheck (phIdleCheck s currentTime pH) currentTime pH).ph_pump_duration
    · exact Or.inr ((phDoseEnd_isPHAdjusting _ currentTime hadj).2.1 he)
    · rw [(phDoseEnd_isPHAdjusting _ currentTime hadj).2.2 he]
      exact Or.inl hadj

/-- Witness for C12: from Waiting, 18 s after the last check, a reading of 5
starts a new dose at once. -/
theorem C12_check_schedule_witness :
    (({ initState with
        isPHWaiting := true,
        lastpHCheckTime := 30000,
        ph_pump_duration := 10000 } : State).isPHWaiting = true ∧
      usub 48000 ({ initState with
        isPHWaiting := true,
        lastpHCheckTime := 30000,
        ph_pump_duration := 10000 } : State).lastpHCheckTime ≥ 18000) ∧
    ((5 : ℚ) < 5.5 ∨ (5 : ℚ) > 6.5) ∧
    (phWaitCheck (phIdleCheck
      { initState with
        isPHWaiting := true,
        lastpHCheckTime := 30000,
        ph_pump_duration := 10000 } 48000 5) 48000 5).isPHAdjusting = true :=
  have hc : ({ initState with
        isPHWaiting := true,
        lastpHCheckTime := 30000,
        ph_pump_duration := 10000 } : State).isPHWaiting = true ∧
      usub 48000 ({ initState with
        isPHWaiting := true,
        lastpHCheckTime := 30000,
        ph_pump_duration := 10000 } : State).lastpHCheckTime ≥ 18000 :=
    ⟨rfl, by simp [usub, ULONG_RANGE]⟩
  have hout : (5 : ℚ) < 5.5 ∨ (5 : ℚ) > 6.5 := Or.inl (by norm_num)
  ⟨hc, hout, ((C12_check_schedule _ 48000 5).2.2.2.2.2 hc hout).1⟩

/-! ## Relay invariant of the pH controller (C19) -/

/-- A check from Idle preserves the relay invariant. -/
theorem checkAndAdjustPH_relaySafe (s : State) (currentTime : Nat) (pH : ℚ)
    (ha : s.isPHAdjusting = false) (hw : s.isPHWaiting = false) (h : PHRelaySafe s) :
    PHRelaySafe (checkAndAdjustPH s currentTime pH) := by
  obtain ⟨_, h2, _, h4⟩ := h
  obtain ⟨hacid, hbase⟩ := h2 ha
  simp only [PHRelaySafe, checkAndAdjustPH, digitalWrite]
  split_ifs <;> simp [ha, hw, hacid, hbase, h4]

/-- The first `if` of `handlePHControl` preserves the relay invariant. -/
theorem phIdleCheck_relaySafe (s : State) (currentTime : Nat) (pH : ℚ) (h : PHRelaySafe s) :
    PHRelaySafe (phIdleCheck s currentTime pH) := by
  unfold phIdleCheck
  split_ifs with hc
  · exact checkAndAdjustPH_relaySafe s currentTime pH hc.1 hc.2.1 h
  · exact h

/-- The second `if` of `handlePHControl` preserves the relay invariant. -/
theorem phWaitCheck_relaySafe (s : State) (currentTime : Nat) (pH : ℚ) (h : PHRelaySafe s) :
    PHRelaySafe (phWaitCheck s currentTime pH) := by
  unfold phWaitCheck
  split_ifs with hc
  · have ha : s.isPHAdjusting = false := by
      cases hadj : s.isPHAdjusting
      · rfl
      · exact absurd ⟨hadj, hc.1⟩ h.1
    obtain ⟨_, h2, h3, h4⟩ := h
    exact checkAndAdjustPH_relaySafe
      { s with isPHWaiting := false, log := s.log ++ [Event.setPHWaiting false] }
      currentTime pH ha rfl ⟨by simp, fun _ => h2 ha, h3, h4⟩
  · exact h

/-- The third `if` of `handlePHControl` preserves the relay invariant. -/
theorem phDoseEnd_relaySafe (s : State) (currentTime : Nat) (h : PHRelaySafe s) :
    PHRelaySafe (phDoseEnd s currentTime) := by
  unfold phDoseEnd
  split_ifs with hc
  · simp [PHRelaySafe, digitalWrite, delay]
  · exact h

/-- One tick of `handlePHControl` preserves the relay invariant. -/
theorem handlePHControl_relaySafe (s : State) (currentTime : Nat) (pH : ℚ)
    (h : PHRelaySafe s) : PHRelaySafe (handlePHControl s currentTime pH) :=
  phDoseEnd_relaySafe _ _ (phWaitCheck_relaySafe _ _ _ (phIdleCheck_relaySafe _ _ _ h))

/-- The relay invariant holds in every reachable state of the pH controller. -/
theorem PHReachable_relaySafe (s : State) (h : PHReachable s) : PHRelaySafe s := by
  induction h with
  | init => simp [PHRelaySafe, initState]
  | tick s currentTime pH duration target _ ih =>
    exact handlePHControl_relaySafe _ currentTime pH ih

/-- C19: in every state reachable from the initial state by ticks of
`handlePHControl` (any times, readings, dosing durations and targets), the acid
and base relays are not both active, an active acid or base relay implies that
the mode is Dosing (`isPHAdjusting` and not `isPHWaiting`), and the mix relay
is off. -/
theorem C19_no_relay_conflict (s : State) (h : PHReachable s) :
    ¬ (s.acidPumpRelay = Level.LOW ∧ s.basePumpRelay = Level.LOW) ∧
    (s.acidPumpRelay = Level.LOW ∨ s.basePumpRelay = Level.LOW →
      s.isPHAdjusting = true ∧ s.isPHWaiting = false) ∧
    s.mixPumpRelay = Level.HIGH ∧
    initState.acidPumpRelay = Level.HIGH ∧ initState.basePumpRelay = Level.HIGH ∧
    initState.mixPumpRelay = Level.HIGH ∧
    initState.isPHAdjusting = false ∧ initState.isPHWaiting = false := by
  obtain ⟨h1, h2, h3, h4⟩ := PHReachable_relaySafe s h
  refine ⟨h3, ?_, h4, rfl, rfl, rfl, rfl, rfl⟩
  intro hon
  have hadj : s.isPHAdjusting = true := by
    cases hb : s.isPHAdjusting
    · obtain ⟨ha, hbse⟩ := h2 hb
      rcases hon with ho | ho
      · rw [ha] at ho; exact absurd ho (by decide)
      · rw [hbse] at ho; exact absurd ho (by decide)
    · rfl
  refine ⟨hadj, ?_⟩
  cases hw : s.isPHWaiting
  · rfl
  · exact absurd ⟨hadj, hw⟩ h1

/-- Witness for C19: the state after a first check that starts a base dose. -/
theorem C19_no_relay_conflict_witness :
    PHReachable (handlePHControl
      { initState with ph_pump_duration := 10000, PH_TARGET := 6.0 } 30000 5.0) ∧
    (handlePHControl
      { initState with ph_pump_duration := 10000, PH_TARGET := 6.0 } 30000 5.0).mixPumpRelay
        = Level.HIGH :=
  ⟨PHReachable.tick initState 30000 5.0 10000 6.0 PHReachable.init,
   (C19_no_relay_conflict _
      (PHReachable.tick initState 30000 5.0 10000 6.0 PHReachable.init)).2.2.1⟩

/-! ## Snapshot and controller reads (C17), pH mapping (C18) -/

/-- From Idle an in-range reading never starts a dose. -/
theorem handlePHControl_idle_in_range (s : State) (currentTime : Nat) (pH : ℚ)
    (ha : s.isPHAdjusting = false) (hw : s.isPHWaiting = false)
    (hin : 5.5 ≤ pH ∧ pH ≤ 6.5) :
    (handlePHControl s currentTime pH).isPHAdjusting = false := by
  have hin2 : ¬ (pH < PH_LOWER_LIMIT ∨ pH > PH_UPPER_LIMIT) := by
    simp only [PH_LOWER_LIMIT, PH_UPPER_LIMIT]
    push_neg
    exact hin
  have h1 : (phIdleCheck s currentTime pH).isPHAdjusting = false ∧
      (phIdleCheck s currentTime pH).isPHWaiting = false := by
    simp only [phIdleCheck, checkAndAdjustPH, if_neg hin2]
    split_ifs <;> exact ⟨ha, hw⟩
  have h2 : phWaitCheck (phIdleCheck s currentTime pH) currentTime pH =
      phIdleCheck s currentTime pH := by
    simp [phWaitCheck, h1.2]
  have h3 : ¬ dosingElapsed (phIdleCheck s currentTime pH) currentTime := by
    intro hc
    have hadj : (phIdleCheck s currentTime pH).isPHAdjusting = true := hc.1
    rw [h1.1] at hadj
    exact absurd hadj (by decide)
  rw [handlePHControl, h2]
  simp only [phDoseEnd, if_neg h3]
  exact h1.1

/-- The raw reading 480 is mapped to pH 6. -/
theorem readpH_480 : readpH 480 = 6 := by
  simp [readpH, map]
  rfl

/-- C17, as stated, fails: two passes from the same state with the same snapshot
reads differ in the pH dose decision (the read inside `checkAndAdjustPH`
returns 400 in one and 480 in the other) and in the stored dosing duration
(the echo read inside `checkReservoirVolume` is 0 in one and 1000 in the
other). -/
theorem C17_counterexample :
    loopSnapshot expTaylor ARDUINO_PI (exampleReads 400 0) =
      loopSnapshot expTaylor ARDUINO_PI (exampleReads 480 0) ∧
    (loop expTaylor ARDUINO_PI exampleState1 30000 (exampleReads 400 0)).1.isPHAdjusting
      = true ∧
    (loop expTaylor ARDUINO_PI exampleState1 30000 (exampleReads 480 0)).1.isPHAdjusting
      = false ∧
    loopSnapshot expTaylor ARDUINO_PI (exampleReads 400 0) =
      loopSnapshot expTaylor ARDUINO_PI (exampleReads 400 1000) ∧
    (loop expTaylor ARDUINO_PI exampleState2 33600 (exampleReads 400 0)).1.ph_pump_duration
      = 10995 ∧
    (loop expTaylor ARDUINO_PI exampleState2 33600 (exampleReads 400 1000)).1.ph_pump_duration
      = 5654 := by
  refine ⟨rfl, ?_, ?_, rfl, ?_, ?_⟩
  · rw [example_pass_2]; rfl
  · have hf := handleVPDControl_ph_frame expTaylor exampleState1 30000
      (exampleReads 480 0).vpdHumidity (exampleReads 480 0).vpdTemperature
    simp only [loop]
    rw [(stepperRun_ph_frame _).1, (checkLightAndRotate_ph_frame _ _ _).1,
      (checkReservoirVolume_ph_frame _ _ _ _).1]
    apply handlePHControl_idle_in_range
    · rw [hf.1]; rfl
    · rw [hf.2.1]; rfl
    · have : readpH (exampleReads 480 0).phRaw = 6 := readpH_480
      rw [this]; norm_num
  · rw [(example_pass_3 0).2.2.2, dosing_duration_echo_0]
  · rw [(example_pass_3 1000).2.2.2, dosing_duration_echo_1000]

/-- C17, amended: within one pass of `loop` every controller decides on the
value returned by its own sensor read, not on the snapshot taken at the start
of the pass.  Two passes from the same state at the same time whose reads
inside `handleVPDControl`, `checkAndAdjustPH`, `checkReservoirVolume` and
`checkLightAndRotate` agree end in the same controller state, whatever the
snapshot reads returned; the snapshot reads determine the sensor globals and
nothing else. -/
theorem C17_decisions_use_controller_reads (exp : ℚ → ℚ) (PI : ℚ) (s : State)
    (currentTime : Nat) (r r' : TickReads)
    (hh : r.vpdHumidity = r'.vpdHumidity) (ht : r.vpdTemperature = r'.vpdTemperature)
    (hp : r.phRaw = r'.phRaw) (he : r.reservoirEcho = r'.reservoirEcho)
    (hl : r.rotationLight = r'.rotationLight) :
    (loop exp PI s currentTime r).1 = (loop exp PI s currentTime r').1 ∧
    (loop exp PI s currentTime r).2 = loopSnapshot exp PI r ∧
    (loop exp PI s currentTime r).1 =
      stepperRun (checkLightAndRotate
        (checkReservoirVolume PI
          (handlePHControl
            (handleVPDControl exp s currentTime r.vpdHumidity r.vpdTemperature)
            currentTime (readpH r.phRaw))
          currentTime (measureWaterLevel r.reservoirEcho))
        currentTime r.rotationLight) := by
  refine ⟨?_, rfl, rfl⟩
  simp only [loop, hh, ht, hp, he, hl]

/-- Witness for C17 (amended): two passes that differ only in the snapshot reads
end in the same controller state. -/
theorem C17_decisions_use_controller_reads_witness :
    (loop expTaylor ARDUINO_PI exampleState1 30000 (exampleReads 400 0)).1 =
    (loop expTaylor ARDUINO_PI exampleState1 30000
      { exampleReads 400 0 with loopPHRaw := 1023, loopEcho := 2000, loopLight := 4000,
                                 loopTemperature := none }).1 :=
  (C17_decisions_use_controller_reads expTaylor ARDUINO_PI exampleState1 30000
    (exampleReads 400 0)
    { exampleReads 400 0 with loopPHRaw := 1023, loopEcho := 2000, loopLight := 4000,
                               loopTemperature := none }
    rfl rfl rfl rfl rfl).1

/-- C18: `readpH` does not return the linear map `14 * r / F`.  For the raw
reading 504 on `ard` it returns 6 (inside `[5.5, 6.5]`, so `checkAndAdjustPH`
does not dose), although `14 * 504 / 1023` is above 6.5; on `esp32` the
reading 2048 gives 7, not `14 * 2048 / 4095`; on `esp8266` the result is a
whole number whatever the core's `map` computes, hence not `14 * 504 / 1023`.
The end points are mapped as claimed: 0 to 0 and full scale to 14. -/
theorem C18_readpH_truncates :
    readpH 504 = 6 ∧ (14 * 504 / 1023 : ℚ) > 6.5 ∧ readpH 504 ≠ 14 * 504 / 1023 ∧
    (checkAndAdjustPH initState 30000 (readpH 504)).isPHAdjusting = false ∧
    (checkAndAdjustPH initState 30000 (14 * 504 / 1023)).isPHAdjusting = true ∧
    Esp32.readpH 2048 = 7 ∧ Esp32.readpH 2048 ≠ 14 * 2048 / 4095 ∧
    (∀ coreMap : Int → Int → Int → Int → Int → Int,
      Esp8266.readpH coreMap 504 ≠ 14 * 504 / 1023) ∧
    readpH 0 = 0 ∧ readpH 1023 = 14 ∧ Esp32.readpH 0 = 0 ∧ Esp32.readpH 4095 = 14 := by
  have h504 : readpH 504 = 6 := by
    simp [readpH, map]; rfl
  have h2048 : Esp32.readpH 2048 = 7 := by
    simp [Esp32.readpH, map]; rfl
  refine ⟨h504, by norm_num, ?_, ?_, ?_, h2048, ?_, ?_, ?_, ?_, ?_, ?_⟩
  · rw [h504]; norm_num
  · rw [h504]
    have hin : ¬ ((6 : ℚ) < PH_LOWER_LIMIT ∨ (6 : ℚ) > PH_UPPER_LIMIT) := by
      norm_num [PH_LOWER_LIMIT, PH_UPPER_LIMIT]
    simp [checkAndAdjustPH, hin, initState]
  · apply checkAndAdjustPH_out_of_range
    right; norm_num
  · rw [h2048]; norm_num
  · intro coreMap h
    simp only [Esp8266.readpH] at h
    have h2 : ((coreMap 504 0 1023 0 14 : Int) : ℚ) * 1023 = 14 * 504 := by
      rw [h]; norm_num
    have h3 : (coreMap 504 0 1023 0 14) * 1023 = 14 * 504 := by exact_mod_cast h2
    omega
  · simp [readpH, map]
  · simp [readpH, map]; rfl
  · simp [Esp32.readpH, map]
  · simp [Esp32.readpH, map]; rfl

/-! ## Negative dosing durations (C21) -/

/-- The unsigned value of a `long`, as an integer. -/
theorem toULong_cast (d : Int) : ((toULong d : Nat) : Int) = d % 4294967296 := by
  unfold toULong ULONG_RANGE
  have h : (0 : Int) ≤ d % ((2 ^ 32 : Nat) : Int) := Int.emod_nonneg _ (by norm_num)
  rw [Int.toNat_of_nonneg h]
  norm_num

/-- A negative `long` is compared as `2 ^ 32 + d`. -/
theorem toULong_neg (d : Int) (h1 : -(2 ^ 31) ≤ d) (h2 : d < 0) :
    ((toULong d : Nat) : Int) = 2 ^ 32 + d := by
  rw [toULong_cast]
  omega

/-- A `long` that is not negative is compared as itself. -/
theorem toULong_nonneg (d : Int) (h1 : 0 ≤ d) (h2 : d < 2 ^ 31) :
    ((toULong d : Nat) : Int) = d := by
  rw [toULong_cast]
  omega

/-- Truncation toward zero gives a negative number iff the value is at most -1. -/
theorem truncToLong_neg_iff (q : ℚ) : truncToLong q < 0 ↔ q ≤ -1 := by
  unfold truncToLong
  split_ifs with h
  · constructor
    · intro hc
      have := Int.floor_nonneg.mpr h
      omega
    · intro hc
      linarith
  · push_neg at h
    constructor
    · intro hc
      have h1 : ⌈q⌉ ≤ -1 := by omega
      have h2 := Int.ceil_le.mp h1
      push_cast at h2
      exact h2
    · intro hc
      have h1 : ⌈q⌉ ≤ -1 := Int.ceil_le.mpr (by push_cast; exact hc)
      omega

/-- Truncation of a negative value, from integer bounds. -/
theorem truncToLong_eq_of_neg_bounds (q : ℚ) (z : Int) (h0 : q < 0) (h1 : (z : ℚ) - 1 < q)
    (h2 : q ≤ (z : ℚ)) : truncToLong q = z := by
  simp only [truncToLong, if_neg (not_le.mpr h0)]
  exact Int.ceil_eq_iff.mpr ⟨h1, h2⟩

/-- The water level is negative iff the echo time is at least 2059 microseconds. -/
theorem measureWaterLevel_neg_iff (echo : Int) : measureWaterLevel echo < 0 ↔ 2059 ≤ echo := by
  simp only [measureWaterLevel, RESERVOIR_HEIGHT]
  constructor
  · intro h
    have h1 : ((2058 : Int) : ℚ) < (echo : ℚ) := by
      push_cast; norm_num at h ⊢; linarith
    have := Int.cast_lt.mp h1
    omega
  · intro h
    have h1 : ((2059 : Int) : ℚ) ≤ (echo : ℚ) := Int.cast_le.mpr h
    push_cast at h1
    norm_num
    linarith

/-- The dosing duration computed for an echo time of 3000 microseconds. -/
theorem dosing_duration_echo_3000 :
    truncToLong (calculateReservoirVolume ARDUINO_PI (measureWaterLevel 3000) *
      DOSAGE_RATE * 1000000) = -5026 := by
  apply truncToLong_eq_of_neg_bounds <;>
    norm_num [calculateReservoirVolume, measureWaterLevel, ARDUINO_PI, DOSAGE_RATE,
      RESERVOIR_RADIUS, RESERVOIR_HEIGHT]

/-- The duration stored by a due reservoir check. -/
theorem checkReservoirVolume_stored (PI : ℚ) (s : State) (currentTime : Nat) (waterLevel : ℚ)
    (hdue : usub currentTime s.lastReservoirCheckTime ≥ 3600) :
    (checkReservoirVolume PI s currentTime waterLevel).ph_pump_duration =
      truncToLong (250 * calculateReservoirVolume PI waterLevel) := by
  have h2 : usub currentTime s.lastReservoirCheckTime ≥ RESERVOIR_CHECK_INTERVAL := hdue
  simp only [checkReservoirVolume, if_pos h2, DOSAGE_RATE]
  congr 1
  ring

/-- C21: the water level is not clamped, and a negative dosing duration is
compared as unsigned.  The level returned by `measureWaterLevel` is negative
for every echo time of at least 2059 microseconds; a due `checkReservoirVolume`
stores `250 * volume` truncated toward zero, which is negative iff
`250 * volume <= -1` (for every echo time of at least 2060 microseconds when
`PI >= 3`).  For a Dosing state with a negative `ph_pump_duration = d` (in the
range of `long`), `handlePHControl` leaves Dosing iff
`now - lastpHCheckTime >= 2 ^ 32 + d`, hence not when no time has elapsed; for
`d >= 0` it leaves Dosing iff `now - lastpHCheckTime >= d`. -/
theorem C21_negative_duration_compared_unsigned (PI : ℚ) (hPI : 0 < PI) (s : State)
    (currentTime : Nat) (echo : Int) (pH : ℚ) :
    (measureWaterLevel echo < 0 ↔ 2059 ≤ echo) ∧
    (measureWaterLevel echo < 0 → calculateReservoirVolume PI (measureWaterLevel echo) < 0) ∧
    (usub currentTime s.lastReservoirCheckTime ≥ 3600 →
      (checkReservoirVolume PI s currentTime (measureWaterLevel echo)).ph_pump_duration =
        truncToLong (250 * calculateReservoirVolume PI (measureWaterLevel echo)) ∧
      ((checkReservoirVolume PI s currentTime (measureWaterLevel echo)).ph_pump_duration < 0 ↔
        250 * calculateReservoirVolume PI (measureWaterLevel echo) ≤ -1) ∧
      (3 ≤ PI → 2060 ≤ echo →
        (checkReservoirVolume PI s currentTime (measureWaterLevel echo)).ph_pump_duration
          < 0)) ∧
    (s.isPHAdjusting = true → s.isPHWaiting = false →
      -(2 ^ 31) ≤ s.ph_pump_duration → s.ph_pump_duration < 0 →
      ((handlePHControl s currentTime pH).isPHAdjusting = false ↔
        (usub currentTime s.lastpHCheckTime : Int) ≥ 2 ^ 32 + s.ph_pump_duration) ∧
      (usub currentTime s.lastpHCheckTime = 0 →
        (handlePHControl s currentTime pH).isPHAdjusting = true) ∧
      ((handlePHControl s currentTime pH).isPHAdjusting = false →
        usub currentTime s.lastpHCheckTime ≥ 2 ^ 31)) ∧
    (s.isPHAdjusting = true → s.isPHWaiting = false →
      0 ≤ s.ph_pump_duration → s.ph_pump_duration < 2 ^ 31 →
      ((handlePHControl s currentTime pH).isPHAdjusting = false ↔
        (usub currentTime s.lastpHCheckTime : Int) ≥ s.ph_pump_duration)) := by
  have hvol : ∀ l : ℚ, calculateReservoirVolume PI l = PI * 20 ^ 2 / 1000 * l := by
    intro l; rw [calculateReservoirVolume_eq]; ring
  have hc : (0 : ℚ) < PI * 20 ^ 2 / 1000 := by positivity
  have hleave : s.isPHAdjusting = true → s.isPHWaiting = false →
      ((handlePHControl s currentTime pH).isPHAdjusting = false ↔
        ((usub currentTime s.lastpHCheckTime : Nat) : Int) ≥
          ((toULong s.ph_pump_duration : Nat) : Int)) := by
    intro ha hw
    rw [handlePHControl_in_dosing s currentTime pH ha hw,
      (phDoseEnd_isPHAdjusting s currentTime ha).1]
    exact ⟨fun h => Int.ofNat_le.mpr h, fun h => Int.ofNat_le.mp h⟩
  refine ⟨measureWaterLevel_neg_iff echo, ?_, ?_, ?_, ?_⟩
  · intro h
    rw [hvol]
    exact mul_neg_of_pos_of_neg hc h
  · intro hdue
    have hst := checkReservoirVolume_stored PI s currentTime (measureWaterLevel echo) hdue
    refine ⟨hst, ?_, ?_⟩
    · rw [hst, truncToLong_neg_iff]
    · intro h3 hecho
      rw [hst, truncToLong_neg_iff, hvol]
      have hl : measureWaterLevel echo ≤ -(1 / 50) := by
        simp only [measureWaterLevel, RESERVOIR_HEIGHT]
        have h1 : ((2060 : Int) : ℚ) ≤ (echo : ℚ) := Int.cast_le.mpr hecho
        push_cast at h1
        norm_num
        linarith
      have hcoef : (1 : ℚ) ≤ PI * 20 ^ 2 / 1000 := by norm_num; linarith
      nlinarith
  · intro ha hw h1 h2
    have hiff := hleave ha hw
    rw [toULong_neg _ h1 h2] at hiff
    refine ⟨hiff, ?_, ?_⟩
    · intro h0
      cases hb : (handlePHControl s currentTime pH).isPHAdjusting
      · have := hiff.mp hb
        rw [h0] at this
        push_cast at this
        omega
      · rfl
    · intro hb
      have := hiff.mp hb
      omega
  · intro ha hw h1 h2
    have hiff := hleave ha hw
    rw [toULong_nonneg _ h1 h2] at hiff
    exact hiff

/-- Witness for C21: in the example run the echo time 3000 at the pass of 33600
stores the duration -5026 while the controller is in Dosing, and the pass at
36000 does not leave Dosing. -/
theorem C21_negative_duration_compared_unsigned_witness :
    (0 : ℚ) < ARDUINO_PI ∧
    (checkReservoirVolume ARDUINO_PI exampleState2 33600
      (measureWaterLevel 3000)).ph_pump_duration = -5026 ∧
    (handlePHControl
      (checkReservoirVolume ARDUINO_PI exampleState2 33600 (measureWaterLevel 3000))
      36000 5).isPHAdjusting = true :=
  have hPI : (0 : ℚ) < ARDUINO_PI := by norm_num [ARDUINO_PI]
  have hdue : usub 33600 exampleState2.lastReservoirCheckTime ≥ 3600 := by
    simp [exampleState2_fields.2.2.2.2, usub, ULONG_RANGE]
  have hd : (checkReservoirVolume ARDUINO_PI exampleState2 33600
      (measureWaterLevel 3000)).ph_pump_duration = -5026 := by
    rw [((C21_negative_duration_compared_unsigned ARDUINO_PI hPI exampleState2 33600 3000
      5).2.2.1 hdue).1]
    have h := dosing_duration_echo_3000
    have e : calculateReservoirVolume ARDUINO_PI (measureWaterLevel 3000) * DOSAGE_RATE
        * 1000000 = 250 * calculateReservoirVolume ARDUINO_PI (measureWaterLevel 3000) := by
      simp only [DOSAGE_RATE]; ring
    rw [e] at h
    exact h
  have hf := checkReservoirVolume_ph_frame ARDUINO_PI exampleState2 33600
    (measureWaterLevel 3000)
  ⟨hPI, hd, by
    cases hb : (handlePHControl
      (checkReservoirVolume ARDUINO_PI exampleState2 33600 (measureWaterLevel 3000))
      36000 5).isPHAdjusting
    · have h := ((C21_negative_duration_compared_unsigned ARDUINO_PI hPI
        (checkReservoirVolume ARDUINO_PI exampleState2 33600 (measureWaterLevel 3000))
        36000 3000 5).2.2.2.1 (by rw [hf.1]; rfl) (by rw [hf.2.1]; rfl)
        (by rw [hd]; norm_num) (by rw [hd]; norm_num)).2.2 hb
      rw [hf.2.2] at h
      have hu : usub 36000 exampleState2.lastpHCheckTime = 6000 := by
        simp [exampleState2_fields.2.2.1, usub, ULONG_RANGE]
      rw [hu] at h
      norm_num at h
    · rfl⟩

/-! ## Whole-number pH readings (C22) -/

/-- For a reading that is not negative, `map` onto `0..14` is the floor division
of `14 * r` by the full scale. -/
theorem map_from_zero (r F : Int) (hr : 0 ≤ r) (hF : 0 ≤ F) :
    map r 0 F 0 14 = r * 14 / F := by
  simp only [map, sub_zero, add_zero]
  exact Int.tdiv_eq_ediv (by positivity) hF

/-- The value of `readpH` as a floor. -/
theorem map_eq_floor (r : Int) (F : Nat) (hr : 0 ≤ r) :
    map r 0 (F : Int) 0 14 = ⌊(14 * (r : ℚ)) / (F : ℚ)⌋ := by
  rw [map_from_zero r F hr (by positivity)]
  have h := Rat.floor_intCast_div_natCast (r * 14) F
  rw [← h]
  congr 2
  push_cast
  ring

/-- A whole number lies in `[5.5, 6.5]` iff it is 6. -/
theorem int_in_ph_range (k : Int) : (5.5 ≤ (k : ℚ) ∧ (k : ℚ) ≤ 6.5) ↔ k = 6 := by
  constructor
  · rintro ⟨h1, h2⟩
    have h3 : ((5 : Int) : ℚ) < (k : ℚ) := by push_cast; norm_num at h1 ⊢; linarith
    have h4 : (k : ℚ) < ((7 : Int) : ℚ) := by push_cast; norm_num at h2 ⊢; linarith
    have h5 := Int.cast_lt.mp h3
    have h6 := Int.cast_lt.mp h4
    omega
  · intro h
    subst h
    norm_num

/-- An in-range reading only records the time of the check. -/
theorem checkAndAdjustPH_in_range (s : State) (currentTime : Nat) (pH : ℚ)
    (h : 5.5 ≤ pH ∧ pH ≤ 6.5) :
    checkAndAdjustPH s currentTime pH = { s with lastpHCheckTime := currentTime } := by
  have h2 : ¬ (pH < PH_LOWER_LIMIT ∨ pH > PH_UPPER_LIMIT) := by
    simp only [PH_LOWER_LIMIT, PH_UPPER_LIMIT]
    push_neg
    exact h
  simp only [checkAndAdjustPH, if_neg h2]

/-- A whole-number reading other than 6 starts a dose. -/
theorem checkAndAdjustPH_whole_not_6 (s : State) (currentTime : Nat) (k : Int) (h : k ≠ 6) :
    (checkAndAdjustPH s currentTime (k : ℚ)).isPHAdjusting = true := by
  apply checkAndAdjustPH_out_of_range
  by_contra hc
  push_neg at hc
  exact h ((int_in_ph_range k).mp hc)

/-- C22: `readpH` yields only whole numbers.  For every raw reading `r` in
`0..F` (`F = 1023` in `ard.cpp`, `F = 4095` in `esp32.cpp`) it returns
`floor (14 * r / F)`, a whole number between 0 and 14 that is non-decreasing
in `r` and equals 14 only at `r = F`.  Hence the reading is inside
`[5.5, 6.5]` exactly when `readpH` returns 6, that is for `r` in `439..511`
(`F = 1023`) and `1755..2047` (`F = 4095`); for these `checkAndAdjustPH` only
records the time, and for every other reading it starts a dose. -/
theorem C22_readpH_whole_numbers (r : Int) (h0 : 0 ≤ r) :
    (r ≤ 1023 →
      readpH r = ((⌊14 * (r : ℚ) / 1023⌋ : Int) : ℚ) ∧
      0 ≤ readpH r ∧ readpH r ≤ 14 ∧
      (readpH r = 14 ↔ r = 1023) ∧
      (∀ r' : Int, r ≤ r' → r' ≤ 1023 → readpH r ≤ readpH r') ∧
      ((5.5 ≤ readpH r ∧ readpH r ≤ 6.5) ↔ readpH r = 6) ∧
      (readpH r = 6 ↔ 439 ≤ r ∧ r ≤ 511) ∧
      (∀ (s : State) (currentTime : Nat),
        (439 ≤ r ∧ r ≤ 511 →
          checkAndAdjustPH s currentTime (readpH r) =
            { s with lastpHCheckTime := currentTime }) ∧
        (¬ (439 ≤ r ∧ r ≤ 511) →
          (checkAndAdjustPH s currentTime (readpH r)).isPHAdjusting = true))) ∧
    (r ≤ 4095 →
      Esp32.readpH r = ((⌊14 * (r : ℚ) / 4095⌋ : Int) : ℚ) ∧
      0 ≤ Esp32.readpH r ∧ Esp32.readpH r ≤ 14 ∧
      (Esp32.readpH r = 14 ↔ r = 4095) ∧
      (∀ r' : Int, r ≤ r' → r' ≤ 4095 → Esp32.readpH r ≤ Esp32.readpH r') ∧
      ((5.5 ≤ Esp32.readpH r ∧ Esp32.readpH r ≤ 6.5) ↔ Esp32.readpH r = 6) ∧
      (Esp32.readpH r = 6 ↔ 1755 ≤ r ∧ r ≤ 2047) ∧
      (∀ (s : State) (currentTime : Nat),
        (1755 ≤ r ∧ r ≤ 2047 →
          checkAndAdjustPH s currentTime (Esp32.readpH r) =
            { s with lastpHCheckTime := currentTime }) ∧
        (¬ (1755 ≤ r ∧ r ≤ 2047) →
          (checkAndAdjustPH s currentTime (Esp32.readpH r)).isPHAdjusting = true))) := by
  constructor
  · intro hr
    have hk : map r 0 1023 0 14 = r * 14 / 1023 := map_from_zero r 1023 h0 (by norm_num)
    have hfl : map r 0 1023 0 14 = ⌊14 * (r : ℚ) / 1023⌋ := by
      have := map_eq_floor r 1023 h0
      simpa using this
    have hv : readpH r = ((r * 14 / 1023 : Int) : ℚ) := by
      simp only [readpH, hk]
    have h6 : readpH r = 6 ↔ 439 ≤ r ∧ r ≤ 511 := by
      rw [hv]
      constructor
      · intro h
        have h' : (r * 14 / 1023 : Int) = 6 := by exact_mod_cast h
        omega
      · intro h
        have h' : (r * 14 / 1023 : Int) = 6 := by omega
        rw [h']; norm_num
    have hrange : (5.5 ≤ readpH r ∧ readpH r ≤ 6.5) ↔ readpH r = 6 := by
      rw [hv, int_in_ph_range]
      constructor
      · intro h; rw [h]; norm_num
      · intro h; exact_mod_cast h
    refine ⟨?_, ?_, ?_, ?_, ?_, hrange, h6, ?_⟩
    · simp only [readpH, hfl]
    · rw [hv]
      have : (0 : Int) ≤ r * 14 / 1023 := by omega
      exact_mod_cast this
    · rw [hv]
      have : r * 14 / 1023 ≤ (14 : Int) := by omega
      exact_mod_cast this
    · rw [hv]
      constructor
      · intro h
        have h' : (r * 14 / 1023 : Int) = 14 := by exact_mod_cast h
        omega
      · intro h
        have h' : (r * 14 / 1023 : Int) = 14 := by omega
        rw [h']; norm_num
    · intro r' h1 h2
      have hv' : readpH r' = ((r' * 14 / 1023 : Int) : ℚ) := by
        simp only [readpH, map_from_zero r' 1023 (le_trans h0 h1) (by norm_num)]
      rw [hv, hv']
      have : r * 14 / 1023 ≤ r' * 14 / 1023 := by omega
      exact_mod_cast this
    · intro s currentTime
      constructor
      · intro h
        exact checkAndAdjustPH_in_range s currentTime _ (hrange.mpr (h6.mpr h))
      · intro h
        rw [hv]
        apply checkAndAdjustPH_whole_not_6
        intro hc
        apply h
        apply h6.mp
        rw [hv, hc]; norm_num
  · intro hr
    have hk : map r 0 4095 0 14 = r * 14 / 4095 := map_from_zero r 4095 h0 (by norm_num)
    have hfl : map r 0 4095 0 14 = ⌊14 * (r : ℚ) / 4095⌋ := by
      have := map_eq_floor r 4095 h0
      simpa using this
    have hv : Esp32.readpH r = ((r * 14 / 4095 : Int) : ℚ) := by
      simp only [Esp32.readpH, hk]
    have h6 : Esp32.readpH r = 6 ↔ 1755 ≤ r ∧ r ≤ 2047 := by
      rw [hv]
      constructor
      · intro h
        have h' : (r * 14 / 4095 : Int) = 6 := by exact_mod_cast h
        omega
      · intro h
        have h' : (r * 14 / 4095 : Int) = 6 := by omega
        rw [h']; norm_num
    have hrange : (5.5 ≤ Esp32.readpH r ∧ Esp32.readpH r ≤ 6.5) ↔ Esp32.readpH r = 6 := by
      rw [hv, int_in_ph_range]
      constructor
      · intro h; rw [h]; norm_num
      · intro h; exact_mod_cast h
    refine ⟨?_, ?_, ?_, ?_, ?_, hrange, h6, ?_⟩
    · simp only [Esp32.readpH, hfl]
    · rw [hv]
      have : (0 : Int) ≤ r * 14 / 4095 := by omega
      exact_mod_cast this
    · rw [hv]
      have : r * 14 / 4095 ≤ (14 : Int) := by omega
      exact_mod_cast this
    · rw [hv]
      constructor
      · intro h
        have h' : (r * 14 / 4095 : Int) = 14 := by exact_mod_cast h
        omega
      · intro h
        have h' : (r * 14 / 4095 : Int) = 14 := by omega
        rw [h']; norm_num
    · intro r' h1 h2
      have hv' : Esp32.readpH r' = ((r' * 14 / 4095 : Int) : ℚ) := by
        simp only [Esp32.readpH, map_from_zero r' 4095 (le_trans h0 h1) (by norm_num)]
      rw [hv, hv']
      have : r * 14 / 4095 ≤ r' * 14 / 4095 := by omega
      exact_mod_cast this
    · intro s currentTime
      constructor
      · intro h
        exact checkAndAdjustPH_in_range s currentTime _ (hrange.mpr (h6.mpr h))
      · intro h
        rw [hv]
        apply checkAndAdjustPH_whole_not_6
        intro hc
        apply h
        apply h6.mp
        rw [hv, hc]; norm_num

/-- Witness for C22: the raw reading 511 on `ard` is the last one mapped to 6. -/
theorem C22_readpH_whole_numbers_witness :
    (0 : Int) ≤ 511 ∧ (511 : Int) ≤ 1023 ∧ readpH 511 = 6 ∧
    (checkAndAdjustPH initState 30000 (readpH 511)) =
      { initState with lastpHCheckTime := 30000 } :=
  have h := (C22_readpH_whole_numbers 511 (by norm_num)).1 (by norm_num)
  ⟨by norm_num, by norm_num, h.2.2.2.2.2.2.1.mpr ⟨by norm_num, by norm_num⟩,
   (h.2.2.2.2.2.2.2 initState 30000).1 ⟨by norm_num, by norm_num⟩⟩

/-! ## Pin assignment of `esp32.cpp` (C23) -/

/-- Every write of the `esp32` misting tick goes to the mist relay. -/
theorem Esp32.handleVPDControl_writes (exp : ℚ → ℚ) (s : State) (currentTime : Nat)
    (humidity temperature : Option ℚ) :
    ∃ l : List Event,
      (Esp32.handleVPDControl exp s currentTime humidity temperature).log = s.log ++ l ∧
      ∀ e ∈ l, ∃ level : Level, e = Event.digitalWrite Pin.VPD_PUMP_RELAY level := by
  by_cases hdue : usub currentTime s.lastVPDCycleTime ≥ s.vpdCycleInterval
  · refine ⟨[Event.digitalWrite Pin.VPD_PUMP_RELAY Level.LOW], ?_, ?_⟩
    · cases humidity with
      | none =>
        rw [Esp32.handleVPDControl_invalid exp s currentTime none temperature hdue (Or.inl rfl)]
      | some h =>
        cases temperature with
        | none =>
          rw [Esp32.handleVPDControl_invalid exp s currentTime (some h) none hdue (Or.inr rfl)]
        | some t => rw [Esp32.handleVPDControl_valid exp s currentTime h t hdue]
    · intro e he
      exact ⟨Level.LOW, List.mem_singleton.mp he⟩
  · by_cases hstop : s.isVPDPumping = true ∧
        usub currentTime s.lastVPDCycleTime ≥ VPD_PUMP_DURATION
    · refine ⟨[Event.digitalWrite Pin.VPD_PUMP_RELAY Level.HIGH], ?_, ?_⟩
      · unfold Esp32.handleVPDControl
        rw [if_neg hdue]
        simp only [if_pos hstop, digitalWrite]
      · intro e he
        exact ⟨Level.HIGH, List.mem_singleton.mp he⟩
    · refine ⟨[], ?_, ?_⟩
      · unfold Esp32.handleVPDControl
        rw [if_neg hdue]
        simp only [if_neg hstop, List.append_nil]
      · intro e he
        exact absurd he (List.not_mem_nil e)

/-- C23: in `esp32.cpp` the light-sensor input and the mist-pump relay are the
same pin, `LDR_PIN = VPD_PUMP_RELAY = 2`: every `digitalWrite` issued by
`handleVPDControl` drives the pin that `analogRead(LDR_PIN)` samples in
`checkLightAndRotate`, and a cycle start does write it.  Every other pair
among the ten pin constants is distinct. -/
theorem C23_esp32_ldr_pin_is_mist_relay_pin :
    Esp32.LDR_PIN = 2 ∧ Esp32.VPD_PUMP_RELAY = 2 ∧
    Esp32.pinNumber Pin.VPD_PUMP_RELAY = Esp32.LDR_PIN ∧
    (∀ (exp : ℚ → ℚ) (s : State) (currentTime : Nat) (humidity temperature : Option ℚ),
      ∃ l : List Event,
        (Esp32.handleVPDControl exp s currentTime humidity temperature).log = s.log ++ l ∧
        ∀ e ∈ l, ∃ level : Level, e = Event.digitalWrite Pin.VPD_PUMP_RELAY level) ∧
    (∀ (exp : ℚ → ℚ) (s : State) (currentTime : Nat) (humidity temperature : ℚ),
      usub currentTime s.lastVPDCycleTime ≥ s.vpdCycleInterval →
      (Esp32.handleVPDControl exp s currentTime (some humidity) (some temperature)).log =
        s.log ++ [Event.digitalWrite Pin.VPD_PUMP_RELAY Level.LOW]) ∧
    Esp32.pinConstants.length = 10 ∧
    Esp32.pinConstants.getD 1 0 = Esp32.VPD_PUMP_RELAY ∧
    Esp32.pinConstants.getD 7 0 = Esp32.LDR_PIN ∧
    (∀ i j : Fin 10, i < j →
      (Esp32.pinConstants.getD i 0 = Esp32.pinConstants.getD j 0 ↔ (i = 1 ∧ j = 7))) := by
  refine ⟨rfl, rfl, rfl, Esp32.handleVPDControl_writes, ?_, rfl, rfl, rfl, by decide⟩
  intro exp s currentTime humidity temperature hdue
  rw [Esp32.handleVPDControl_valid exp s currentTime humidity temperature hdue]

/-! ## Rounding of the floating-point operations -/

theorem roundNearestEven_floor_le (x : ℚ) : ⌊x⌋ ≤ roundNearestEven x := by
  unfold roundNearestEven; split_ifs <;> omega

theorem roundNearestEven_le_floor_add_one (x : ℚ) : roundNearestEven x ≤ ⌊x⌋ + 1 := by
  unfold roundNearestEven; split_ifs <;> omega

/-- An integer is rounded to itself. -/
theorem roundNearestEven_intCast (n : Int) : roundNearestEven (n : ℚ) = n := by
  unfold roundNearestEven
  simp

/-- Rounding to the nearest integer is monotone. -/
theorem roundNearestEven_mono {x y : ℚ} (h : x ≤ y) :
    roundNearestEven x ≤ roundNearestEven y := by
  rcases (Int.floor_mono h).lt_or_eq with hlt | heq
  · calc roundNearestEven x ≤ ⌊x⌋ + 1 := roundNearestEven_le_floor_add_one x
      _ ≤ ⌊y⌋ := hlt
      _ ≤ roundNearestEven y := roundNearestEven_floor_le y
  · unfold roundNearestEven
    rw [← heq]
    split_ifs <;> first | omega | (exfalso; linarith)

/-- A value strictly within one half of an integer is rounded to it. -/
theorem roundNearestEven_eq_of_lt (x : ℚ) (m : Int) (h1 : (m : ℚ) - 1 / 2 < x)
    (h2 : x < (m : ℚ) + 1 / 2) : roundNearestEven x = m := by
  by_cases hx : (m : ℚ) ≤ x
  · have hf : ⌊x⌋ = m := Int.floor_eq_iff.mpr ⟨hx, by linarith⟩
    unfold roundNearestEven
    rw [hf, if_pos (by linarith)]
  · push_neg at hx
    have hf : ⌊x⌋ = m - 1 := Int.floor_eq_iff.mpr ⟨by push_cast; linarith, by push_cast; linarith⟩
    unfold roundNearestEven
    rw [hf, if_neg (by push_cast; linarith), if_pos (by push_cast; linarith)]
    ring

/-- Rounding to the nearest integer moves a value by at most one half. -/
theorem roundNearestEven_sub_le (x : ℚ) : |(roundNearestEven x : ℚ) - x| ≤ 1 / 2 := by
  have h1 := Int.floor_le x
  have h2 := Int.lt_floor_add_one x
  rw [abs_le]
  unfold roundNearestEven
  split_ifs with ha hb hc
  · constructor <;> linarith
  · push_cast; constructor <;> linarith
  · push_neg at ha hb; constructor <;> linarith
  · push_neg at ha hb; push_cast; constructor <;> linarith

/-- The binary exponent of a value between two consecutive powers of two. -/
theorem binaryLog_eq {q : ℚ} {e : Int} (h1 : (2 : ℚ) ^ e ≤ |q|) (h2 : |q| < (2 : ℚ) ^ (e + 1)) :
    Int.log 2 |q| = e := by
  have hpos : (0 : ℚ) < |q| := lt_of_lt_of_le (by positivity) h1
  have ha : e ≤ Int.log 2 |q| := by
    rw [← Int.zpow_le_iff_le_log (by norm_num) hpos]
    exact_mod_cast h1
  have hb : Int.log 2 |q| < e + 1 := by
    rw [← Int.lt_zpow_iff_log_lt (by norm_num) hpos]
    exact_mod_cast h2
  omega

/-- A value halfway between two integers is rounded to the even one. -/
theorem roundNearestEven_tie_even (x : ℚ) (f : Int) (hx : x = (f : ℚ) + 1 / 2)
    (hf : f % 2 = 0) : roundNearestEven x = f := by
  have hfl : ⌊x⌋ = f := Int.floor_eq_iff.mpr ⟨by linarith, by linarith⟩
  unfold roundNearestEven
  rw [hfl, if_neg (by linarith), if_neg (by linarith), if_pos hf]

theorem roundNearestEven_tie_odd (x : ℚ) (f : Int) (hx : x = (f : ℚ) + 1 / 2)
    (hf : f % 2 = 1) : roundNearestEven x = f + 1 := by
  have hfl : ⌊x⌋ = f := Int.floor_eq_iff.mpr ⟨by linarith, by linarith⟩
  unfold roundNearestEven
  rw [hfl, if_neg (by linarith), if_neg (by linarith), if_neg (by omega)]

/-- Evaluation of `roundBinary` from the exponent `e`, the unit in the last
place `u` and the rounded significand `m`. -/
theorem roundBinary_eval (p : Nat) (q : ℚ) (e m : Int) (u : ℚ)
    (h1 : (2 : ℚ) ^ e ≤ |q|) (h2 : |q| < (2 : ℚ) ^ (e + 1))
    (hu : u = (2 : ℚ) ^ (e - (p : Int) + 1))
    (hm : roundNearestEven (q / u) = m) :
    roundBinary p q = (m : ℚ) * u := by
  have hq : q ≠ 0 := by
    intro h0
    rw [h0, abs_zero] at h1
    exact absurd h1 (not_le.mpr (by positivity))
  unfold roundBinary
  rw [if_neg hq]
  simp only [binaryLog_eq h1 h2, ← hu]
  rw [hm]

theorem roundBinary_zero (p : Nat) : roundBinary p 0 = 0 := by
  simp [roundBinary]

/-- The bounds of the binary exponent. -/
theorem binaryLog_bounds {q : ℚ} (hq : q ≠ 0) :
    (2 : ℚ) ^ (Int.log 2 |q|) ≤ |q| ∧ |q| < (2 : ℚ) ^ (Int.log 2 |q| + 1) := by
  have hpos : (0 : ℚ) < |q| := abs_pos.mpr hq
  constructor
  · have := Int.zpow_log_le_self (b := 2) (by norm_num) hpos
    exact_mod_cast this
  · have := Int.lt_zpow_succ_log_self (b := 2) (by norm_num) |q|
    exact_mod_cast this

/-- Rounding to `p` bits moves a value by at most the fraction `2 ^ p` of its
magnitude. -/
theorem roundBinary_sub_le (p : Nat) (q : ℚ) : |roundBinary p q - q| ≤ |q| / 2 ^ p := by
  by_cases hq : q = 0
  · simp [hq, roundBinary]
  · have hb := (binaryLog_bounds hq).1
    unfold roundBinary
    rw [if_neg hq]
    simp only
    set e := Int.log 2 |q| with he
    have hu : (0 : ℚ) < 2 ^ (e - (p : Int) + 1) := by positivity
    set u : ℚ := 2 ^ (e - (p : Int) + 1) with hudef
    have h1 := roundNearestEven_sub_le (q / u)
    have h2 : (roundNearestEven (q / u) : ℚ) * u - q = ((roundNearestEven (q / u) : ℚ) - q / u) * u := by
      field_simp
    rw [h2, abs_mul, abs_of_pos hu]
    have h3 : u / 2 = (2 : ℚ) ^ e / 2 ^ p := by
      rw [hudef, show e - (p : Int) + 1 = e + 1 - (p : Int) by ring, zpow_sub₀ (by norm_num),
        zpow_add_one₀ (by norm_num), zpow_natCast]
      ring
    calc |(roundNearestEven (q / u) : ℚ) - q / u| * u ≤ 1 / 2 * u :=
          mul_le_mul_of_nonneg_right h1 hu.le
      _ = (2 : ℚ) ^ e / 2 ^ p := by rw [← h3]; ring
      _ ≤ |q| / 2 ^ p := by
          apply div_le_div_of_nonneg_right hb
          positivity

/-- A power of two with exponent at least `p - 1` below the unit in the last
place is an integer multiple of it. -/
theorem two_zpow_div_ulp (p : Nat) (hp : 1 ≤ p) (e : Int) :
    (2 : ℚ) ^ e / 2 ^ (e - (p : Int) + 1) = ((2 ^ (p - 1) : Int) : ℚ) ∧
    (2 : ℚ) ^ (e + 1) / 2 ^ (e - (p : Int) + 1) = ((2 ^ p : Int) : ℚ) := by
  have h2 : (2 : ℚ) ≠ 0 := by norm_num
  constructor
  · rw [← zpow_sub₀ h2]
    have : e - (e - (p : Int) + 1) = ((p - 1 : Nat) : Int) := by omega
    rw [this, zpow_natCast]; push_cast; rfl
  · rw [← zpow_sub₀ h2]
    have : e + 1 - (e - (p : Int) + 1) = (p : Int) := by omega
    rw [this, zpow_natCast]; push_cast; rfl

/-- A positive value is rounded into the closed binade that contains it. -/
theorem roundBinary_pos_bounds (p : Nat) (hp : 1 ≤ p) {q : ℚ} (hq : 0 < q) :
    (2 : ℚ) ^ (Int.log 2 |q|) ≤ roundBinary p q ∧
    roundBinary p q ≤ (2 : ℚ) ^ (Int.log 2 |q| + 1) := by
  have hb := binaryLog_bounds (ne_of_gt hq)
  rw [abs_of_pos hq] at hb
  unfold roundBinary
  rw [if_neg (ne_of_gt hq)]
  simp only
  rw [abs_of_pos hq]
  set e := Int.log 2 q with he
  have hu : (0 : ℚ) < 2 ^ (e - (p : Int) + 1) := by positivity
  set u : ℚ := 2 ^ (e - (p : Int) + 1) with hudef
  obtain ⟨hlo, hhi⟩ := two_zpow_div_ulp p hp e
  rw [← hudef] at hlo hhi
  constructor
  · have h1 : ((2 ^ (p - 1) : Int) : ℚ) ≤ q / u := by
      rw [← hlo]; exact div_le_div_of_nonneg_right hb.1 hu.le
    have h2 := roundNearestEven_mono h1
    rw [roundNearestEven_intCast] at h2
    have h3 : ((2 ^ (p - 1) : Int) : ℚ) ≤ (roundNearestEven (q / u) : ℚ) := by exact_mod_cast h2
    calc (2 : ℚ) ^ e = ((2 ^ (p - 1) : Int) : ℚ) * u := by rw [← hlo]; field_simp
      _ ≤ (roundNearestEven (q / u) : ℚ) * u := mul_le_mul_of_nonneg_right h3 hu.le
  · have h1 : q / u ≤ ((2 ^ p : Int) : ℚ) := by
      rw [← hhi]; exact div_le_div_of_nonneg_right hb.2.le hu.le
    have h2 := roundNearestEven_mono h1
    rw [roundNearestEven_intCast] at h2
    have h3 : (roundNearestEven (q / u) : ℚ) ≤ ((2 ^ p : Int) : ℚ) := by exact_mod_cast h2
    calc (roundNearestEven (q / u) : ℚ) * u ≤ ((2 ^ p : Int) : ℚ) * u :=
          mul_le_mul_of_nonneg_right h3 hu.le
      _ = (2 : ℚ) ^ (e + 1) := by rw [← hhi]; field_simp

/-- A negative value is rounded into the closed binade that contains it. -/
theorem roundBinary_neg_bounds (p : Nat) (hp : 1 ≤ p) {q : ℚ} (hq : q < 0) :
    -(2 : ℚ) ^ (Int.log 2 |q| + 1) ≤ roundBinary p q ∧
    roundBinary p q ≤ -(2 : ℚ) ^ (Int.log 2 |q|) := by
  have hb := binaryLog_bounds (ne_of_lt hq)
  rw [abs_of_neg hq] at hb
  unfold roundBinary
  rw [if_neg (ne_of_lt hq)]
  simp only
  rw [abs_of_neg hq]
  set e := Int.log 2 (-q) with he
  have hu : (0 : ℚ) < 2 ^ (e - (p : Int) + 1) := by positivity
  set u : ℚ := 2 ^ (e - (p : Int) + 1) with hudef
  obtain ⟨hlo, hhi⟩ := two_zpow_div_ulp p hp e
  rw [← hudef] at hlo hhi
  constructor
  · have h1 : ((-(2 ^ p) : Int) : ℚ) ≤ q / u := by
      have : -q / u ≤ ((2 ^ p : Int) : ℚ) := by
        rw [← hhi]; exact div_le_div_of_nonneg_right hb.2.le hu.le
      rw [neg_div] at this
      push_cast at this ⊢
      linarith
    have h2 := roundNearestEven_mono h1
    rw [roundNearestEven_intCast] at h2
    have h3 : ((-(2 ^ p) : Int) : ℚ) ≤ (roundNearestEven (q / u) : ℚ) := by exact_mod_cast h2
    calc -(2 : ℚ) ^ (e + 1) = ((-(2 ^ p) : Int) : ℚ) * u := by
          push_cast; push_cast at hhi; rw [← hhi]; field_simp
      _ ≤ (roundNearestEven (q / u) : ℚ) * u := mul_le_mul_of_nonneg_right h3 hu.le
  · have h1 : q / u ≤ ((-(2 ^ (p - 1)) : Int) : ℚ) := by
      have : ((2 ^ (p - 1) : Int) : ℚ) ≤ -q / u := by
        rw [← hlo]; exact div_le_div_of_nonneg_right hb.1 hu.le
      rw [neg_div] at this
      push_cast at this ⊢
      linarith
    have h2 := roundNearestEven_mono h1
    rw [roundNearestEven_intCast] at h2
    have h3 : (roundNearestEven (q / u) : ℚ) ≤ ((-(2 ^ (p - 1)) : Int) : ℚ) := by
      exact_mod_cast h2
    calc (roundNearestEven (q / u) : ℚ) * u ≤ ((-(2 ^ (p - 1)) : Int) : ℚ) * u :=
          mul_le_mul_of_nonneg_right h3 hu.le
      _ = -(2 : ℚ) ^ e := by
          push_cast; push_cast at hlo; rw [← hlo]; field_simp

/-- Rounding keeps the sign. -/
theorem roundBinary_pos (p : Nat) (hp : 1 ≤ p) {q : ℚ} (hq : 0 < q) : 0 < roundBinary p q :=
  lt_of_lt_of_le (by positivity) (roundBinary_pos_bounds p hp hq).1

theorem roundBinary_neg (p : Nat) (hp : 1 ≤ p) {q : ℚ} (hq : q < 0) : roundBinary p q < 0 :=
  lt_of_le_of_lt (roundBinary_neg_bounds p hp hq).2 (by
    have : (0 : ℚ) < 2 ^ (Int.log 2 |q|) := by positivity
    linarith)

/-- Rounding to `p` bits is monotone. -/
theorem roundBinary_mono (p : Nat) (hp : 1 ≤ p) {a b : ℚ} (h : a ≤ b) :
    roundBinary p a ≤ roundBinary p b := by
  have h2 : (1 : ℚ) < 2 := by norm_num
  rcases lt_trichotomy a 0 with ha | ha | ha
  · rcases lt_trichotomy b 0 with hb | hb | hb
    · -- both negative
      have hlog : Int.log 2 |b| ≤ Int.log 2 |a| := by
        apply Int.log_mono_right (abs_pos.mpr (ne_of_lt hb))
        rw [abs_of_neg ha, abs_of_neg hb]; linarith
      rcases hlog.lt_or_eq with hlt | heq
      · calc roundBinary p a ≤ -(2 : ℚ) ^ (Int.log 2 |a|) := (roundBinary_neg_bounds p hp ha).2
          _ ≤ -(2 : ℚ) ^ (Int.log 2 |b| + 1) := by
              apply neg_le_neg
              exact zpow_le_zpow_right₀ h2.le (by omega)
          _ ≤ roundBinary p b := (roundBinary_neg_bounds p hp hb).1
      · unfold roundBinary
        rw [if_neg (ne_of_lt ha), if_neg (ne_of_lt hb)]
        simp only
        rw [heq]
        have hu : (0 : ℚ) < 2 ^ (Int.log 2 |a| - (p : Int) + 1) := by positivity
        apply mul_le_mul_of_nonneg_right _ hu.le
        exact_mod_cast roundNearestEven_mono (div_le_div_of_nonneg_right h hu.le)
    · rw [hb, roundBinary_zero]; exact (roundBinary_neg p hp ha).le
    · exact le_trans (roundBinary_neg p hp ha).le (roundBinary_pos p hp hb).le
  · rw [ha, roundBinary_zero]
    rcases (ha ▸ h : (0 : ℚ) ≤ b).lt_or_eq with hb | hb
    · exact (roundBinary_pos p hp hb).le
    · rw [← hb, roundBinary_zero]
  · have hb : 0 < b := lt_of_lt_of_le ha h
    have hlog : Int.log 2 |a| ≤ Int.log 2 |b| := by
      apply Int.log_mono_right (abs_pos.mpr (ne_of_gt ha))
      rw [abs_of_pos ha, abs_of_pos hb]; exact h
    rcases hlog.lt_or_eq with hlt | heq
    · calc roundBinary p a ≤ (2 : ℚ) ^ (Int.log 2 |a| + 1) := (roundBinary_pos_bounds p hp ha).2
        _ ≤ (2 : ℚ) ^ (Int.log 2 |b|) := zpow_le_zpow_right₀ h2.le (by omega)
        _ ≤ roundBinary p b := (roundBinary_pos_bounds p hp hb).1
    · unfold roundBinary
      rw [if_neg (ne_of_gt ha), if_neg (ne_of_gt hb)]
      simp only
      rw [heq]
      have hu : (0 : ℚ) < 2 ^ (Int.log 2 |b| - (p : Int) + 1) := by positivity
      apply mul_le_mul_of_nonneg_right _ hu.le
      exact_mod_cast roundNearestEven_mono (div_le_div_of_nonneg_right h hu.le)

/-- Without rounding the functions are the ones of the exact embedding. -/
theorem Rounded.checkReservoirVolume_exactArith (PI : ℚ) (s : State) (currentTime : Nat)
    (waterLevel : ℚ) :
    Rounded.measureWaterLevel exactArith = Aeroponics.measureWaterLevel ∧
    Rounded.calculateReservoirVolume exactArith PI waterLevel =
      Aeroponics.calculateReservoirVolume PI waterLevel ∧
    Rounded.checkReservoirVolume exactArith PI s currentTime waterLevel =
      Aeroponics.checkReservoirVolume PI s currentTime waterLevel := by
  refine ⟨?_, ?_, ?_⟩
  · funext d
    simp [Rounded.measureWaterLevel, Aeroponics.measureWaterLevel, exactArith]
  · simp [Rounded.calculateReservoirVolume, Aeroponics.calculateReservoirVolume, exactArith]
  · simp [Rounded.checkReservoirVolume, Aeroponics.checkReservoirVolume,
      Rounded.calculateReservoirVolume, Aeroponics.calculateReservoirVolume,
      Rounded.dosingDuration, exactArith]

/-- Without rounding the dosing duration is `250 * V` truncated. -/
theorem Rounded.dosingDuration_exactArith (V : ℚ) :
    Rounded.dosingDuration exactArith V = truncToLong (250 * V) := by
  simp only [Rounded.dosingDuration, exactArith, DOSAGE_RATE, id]
  congr 1
  norm_num
  ring

/-- The `double` rounding of both boards is a binary rounding of at least 24
bits. -/
theorem roundDouble_eq (A : FloatArith) (hA : A = avrArith ∨ A = espArith) :
    ∃ p : Nat, 24 ≤ p ∧ A.roundDouble = roundBinary p := by
  rcases hA with h | h
  · exact ⟨24, le_refl _, by rw [h]; rfl⟩
  · exact ⟨53, by norm_num, by rw [h]; rfl⟩

/-- The dosing duration is non-decreasing in the volume. -/
theorem Rounded.dosingDuration_mono (A : FloatArith) (hA : A = avrArith ∨ A = espArith)
    {V1 V2 : ℚ} (h : V1 ≤ V2) : Rounded.dosingDuration A V1 ≤ Rounded.dosingDuration A V2 := by
  obtain ⟨p, hp, hr⟩ := roundDouble_eq A hA
  have hp1 : 1 ≤ p := by omega
  simp only [Rounded.dosingDuration, hr]
  have hc : 0 ≤ roundBinary p DOSAGE_RATE :=
    (roundBinary_pos p hp1 (by norm_num [DOSAGE_RATE])).le
  apply truncToLong_mono
  apply roundBinary_mono p hp1
  apply mul_le_mul_of_nonneg_right _ (by norm_num)
  apply roundBinary_mono p hp1
  exact mul_le_mul_of_nonneg_right h hc

/-- The rounded product differs from `250 * V` by at most `|250 * V| / 2 ^ 22`. -/
theorem Rounded.dosingProduct_sub_le (p : Nat) (hp : 24 ≤ p) (V : ℚ) :
    |roundBinary p (roundBinary p (V * roundBinary p DOSAGE_RATE) * 1000000) - 250 * V| ≤
      |250 * V| / 2 ^ 22 := by
  have he0 : (0 : ℚ) < 1 / 2 ^ p := by positivity
  have he1 : (1 : ℚ) / 2 ^ p ≤ 1 / 2 ^ 24 := by
    apply one_div_le_one_div_of_le (by positivity)
    exact pow_le_pow_right₀ (by norm_num) hp
  set ε : ℚ := 1 / 2 ^ p with hε
  set c := roundBinary p DOSAGE_RATE with hc
  set p1 := roundBinary p (V * c) with hp1
  set p2 := roundBinary p (p1 * 1000000) with hp2
  have h0 : |c - 1 / 4000| ≤ 1 / 4000 * ε := by
    have := roundBinary_sub_le p DOSAGE_RATE
    rw [show |DOSAGE_RATE| = 1 / 4000 by norm_num [DOSAGE_RATE, abs_of_pos],
      show DOSAGE_RATE = 1 / 4000 by norm_num [DOSAGE_RATE]] at this
    rw [hc, show DOSAGE_RATE = 1 / 4000 by norm_num [DOSAGE_RATE], hε]
    calc _ ≤ 1 / 4000 / 2 ^ p := this
      _ = 1 / 4000 * (1 / 2 ^ p) := by ring
  have h1 : |p1 - V * c| ≤ |V * c| * ε := by
    have := roundBinary_sub_le p (V * c)
    calc _ ≤ |V * c| / 2 ^ p := this
      _ = |V * c| * ε := by rw [hε]; ring
  have h2 : |p2 - p1 * 1000000| ≤ |p1 * 1000000| * ε := by
    have := roundBinary_sub_le p (p1 * 1000000)
    calc _ ≤ |p1 * 1000000| / 2 ^ p := this
      _ = |p1 * 1000000| * ε := by rw [hε]; ring
  have ha : (0 : ℚ) ≤ |V| := abs_nonneg V
  -- magnitude of the rounded constant
  have hcabs : |c| ≤ 1 / 4000 * (1 + ε) := by
    have := abs_sub_abs_le_abs_sub c (1 / 4000)
    rw [abs_of_pos (by norm_num : (0 : ℚ) < 1 / 4000)] at this
    linarith
  have hVc : |V * c| ≤ |V| * (1 / 4000 * (1 + ε)) := by
    rw [abs_mul]; exact mul_le_mul_of_nonneg_left hcabs ha
  have hVcr : |V * c - V * (1 / 4000)| ≤ |V| * (1 / 4000 * ε) := by
    rw [← mul_sub, abs_mul]; exact mul_le_mul_of_nonneg_left h0 ha
  have hp1r : |p1 - V * (1 / 4000)| ≤ |V| * (1 / 4000) * (ε * (2 + ε)) := by
    have h3 : |p1 - V * (1 / 4000)| ≤ |p1 - V * c| + |V * c - V * (1 / 4000)| :=
      abs_sub_le _ _ _
    have h4 : |V * c| * ε ≤ |V| * (1 / 4000 * (1 + ε)) * ε :=
      mul_le_mul_of_nonneg_right hVc he0.le
    nlinarith
  have hp1abs : |p1| ≤ |V| * (1 / 4000) * (1 + ε * (2 + ε)) := by
    have h3 := abs_sub_abs_le_abs_sub p1 (V * (1 / 4000))
    have h4 : |V * (1 / 4000)| = |V| * (1 / 4000) := by
      rw [abs_mul, abs_of_pos (by norm_num : (0 : ℚ) < 1 / 4000)]
    rw [h4] at h3
    nlinarith
  have hp2r : |p2 - 250 * V| ≤ 250 * |V| * (ε * (3 + 3 * ε + ε ^ 2)) := by
    have h3 : |p2 - 250 * V| ≤ |p2 - p1 * 1000000| + |p1 * 1000000 - 250 * V| :=
      abs_sub_le _ _ _
    have h4 : |p1 * 1000000 - 250 * V| = 1000000 * |p1 - V * (1 / 4000)| := by
      rw [show p1 * 1000000 - 250 * V = 1000000 * (p1 - V * (1 / 4000)) by ring, abs_mul,
        abs_of_pos (by norm_num : (0 : ℚ) < 1000000)]
    have h5 : |p1 * 1000000| = 1000000 * |p1| := by
      rw [abs_mul, abs_of_pos (by norm_num : (0 : ℚ) < 1000000)]; ring
    rw [h5] at h2
    rw [h4] at h3
    have h6 : 1000000 * |p1| * ε ≤ 1000000 * (|V| * (1 / 4000) * (1 + ε * (2 + ε))) * ε := by
      apply mul_le_mul_of_nonneg_right _ he0.le
      exact mul_le_mul_of_nonneg_left hp1abs (by norm_num)
    nlinarith
  have hfin : 250 * |V| * (ε * (3 + 3 * ε + ε ^ 2)) ≤ |250 * V| / 2 ^ 22 := by
    rw [abs_mul, abs_of_pos (by norm_num : (0 : ℚ) < 250)]
    have h7 : ε * (3 + 3 * ε + ε ^ 2) ≤ 1 / 2 ^ 22 := by
      have : ε * (3 + 3 * ε + ε ^ 2) ≤ ε * 4 := by
        apply mul_le_mul_of_nonneg_left _ he0.le
        nlinarith
      calc _ ≤ ε * 4 := this
        _ ≤ 1 / 2 ^ 24 * 4 := by linarith
        _ = 1 / 2 ^ 22 := by norm_num
    calc 250 * |V| * (ε * (3 + 3 * ε + ε ^ 2)) ≤ 250 * |V| * (1 / 2 ^ 22) :=
          mul_le_mul_of_nonneg_left h7 (by positivity)
      _ = 250 * |V| / 2 ^ 22 := by ring
  exact le_trans hp2r hfin

/-- Truncation toward zero moves by at most one when the argument moves by at
most one. -/
theorem truncToLong_near {a b : ℚ} (h : |a - b| ≤ 1) : |truncToLong a - truncToLong b| ≤ 1 := by
  have hstep : ∀ x : ℚ, truncToLong (x + 1) ≤ truncToLong x + 1 := by
    intro x
    unfold truncToLong
    split_ifs with h1 h2 h2
    · rw [Int.floor_add_one]
    · push_neg at h2
      have : ⌊x + 1⌋ = 0 := Int.floor_eq_iff.mpr ⟨by push_cast; linarith, by push_cast; linarith⟩
      have h3 : (-2 : Int) < ⌈x⌉ := by
        rw [Int.lt_ceil]; push_cast; linarith
      omega
    · exact absurd (by linarith : (0 : ℚ) ≤ x + 1) h1
    · rw [Int.ceil_add_one]
  rw [abs_le] at h
  rw [abs_le]
  constructor
  · have h1 : b ≤ a + 1 := by linarith
    have := le_trans (truncToLong_mono h1) (hstep a)
    omega
  · have h1 : a ≤ b + 1 := by linarith
    have := le_trans (truncToLong_mono h1) (hstep b)
    omega

/-- The stored duration is within one of `250 * V` truncated, for volumes up to
16000 litres in magnitude. -/
theorem Rounded.dosingDuration_near (A : FloatArith) (hA : A = avrArith ∨ A = espArith)
    (V : ℚ) (hV : |V| ≤ 16000) :
    |Rounded.dosingDuration A V - truncToLong (250 * V)| ≤ 1 := by
  obtain ⟨p, hp, hr⟩ := roundDouble_eq A hA
  simp only [Rounded.dosingDuration, hr]
  apply truncToLong_near
  refine le_trans (Rounded.dosingProduct_sub_le p hp V) ?_
  rw [abs_mul, abs_of_pos (by norm_num : (0 : ℚ) < 250)]
  rw [div_le_one (by positivity)]
  calc 250 * |V| ≤ 250 * 16000 := by linarith
    _ ≤ 2 ^ 22 := by norm_num

/-! ## Evaluation of the reservoir monitor with rounding -/

/-- The level returned for an echo time of 304 microseconds, in binary32 arithmetic. -/
theorem Rounded.measureWaterLevel_avr_304 :
    Rounded.measureWaterLevel avrArith 304 = (977535 / 32768) := by
  have h1 : roundBinary 24 (((304 : Int) : ℚ)) = 304 :=
    (roundBinary_eval 24 (((304 : Int) : ℚ)) (8) (9961472) (1 / 32768)
      (by norm_num [abs_of_pos]) (by norm_num [abs_of_pos]) (by norm_num)
      (roundNearestEven_eq_of_lt _ _ (by norm_num) (by norm_num))).trans (by norm_num)
  have h2 : roundBinary 24 (0.034 : ℚ) = (4563403 / 134217728) :=
    (roundBinary_eval 24 (0.034 : ℚ) (-5) (9126806) (1 / 268435456)
      (by norm_num [abs_of_pos]) (by norm_num [abs_of_pos]) (by norm_num)
      (roundNearestEven_eq_of_lt _ _ (by norm_num) (by norm_num))).trans (by norm_num)
  have h3 : roundBinary 24 (304 * (4563403 / 134217728)) = (5419041 / 524288) :=
    (roundBinary_eval 24 (304 * (4563403 / 134217728)) (3) (10838082) (1 / 1048576)
      (by norm_num [abs_of_pos]) (by norm_num [abs_of_pos]) (by norm_num)
      (roundNearestEven_eq_of_lt _ _ (by norm_num) (by norm_num))).trans (by norm_num)
  have h4 : roundBinary 24 ((5419041 / 524288) / 2) = (5419041 / 1048576) :=
    (roundBinary_eval 24 ((5419041 / 524288) / 2) (2) (10838082) (1 / 2097152)
      (by norm_num [abs_of_pos]) (by norm_num [abs_of_pos]) (by norm_num)
      (roundNearestEven_eq_of_lt _ _ (by norm_num) (by norm_num))).trans (by norm_num)
  have h5 : roundBinary 24 ((35.0 : ℚ) - (5419041 / 1048576)) = (977535 / 32768) :=
    (roundBinary_eval 24 ((35.0 : ℚ) - (5419041 / 1048576)) (4) (15640560) (1 / 524288)
      (by norm_num [abs_of_pos]) (by norm_num [abs_of_pos]) (by norm_num)
      (by
        have := roundNearestEven_tie_odd (((35.0 : ℚ) - (5419041 / 1048576)) / (1 / 524288)) (15640559)
          (by norm_num) (by decide)
        simpa using this)).trans (by norm_num)
  have h6 : roundBinary 24 (977535 / 32768) = (977535 / 32768) :=
    (roundBinary_eval 24 (977535 / 32768) (4) (15640560) (1 / 524288)
      (by norm_num [abs_of_pos]) (by norm_num [abs_of_pos]) (by norm_num)
      (roundNearestEven_eq_of_lt _ _ (by norm_num) (by norm_num))).trans (by norm_num)
  simp only [Rounded.measureWaterLevel, avrArith, RESERVOIR_HEIGHT]
  rw [h1, h2, h3, h4, h5, h6]

/-- The volume computed from the level of echo time 304, in binary32 arithmetic. -/
theorem Rounded.calculateReservoirVolume_avr_304 :
    Rounded.calculateReservoirVolume avrArith ARDUINO_PI (977535 / 32768) =
      (4913627 / 131072) := by
  have h1 : roundBinary 24 (ARDUINO_PI) = (13176795 / 4194304) :=
    (roundBinary_eval 24 (ARDUINO_PI) (1) (13176795) (1 / 4194304)
      (by norm_num [abs_of_pos, ARDUINO_PI]) (by norm_num [abs_of_pos, ARDUINO_PI]) (by norm_num)
      (roundNearestEven_eq_of_lt _ _ (by norm_num [ARDUINO_PI]) (by norm_num [ARDUINO_PI]))).trans (by norm_num)
  have h2 : roundBinary 24 ((13176795 / 4194304) * (20.0 : ℚ)) = (8235497 / 131072) :=
    (roundBinary_eval 24 ((13176795 / 4194304) * (20.0 : ℚ)) (5) (16470994) (1 / 262144)
      (by norm_num [abs_of_pos]) (by norm_num [abs_of_pos]) (by norm_num)
      (roundNearestEven_eq_of_lt _ _ (by norm_num) (by norm_num))).trans (by norm_num)
  have h3 : roundBinary 24 ((8235497 / 131072) * (20.0 : ℚ)) = (10294371 / 8192) :=
    (roundBinary_eval 24 ((8235497 / 131072) * (20.0 : ℚ)) (10) (10294371) (1 / 8192)
      (by norm_num [abs_of_pos]) (by norm_num [abs_of_pos]) (by norm_num)
      (roundNearestEven_eq_of_lt _ _ (by norm_num) (by norm_num))).trans (by norm_num)
  have h4 : roundBinary 24 ((10294371 / 8192) * (977535 / 32768)) = 37488 :=
    (roundBinary_eval 24 ((10294371 / 8192) * (977535 / 32768)) (15) (9596928) (1 / 256)
      (by norm_num [abs_of_pos]) (by norm_num [abs_of_pos]) (by norm_num)
      (roundNearestEven_eq_of_lt _ _ (by norm_num) (by norm_num))).trans (by norm_num)
  have h5 : roundBinary 24 (37488 / (1000.0 : ℚ)) = (4913627 / 131072) :=
    (roundBinary_eval 24 (37488 / (1000.0 : ℚ)) (5) (9827254) (1 / 262144)
      (by norm_num [abs_of_pos]) (by norm_num [abs_of_pos]) (by norm_num)
      (roundNearestEven_eq_of_lt _ _ (by norm_num) (by norm_num))).trans (by norm_num)
  have h6 : roundBinary 24 (4913627 / 131072) = (4913627 / 131072) :=
    (roundBinary_eval 24 (4913627 / 131072) (5) (9827254) (1 / 262144)
      (by norm_num [abs_of_pos]) (by norm_num [abs_of_pos]) (by norm_num)
      (roundNearestEven_eq_of_lt _ _ (by norm_num) (by norm_num))).trans (by norm_num)
  simp only [Rounded.calculateReservoirVolume, avrArith, RESERVOIR_RADIUS]
  rw [h1, h2, h3, h4, h5, h6]

/-- The dosing duration stored for the volume of echo time 304, in binary32 arithmetic. -/
theorem Rounded.dosingDuration_avr_304 :
    Rounded.dosingDuration avrArith (4913627 / 131072) = 9372 := by
  have h1 : roundBinary 24 (0.00025 : ℚ) = (8589935 / 34359738368) :=
    (roundBinary_eval 24 (0.00025 : ℚ) (-12) (8589935) (1 / 34359738368)
      (by norm_num [abs_of_pos]) (by norm_num [abs_of_pos]) (by norm_num)
      (roundNearestEven_eq_of_lt _ _ (by norm_num) (by norm_num))).trans (by norm_num)
  have h2 : roundBinary 24 ((4913627 / 131072) * (8589935 / 34359738368)) = (10063109 / 1073741824) :=
    (roundBinary_eval 24 ((4913627 / 131072) * (8589935 / 34359738368)) (-7) (10063109) (1 / 1073741824)
      (by norm_num [abs_of_pos]) (by norm_num [abs_of_pos]) (by norm_num)
      (roundNearestEven_eq_of_lt _ _ (by norm_num) (by norm_num))).trans (by norm_num)
  have h3 : roundBinary 24 ((10063109 / 1073741824) * 1000000) = (9596929 / 1024) :=
    (roundBinary_eval 24 ((10063109 / 1073741824) * 1000000) (13) (9596929) (1 / 1024)
      (by norm_num [abs_of_pos]) (by norm_num [abs_of_pos]) (by norm_num)
      (roundNearestEven_eq_of_lt _ _ (by norm_num) (by norm_num))).trans (by norm_num)
  simp only [Rounded.dosingDuration, avrArith, DOSAGE_RATE]
  rw [h1, h2, h3]
  apply truncToLong_eq_of_bounds <;> norm_num

/-- The level returned for an echo time of 530 microseconds, in binary32 arithmetic. -/
theorem Rounded.measureWaterLevel_avr_530 :
    Rounded.measureWaterLevel avrArith 530 = (13626245 / 524288) := by
  have h1 : roundBinary 24 (((530 : Int) : ℚ)) = 530 :=
    (roundBinary_eval 24 (((530 : Int) : ℚ)) (9) (8683520) (1 / 16384)
      (by norm_num [abs_of_pos]) (by norm_num [abs_of_pos]) (by norm_num)
      (roundNearestEven_eq_of_lt _ _ (by norm_num) (by norm_num))).trans (by norm_num)
  have h2 : roundBinary 24 (0.034 : ℚ) = (4563403 / 134217728) :=
    (roundBinary_eval 24 (0.034 : ℚ) (-5) (9126806) (1 / 268435456)
      (by norm_num [abs_of_pos]) (by norm_num [abs_of_pos]) (by norm_num)
      (roundNearestEven_eq_of_lt _ _ (by norm_num) (by norm_num))).trans (by norm_num)
  have h3 : roundBinary 24 (530 * (4563403 / 134217728)) = (4723835 / 262144) :=
    (roundBinary_eval 24 (530 * (4563403 / 134217728)) (4) (9447670) (1 / 524288)
      (by norm_num [abs_of_pos]) (by norm_num [abs_of_pos]) (by norm_num)
      (roundNearestEven_eq_of_lt _ _ (by norm_num) (by norm_num))).trans (by norm_num)
  have h4 : roundBinary 24 ((4723835 / 262144) / 2) = (4723835 / 524288) :=
    (roundBinary_eval 24 ((4723835 / 262144) / 2) (3) (9447670) (1 / 1048576)
      (by norm_num [abs_of_pos]) (by norm_num [abs_of_pos]) (by norm_num)
      (roundNearestEven_eq_of_lt _ _ (by norm_num) (by norm_num))).trans (by norm_num)
  have h5 : roundBinary 24 ((35.0 : ℚ) - (4723835 / 524288)) = (13626245 / 524288) :=
    (roundBinary_eval 24 ((35.0 : ℚ) - (4723835 / 524288)) (4) (13626245) (1 / 524288)
      (by norm_num [abs_of_pos]) (by norm_num [abs_of_pos]) (by norm_num)
      (roundNearestEven_eq_of_lt _ _ (by norm_num) (by norm_num))).trans (by norm_num)
  have h6 : roundBinary 24 (13626245 / 524288) = (13626245 / 524288) :=
    (roundBinary_eval 24 (13626245 / 524288) (4) (13626245) (1 / 524288)
      (by norm_num [abs_of_pos]) (by norm_num [abs_of_pos]) (by norm_num)
      (roundNearestEven_eq_of_lt _ _ (by norm_num) (by norm_num))).trans (by norm_num)
  simp only [Rounded.measureWaterLevel, avrArith, RESERVOIR_HEIGHT]
  rw [h1, h2, h3, h4, h5, h6]

/-- The volume computed from the level of echo time 530, in binary32 arithmetic. -/
theorem Rounded.calculateReservoirVolume_avr_530 :
    Rounded.calculateReservoirVolume avrArith ARDUINO_PI (13626245 / 524288) =
      (8561623 / 262144) := by
  have h1 : roundBinary 24 (ARDUINO_PI) = (13176795 / 4194304) :=
    (roundBinary_eval 24 (ARDUINO_PI) (1) (13176795) (1 / 4194304)
      (by norm_num [abs_of_pos, ARDUINO_PI]) (by norm_num [abs_of_pos, ARDUINO_PI]) (by norm_num)
      (roundNearestEven_eq_of_lt _ _ (by norm_num [ARDUINO_PI]) (by norm_num [ARDUINO_PI]))).trans (by norm_num)
  have h2 : roundBinary 24 ((13176795 / 4194304) * (20.0 : ℚ)) = (8235497 / 131072) :=
    (roundBinary_eval 24 ((13176795 / 4194304) * (20.0 : ℚ)) (5) (16470994) (1 / 262144)
      (by norm_num [abs_of_pos]) (by norm_num [abs_of_pos]) (by norm_num)
      (roundNearestEven_eq_of_lt _ _ (by norm_num) (by norm_num))).trans (by norm_num)
  have h3 : roundBinary 24 ((8235497 / 131072) * (20.0 : ℚ)) = (10294371 / 8192) :=
    (roundBinary_eval 24 ((8235497 / 131072) * (20.0 : ℚ)) (10) (10294371) (1 / 8192)
      (by norm_num [abs_of_pos]) (by norm_num [abs_of_pos]) (by norm_num)
      (roundNearestEven_eq_of_lt _ _ (by norm_num) (by norm_num))).trans (by norm_num)
  have h4 : roundBinary 24 ((10294371 / 8192) * (13626245 / 524288)) = (16721919 / 512) :=
    (roundBinary_eval 24 ((10294371 / 8192) * (13626245 / 524288)) (14) (16721919) (1 / 512)
      (by norm_num [abs_of_pos]) (by norm_num [abs_of_pos]) (by norm_num)
      (roundNearestEven_eq_of_lt _ _ (by norm_num) (by norm_num))).trans (by norm_num)
  have h5 : roundBinary 24 ((16721919 / 512) / (1000.0 : ℚ)) = (8561623 / 262144) :=
    (roundBinary_eval 24 ((16721919 / 512) / (1000.0 : ℚ)) (5) (8561623) (1 / 262144)
      (by norm_num [abs_of_pos]) (by norm_num [abs_of_pos]) (by norm_num)
      (roundNearestEven_eq_of_lt _ _ (by norm_num) (by norm_num))).trans (by norm_num)
  have h6 : roundBinary 24 (8561623 / 262144) = (8561623 / 262144) :=
    (roundBinary_eval 24 (8561623 / 262144) (5) (8561623) (1 / 262144)
      (by norm_num [abs_of_pos]) (by norm_num [abs_of_pos]) (by norm_num)
      (roundNearestEven_eq_of_lt _ _ (by norm_num) (by norm_num))).trans (by norm_num)
  simp only [Rounded.calculateReservoirVolume, avrArith, RESERVOIR_RADIUS]
  rw [h1, h2, h3, h4, h5, h6]

/-- The dosing duration stored for the volume of echo time 530, in binary32 arithmetic. -/
theorem Rounded.dosingDuration_avr_530 :
    Rounded.dosingDuration avrArith (8561623 / 262144) = 8165 := by
  have h1 : roundBinary 24 (0.00025 : ℚ) = (8589935 / 34359738368) :=
    (roundBinary_eval 24 (0.00025 : ℚ) (-12) (8589935) (1 / 34359738368)
      (by norm_num [abs_of_pos]) (by norm_num [abs_of_pos]) (by norm_num)
      (roundNearestEven_eq_of_lt _ _ (by norm_num) (by norm_num))).trans (by norm_num)
  have h2 : roundBinary 24 ((8561623 / 262144) * (8589935 / 34359738368)) = (4383551 / 536870912) :=
    (roundBinary_eval 24 ((8561623 / 262144) * (8589935 / 34359738368)) (-7) (8767102) (1 / 1073741824)
      (by norm_num [abs_of_pos]) (by norm_num [abs_of_pos]) (by norm_num)
      (roundNearestEven_eq_of_lt _ _ (by norm_num) (by norm_num))).trans (by norm_num)
  have h3 : roundBinary 24 ((4383551 / 536870912) * 1000000) = 8165 :=
    (roundBinary_eval 24 ((4383551 / 536870912) * 1000000) (12) (16721920) (1 / 2048)
      (by norm_num [abs_of_pos]) (by norm_num [abs_of_pos]) (by norm_num)
      (roundNearestEven_eq_of_lt _ _ (by norm_num) (by norm_num))).trans (by norm_num)
  simp only [Rounded.dosingDuration, avrArith, DOSAGE_RATE]
  rw [h1, h2, h3]
  apply truncToLong_eq_of_bounds <;> norm_num

/-- The level returned for an echo time of 378156 microseconds, with binary64 operations on binary32 variables. -/
theorem Rounded.measureWaterLevel_esp_378156 :
    Rounded.measureWaterLevel espArith 378156 = (-(13094199 / 2048)) := by
  have h1 : roundBinary 53 (((378156 : Int) : ℚ)) = 378156 :=
    (roundBinary_eval 53 (((378156 : Int) : ℚ)) (18) (6496670611144704) (1 / 17179869184)
      (by norm_num [abs_of_pos]) (by norm_num [abs_of_pos]) (by norm_num)
      (roundNearestEven_eq_of_lt _ _ (by norm_num) (by norm_num))).trans (by norm_num)
  have h2 : roundBinary 53 (0.034 : ℚ) = (1224979098644775 / 36028797018963968) :=
    (roundBinary_eval 53 (0.034 : ℚ) (-5) (4899916394579100) (1 / 144115188075855872)
      (by norm_num [abs_of_pos]) (by norm_num [abs_of_pos]) (by norm_num)
      (roundNearestEven_eq_of_lt _ _ (by norm_num) (by norm_num))).trans (by norm_num)
  have h3 : roundBinary 53 (378156 * (1224979098644775 / 36028797018963968)) = (3534188812462719 / 274877906944) :=
    (roundBinary_eval 53 (378156 * (1224979098644775 / 36028797018963968)) (13) (7068377624925438) (1 / 549755813888)
      (by norm_num [abs_of_pos]) (by norm_num [abs_of_pos]) (by norm_num)
      (roundNearestEven_eq_of_lt _ _ (by norm_num) (by norm_num))).trans (by norm_num)
  have h4 : roundBinary 53 ((3534188812462719 / 274877906944) / 2) = (3534188812462719 / 549755813888) :=
    (roundBinary_eval 53 ((3534188812462719 / 274877906944) / 2) (12) (7068377624925438) (1 / 1099511627776)
      (by norm_num [abs_of_pos]) (by norm_num [abs_of_pos]) (by norm_num)
      (roundNearestEven_eq_of_lt _ _ (by norm_num) (by norm_num))).trans (by norm_num)
  have h5 : roundBinary 53 ((35.0 : ℚ) - (3534188812462719 / 549755813888)) = (-(3514947358976639 / 549755813888)) :=
    (roundBinary_eval 53 ((35.0 : ℚ) - (3534188812462719 / 549755813888)) (12) (-7029894717953278) (1 / 1099511627776)
      (by norm_num [abs_of_neg]) (by norm_num [abs_of_neg]) (by norm_num)
      (roundNearestEven_eq_of_lt _ _ (by norm_num) (by norm_num))).trans (by norm_num)
  have h6 : roundBinary 24 ((-(3514947358976639 / 549755813888))) = (-(13094199 / 2048)) :=
    (roundBinary_eval 24 ((-(3514947358976639 / 549755813888))) (12) (-13094199) (1 / 2048)
      (by norm_num [abs_of_neg]) (by norm_num [abs_of_neg]) (by norm_num)
      (roundNearestEven_eq_of_lt _ _ (by norm_num) (by norm_num))).trans (by norm_num)
  simp only [Rounded.measureWaterLevel, espArith, RESERVOIR_HEIGHT]
  rw [h1, h2, h3, h4, h5, h6]

/-- The volume computed from the level of echo time 378156, with binary64 operations on binary32 variables. -/
theorem Rounded.calculateReservoirVolume_esp_378156 :
    Rounded.calculateReservoirVolume espArith ARDUINO_PI (-(13094199 / 2048)) =
      (-(16069 / 2)) := by
  have h1 : roundBinary 53 (ARDUINO_PI) = (884279719003555 / 281474976710656) :=
    (roundBinary_eval 53 (ARDUINO_PI) (1) (7074237752028440) (1 / 2251799813685248)
      (by norm_num [abs_of_pos, ARDUINO_PI]) (by norm_num [abs_of_pos, ARDUINO_PI]) (by norm_num)
      (roundNearestEven_eq_of_lt _ _ (by norm_num [ARDUINO_PI]) (by norm_num [ARDUINO_PI]))).trans (by norm_num)
  have h2 : roundBinary 53 ((884279719003555 / 281474976710656) * (20.0 : ℚ)) = (4421398595017775 / 70368744177664) :=
    (roundBinary_eval 53 ((884279719003555 / 281474976710656) * (20.0 : ℚ)) (5) (8842797190035550) (1 / 140737488355328)
      (by norm_num [abs_of_pos]) (by norm_num [abs_of_pos]) (by norm_num)
      (roundNearestEven_eq_of_lt _ _ (by norm_num) (by norm_num))).trans (by norm_num)
  have h3 : roundBinary 53 ((4421398595017775 / 70368744177664) * (20.0 : ℚ)) = (5526748243772219 / 4398046511104) :=
    (roundBinary_eval 53 ((4421398595017775 / 70368744177664) * (20.0 : ℚ)) (10) (5526748243772219) (1 / 4398046511104)
      (by norm_num [abs_of_pos]) (by norm_num [abs_of_pos]) (by norm_num)
      (roundNearestEven_eq_of_lt _ _ (by norm_num) (by norm_num))).trans (by norm_num)
  have h4 : roundBinary 53 ((5526748243772219 / 4398046511104) * (-(13094199 / 2048))) = (-(8626978555542701 / 1073741824)) :=
    (roundBinary_eval 53 ((5526748243772219 / 4398046511104) * (-(13094199 / 2048))) (22) (-8626978555542701) (1 / 1073741824)
      (by norm_num [abs_of_neg]) (by norm_num [abs_of_neg]) (by norm_num)
      (roundNearestEven_eq_of_lt _ _ (by norm_num) (by norm_num))).trans (by norm_num)
  have h5 : roundBinary 53 ((-(8626978555542701 / 1073741824)) / (1000.0 : ℚ)) = (-(4417013020437863 / 549755813888)) :=
    (roundBinary_eval 53 ((-(8626978555542701 / 1073741824)) / (1000.0 : ℚ)) (12) (-8834026040875726) (1 / 1099511627776)
      (by norm_num [abs_of_neg]) (by norm_num [abs_of_neg]) (by norm_num)
      (roundNearestEven_eq_of_lt _ _ (by norm_num) (by norm_num))).trans (by norm_num)
  have h6 : roundBinary 24 ((-(4417013020437863 / 549755813888))) = (-(16069 / 2)) :=
    (roundBinary_eval 24 ((-(4417013020437863 / 549755813888))) (12) (-16454656) (1 / 2048)
      (by norm_num [abs_of_neg]) (by norm_num [abs_of_neg]) (by norm_num)
      (roundNearestEven_eq_of_lt _ _ (by norm_num) (by norm_num))).trans (by norm_num)
  simp only [Rounded.calculateReservoirVolume, espArith, RESERVOIR_RADIUS]
  rw [h1, h2, h3, h4, h5, h6]

/-- The dosing duration stored for the volume of echo time 378156, with binary64 operations on binary32 variables. -/
theorem Rounded.dosingDuration_esp_378156 :
    Rounded.dosingDuration espArith (-(16069 / 2)) = (-2008624) := by
  have h1 : roundBinary 53 (0.00025 : ℚ) = (1152921504606847 / 4611686018427387904) :=
    (roundBinary_eval 53 (0.00025 : ℚ) (-12) (4611686018427388) (1 / 18446744073709551616)
      (by norm_num [abs_of_pos]) (by norm_num [abs_of_pos]) (by norm_num)
      (roundNearestEven_eq_of_lt _ _ (by norm_num) (by norm_num))).trans (by norm_num)
  have h2 : roundBinary 53 ((-(16069 / 2)) * (1152921504606847 / 4611686018427387904)) = (-(4523021400763531 / 2251799813685248)) :=
    (roundBinary_eval 53 ((-(16069 / 2)) * (1152921504606847 / 4611686018427387904)) (1) (-4523021400763531) (1 / 2251799813685248)
      (by norm_num [abs_of_neg]) (by norm_num [abs_of_neg]) (by norm_num)
      (roundNearestEven_eq_of_lt _ _ (by norm_num) (by norm_num))).trans (by norm_num)
  have h3 : roundBinary 53 ((-(4523021400763531 / 2251799813685248)) * 1000000) = (-(8626978684927999 / 4294967296)) :=
    (roundBinary_eval 53 ((-(4523021400763531 / 2251799813685248)) * 1000000) (20) (-8626978684927999) (1 / 4294967296)
      (by norm_num [abs_of_neg]) (by norm_num [abs_of_neg]) (by norm_num)
      (roundNearestEven_eq_of_lt _ _ (by norm_num) (by norm_num))).trans (by norm_num)
  simp only [Rounded.dosingDuration, espArith, DOSAGE_RATE]
  rw [h1, h2, h3]
  apply truncToLong_eq_of_neg_bounds <;> norm_num

/-- A volume of exactly 40 litres gives a dosing duration of 10000, in binary32 arithmetic. -/
theorem Rounded.dosingDuration_avr_40 :
    Rounded.dosingDuration avrArith 40 = 10000 := by
  have h1 : roundBinary 24 (0.00025 : ℚ) = (8589935 / 34359738368) :=
    (roundBinary_eval 24 (0.00025 : ℚ) (-12) (8589935) (1 / 34359738368)
      (by norm_num [abs_of_pos]) (by norm_num [abs_of_pos]) (by norm_num)
      (roundNearestEven_eq_of_lt _ _ (by norm_num) (by norm_num))).trans (by norm_num)
  have h2 : roundBinary 24 (40 * (8589935 / 34359738368)) = (10737419 / 1073741824) :=
    (roundBinary_eval 24 (40 * (8589935 / 34359738368)) (-7) (10737419) (1 / 1073741824)
      (by norm_num [abs_of_pos]) (by norm_num [abs_of_pos]) (by norm_num)
      (roundNearestEven_eq_of_lt _ _ (by norm_num) (by norm_num))).trans (by norm_num)
  have h3 : roundBinary 24 ((10737419 / 1073741824) * 1000000) = (10240001 / 1024) :=
    (roundBinary_eval 24 ((10737419 / 1073741824) * 1000000) (13) (10240001) (1 / 1024)
      (by norm_num [abs_of_pos]) (by norm_num [abs_of_pos]) (by norm_num)
      (roundNearestEven_eq_of_lt _ _ (by norm_num) (by norm_num))).trans (by norm_num)
  simp only [Rounded.dosingDuration, avrArith, DOSAGE_RATE]
  rw [h1, h2, h3]
  apply truncToLong_eq_of_bounds <;> norm_num

/-- A volume of exactly 40 litres gives a dosing duration of 10000, with binary64 operations on binary32 variables. -/
theorem Rounded.dosingDuration_esp_40 :
    Rounded.dosingDuration espArith 40 = 10000 := by
  have h1 : roundBinary 53 (0.00025 : ℚ) = (1152921504606847 / 4611686018427387904) :=
    (roundBinary_eval 53 (0.00025 : ℚ) (-12) (4611686018427388) (1 / 18446744073709551616)
      (by norm_num [abs_of_pos]) (by norm_num [abs_of_pos]) (by norm_num)
      (roundNearestEven_eq_of_lt _ _ (by norm_num) (by norm_num))).trans (by norm_num)
  have h2 : roundBinary 53 (40 * (1152921504606847 / 4611686018427387904)) = (5764607523034235 / 576460752303423488) :=
    (roundBinary_eval 53 (40 * (1152921504606847 / 4611686018427387904)) (-7) (5764607523034235) (1 / 576460752303423488)
      (by norm_num [abs_of_pos]) (by norm_num [abs_of_pos]) (by norm_num)
      (roundNearestEven_eq_of_lt _ _ (by norm_num) (by norm_num))).trans (by norm_num)
  have h3 : roundBinary 53 ((5764607523034235 / 576460752303423488) * 1000000) = 10000 :=
    (roundBinary_eval 53 ((5764607523034235 / 576460752303423488) * 1000000) (13) (5497558138880000) (1 / 549755813888)
      (by norm_num [abs_of_pos]) (by norm_num [abs_of_pos]) (by norm_num)
      (roundNearestEven_eq_of_lt _ _ (by norm_num) (by norm_num))).trans (by norm_num)
  simp only [Rounded.dosingDuration, espArith, DOSAGE_RATE]
  rw [h1, h2, h3]
  apply truncToLong_eq_of_bounds <;> norm_num

/-- The dosing duration computed from an echo time of 0 microseconds, in binary32 arithmetic. -/
theorem Rounded.stored_avr_0 :
    Rounded.dosingDuration avrArith (Rounded.calculateReservoirVolume avrArith ARDUINO_PI
      (Rounded.measureWaterLevel avrArith 0)) = 10995 := by
  have h1 : roundBinary 24 (((0 : Int) : ℚ)) = 0 := by
    norm_num [roundBinary]
  have h2 : roundBinary 24 (0.034 : ℚ) = (4563403 / 134217728) :=
    (roundBinary_eval 24 (0.034 : ℚ) (-5) (9126806) (1 / 268435456)
      (by norm_num [abs_of_pos]) (by norm_num [abs_of_pos]) (by norm_num)
      (roundNearestEven_eq_of_lt _ _ (by norm_num) (by norm_num))).trans (by norm_num)
  have h3 : roundBinary 24 (0 * (4563403 / 134217728)) = 0 := by
    norm_num [roundBinary]
  have h4 : roundBinary 24 (0 / 2) = 0 := by
    norm_num [roundBinary]
  have h5 : roundBinary 24 ((35.0 : ℚ) - 0) = 35 :=
    (roundBinary_eval 24 ((35.0 : ℚ) - 0) (5) (9175040) (1 / 262144)
      (by norm_num [abs_of_pos]) (by norm_num [abs_of_pos]) (by norm_num)
      (roundNearestEven_eq_of_lt _ _ (by norm_num) (by norm_num))).trans (by norm_num)
  have h6 : roundBinary 24 (35) = 35 :=
    (roundBinary_eval 24 (35) (5) (9175040) (1 / 262144)
      (by norm_num [abs_of_pos]) (by norm_num [abs_of_pos]) (by norm_num)
      (roundNearestEven_eq_of_lt _ _ (by norm_num) (by norm_num))).trans (by norm_num)
  have h7 : roundBinary 24 (ARDUINO_PI) = (13176795 / 4194304) :=
    (roundBinary_eval 24 (ARDUINO_PI) (1) (13176795) (1 / 4194304)
      (by norm_num [abs_of_pos, ARDUINO_PI]) (by norm_num [abs_of_pos, ARDUINO_PI]) (by norm_num)
      (roundNearestEven_eq_of_lt _ _ (by norm_num [ARDUINO_PI]) (by norm_num [ARDUINO_PI]))).trans (by norm_num)
  have h8 : roundBinary 24 ((13176795 / 4194304) * (20.0 : ℚ)) = (8235497 / 131072) :=
    (roundBinary_eval 24 ((13176795 / 4194304) * (20.0 : ℚ)) (5) (16470994) (1 / 262144)
      (by norm_num [abs_of_pos]) (by norm_num [abs_of_pos]) (by norm_num)
      (roundNearestEven_eq_of_lt _ _ (by norm_num) (by norm_num))).trans (by norm_num)
  have h9 : roundBinary 24 ((8235497 / 131072) * (20.0 : ℚ)) = (10294371 / 8192) :=
    (roundBinary_eval 24 ((8235497 / 131072) * (20.0 : ℚ)) (10) (10294371) (1 / 8192)
      (by norm_num [abs_of_pos]) (by norm_num [abs_of_pos]) (by norm_num)
      (roundNearestEven_eq_of_lt _ _ (by norm_num) (by norm_num))).trans (by norm_num)
  have h10 : roundBinary 24 ((10294371 / 8192) * 35) = (2814867 / 64) :=
    (roundBinary_eval 24 ((10294371 / 8192) * 35) (15) (11259468) (1 / 256)
      (by norm_num [abs_of_pos]) (by norm_num [abs_of_pos]) (by norm_num)
      (roundNearestEven_eq_of_lt _ _ (by norm_num) (by norm_num))).trans (by norm_num)
  have h11 : roundBinary 24 ((2814867 / 64) / (1000.0 : ℚ)) = (11529695 / 262144) :=
    (roundBinary_eval 24 ((2814867 / 64) / (1000.0 : ℚ)) (5) (11529695) (1 / 262144)
      (by norm_num [abs_of_pos]) (by norm_num [abs_of_pos]) (by norm_num)
      (roundNearestEven_eq_of_lt _ _ (by norm_num) (by norm_num))).trans (by norm_num)
  have h12 : roundBinary 24 (11529695 / 262144) = (11529695 / 262144) :=
    (roundBinary_eval 24 (11529695 / 262144) (5) (11529695) (1 / 262144)
      (by norm_num [abs_of_pos]) (by norm_num [abs_of_pos]) (by norm_num)
      (roundNearestEven_eq_of_lt _ _ (by norm_num) (by norm_num))).trans (by norm_num)
  have h13 : roundBinary 24 (0.00025 : ℚ) = (8589935 / 34359738368) :=
    (roundBinary_eval 24 (0.00025 : ℚ) (-12) (8589935) (1 / 34359738368)
      (by norm_num [abs_of_pos]) (by norm_num [abs_of_pos]) (by norm_num)
      (roundNearestEven_eq_of_lt _ _ (by norm_num) (by norm_num))).trans (by norm_num)
  have h14 : roundBinary 24 ((11529695 / 262144) * (8589935 / 34359738368)) = (1475801 / 134217728) :=
    (roundBinary_eval 24 ((11529695 / 262144) * (8589935 / 34359738368)) (-7) (11806408) (1 / 1073741824)
      (by norm_num [abs_of_pos]) (by norm_num [abs_of_pos]) (by norm_num)
      (roundNearestEven_eq_of_lt _ _ (by norm_num) (by norm_num))).trans (by norm_num)
  have h15 : roundBinary 24 ((1475801 / 134217728) * 1000000) = (2814867 / 256) :=
    (roundBinary_eval 24 ((1475801 / 134217728) * 1000000) (13) (11259468) (1 / 1024)
      (by norm_num [abs_of_pos]) (by norm_num [abs_of_pos]) (by norm_num)
      (roundNearestEven_eq_of_lt _ _ (by norm_num) (by norm_num))).trans (by norm_num)
  simp only [Rounded.dosingDuration, Rounded.calculateReservoirVolume,
    Rounded.measureWaterLevel, avrArith, RESERVOIR_HEIGHT, RESERVOIR_RADIUS, DOSAGE_RATE]
  rw [h1, h2, h3, h4, h5, h6, h7, h8, h9, h10, h11, h12, h13, h14, h15]
  apply truncToLong_eq_of_bounds <;> norm_num

/-- The dosing duration computed from an echo time of 1000 microseconds, in binary32 arithmetic. -/
theorem Rounded.stored_avr_1000 :
    Rounded.dosingDuration avrArith (Rounded.calculateReservoirVolume avrArith ARDUINO_PI
      (Rounded.measureWaterLevel avrArith 1000)) = 5654 := by
  have h1 : roundBinary 24 (((1000 : Int) : ℚ)) = 1000 :=
    (roundBinary_eval 24 (((1000 : Int) : ℚ)) (9) (16384000) (1 / 16384)
      (by norm_num [abs_of_pos]) (by norm_num [abs_of_pos]) (by norm_num)
      (roundNearestEven_eq_of_lt _ _ (by norm_num) (by norm_num))).trans (by norm_num)
  have h2 : roundBinary 24 (0.034 : ℚ) = (4563403 / 134217728) :=
    (roundBinary_eval 24 (0.034 : ℚ) (-5) (9126806) (1 / 268435456)
      (by norm_num [abs_of_pos]) (by norm_num [abs_of_pos]) (by norm_num)
      (roundNearestEven_eq_of_lt _ _ (by norm_num) (by norm_num))).trans (by norm_num)
  have h3 : roundBinary 24 (1000 * (4563403 / 134217728)) = 34 :=
    (roundBinary_eval 24 (1000 * (4563403 / 134217728)) (5) (8912896) (1 / 262144)
      (by norm_num [abs_of_pos]) (by norm_num [abs_of_pos]) (by norm_num)
      (roundNearestEven_eq_of_lt _ _ (by norm_num) (by norm_num))).trans (by norm_num)
  have h4 : roundBinary 24 (34 / 2) = 17 :=
    (roundBinary_eval 24 (34 / 2) (4) (8912896) (1 / 524288)
      (by norm_num [abs_of_pos]) (by norm_num [abs_of_pos]) (by norm_num)
      (roundNearestEven_eq_of_lt _ _ (by norm_num) (by norm_num))).trans (by norm_num)
  have h5 : roundBinary 24 ((35.0 : ℚ) - 17) = 18 :=
    (roundBinary_eval 24 ((35.0 : ℚ) - 17) (4) (9437184) (1 / 524288)
      (by norm_num [abs_of_pos]) (by norm_num [abs_of_pos]) (by norm_num)
      (roundNearestEven_eq_of_lt _ _ (by norm_num) (by norm_num))).trans (by norm_num)
  have h6 : roundBinary 24 (18) = 18 :=
    (roundBinary_eval 24 (18) (4) (9437184) (1 / 524288)
      (by norm_num [abs_of_pos]) (by norm_num [abs_of_pos]) (by norm_num)
      (roundNearestEven_eq_of_lt _ _ (by norm_num) (by norm_num))).trans (by norm_num)
  have h7 : roundBinary 24 (ARDUINO_PI) = (13176795 / 4194304) :=
    (roundBinary_eval 24 (ARDUINO_PI) (1) (13176795) (1 / 4194304)
      (by norm_num [abs_of_pos, ARDUINO_PI]) (by norm_num [abs_of_pos, ARDUINO_PI]) (by norm_num)
      (roundNearestEven_eq_of_lt _ _ (by norm_num [ARDUINO_PI]) (by norm_num [ARDUINO_PI]))).trans (by norm_num)
  have h8 : roundBinary 24 ((13176795 / 4194304) * (20.0 : ℚ)) = (8235497 / 131072) :=
    (roundBinary_eval 24 ((13176795 / 4194304) * (20.0 : ℚ)) (5) (16470994) (1 / 262144)
      (by norm_num [abs_of_pos]) (by norm_num [abs_of_pos]) (by norm_num)
      (roundNearestEven_eq_of_lt _ _ (by norm_num) (by norm_num))).trans (by norm_num)
  have h9 : roundBinary 24 ((8235497 / 131072) * (20.0 : ℚ)) = (10294371 / 8192) :=
    (roundBinary_eval 24 ((8235497 / 131072) * (20.0 : ℚ)) (10) (10294371) (1 / 8192)
      (by norm_num [abs_of_pos]) (by norm_num [abs_of_pos]) (by norm_num)
      (roundNearestEven_eq_of_lt _ _ (by norm_num) (by norm_num))).trans (by norm_num)
  have h10 : roundBinary 24 ((10294371 / 8192) * 18) = (11581167 / 512) :=
    (roundBinary_eval 24 ((10294371 / 8192) * 18) (14) (11581167) (1 / 512)
      (by norm_num [abs_of_pos]) (by norm_num [abs_of_pos]) (by norm_num)
      (roundNearestEven_eq_of_lt _ _ (by norm_num) (by norm_num))).trans (by norm_num)
  have h11 : roundBinary 24 ((11581167 / 512) / (1000.0 : ℚ)) = (11859115 / 524288) :=
    (roundBinary_eval 24 ((11581167 / 512) / (1000.0 : ℚ)) (4) (11859115) (1 / 524288)
      (by norm_num [abs_of_pos]) (by norm_num [abs_of_pos]) (by norm_num)
      (roundNearestEven_eq_of_lt _ _ (by norm_num) (by norm_num))).trans (by norm_num)
  have h12 : roundBinary 24 (11859115 / 524288) = (11859115 / 524288) :=
    (roundBinary_eval 24 (11859115 / 524288) (4) (11859115) (1 / 524288)
      (by norm_num [abs_of_pos]) (by norm_num [abs_of_pos]) (by norm_num)
      (roundNearestEven_eq_of_lt _ _ (by norm_num) (by norm_num))).trans (by norm_num)
  have h13 : roundBinary 24 (0.00025 : ℚ) = (8589935 / 34359738368) :=
    (roundBinary_eval 24 (0.00025 : ℚ) (-12) (8589935) (1 / 34359738368)
      (by norm_num [abs_of_pos]) (by norm_num [abs_of_pos]) (by norm_num)
      (roundNearestEven_eq_of_lt _ _ (by norm_num) (by norm_num))).trans (by norm_num)
  have h14 : roundBinary 24 ((11859115 / 524288) * (8589935 / 34359738368)) = (6071867 / 1073741824) :=
    (roundBinary_eval 24 ((11859115 / 524288) * (8589935 / 34359738368)) (-8) (12143734) (1 / 2147483648)
      (by norm_num [abs_of_pos]) (by norm_num [abs_of_pos]) (by norm_num)
      (roundNearestEven_eq_of_lt _ _ (by norm_num) (by norm_num))).trans (by norm_num)
  have h15 : roundBinary 24 ((6071867 / 1073741824) * 1000000) = (11581167 / 2048) :=
    (roundBinary_eval 24 ((6071867 / 1073741824) * 1000000) (12) (11581167) (1 / 2048)
      (by norm_num [abs_of_pos]) (by norm_num [abs_of_pos]) (by norm_num)
      (roundNearestEven_eq_of_lt _ _ (by norm_num) (by norm_num))).trans (by norm_num)
  simp only [Rounded.dosingDuration, Rounded.calculateReservoirVolume,
    Rounded.measureWaterLevel, avrArith, RESERVOIR_HEIGHT, RESERVOIR_RADIUS, DOSAGE_RATE]
  rw [h1, h2, h3, h4, h5, h6, h7, h8, h9, h10, h11, h12, h13, h14, h15]
  apply truncToLong_eq_of_bounds <;> norm_num

/-- The dosing duration computed from an echo time of 3000 microseconds, in binary32 arithmetic. -/
theorem Rounded.stored_avr_3000 :
    Rounded.dosingDuration avrArith (Rounded.calculateReservoirVolume avrArith ARDUINO_PI
      (Rounded.measureWaterLevel avrArith 3000)) = (-5026) := by
  have h1 : roundBinary 24 (((3000 : Int) : ℚ)) = 3000 :=
    (roundBinary_eval 24 (((3000 : Int) : ℚ)) (11) (12288000) (1 / 4096)
      (by norm_num [abs_of_pos]) (by norm_num [abs_of_pos]) (by norm_num)
      (roundNearestEven_eq_of_lt _ _ (by norm_num) (by norm_num))).trans (by norm_num)
  have h2 : roundBinary 24 (0.034 : ℚ) = (4563403 / 134217728) :=
    (roundBinary_eval 24 (0.034 : ℚ) (-5) (9126806) (1 / 268435456)
      (by norm_num [abs_of_pos]) (by norm_num [abs_of_pos]) (by norm_num)
      (roundNearestEven_eq_of_lt _ _ (by norm_num) (by norm_num))).trans (by norm_num)
  have h3 : roundBinary 24 (3000 * (4563403 / 134217728)) = (13369345 / 131072) :=
    (roundBinary_eval 24 (3000 * (4563403 / 134217728)) (6) (13369345) (1 / 131072)
      (by norm_num [abs_of_pos]) (by norm_num [abs_of_pos]) (by norm_num)
      (roundNearestEven_eq_of_lt _ _ (by norm_num) (by norm_num))).trans (by norm_num)
  have h4 : roundBinary 24 ((13369345 / 131072) / 2) = (13369345 / 262144) :=
    (roundBinary_eval 24 ((13369345 / 131072) / 2) (5) (13369345) (1 / 262144)
      (by norm_num [abs_of_pos]) (by norm_num [abs_of_pos]) (by norm_num)
      (roundNearestEven_eq_of_lt _ _ (by norm_num) (by norm_num))).trans (by norm_num)
  have h5 : roundBinary 24 ((35.0 : ℚ) - (13369345 / 262144)) = (-(4194305 / 262144)) :=
    (roundBinary_eval 24 ((35.0 : ℚ) - (13369345 / 262144)) (4) (-8388610) (1 / 524288)
      (by norm_num [abs_of_neg]) (by norm_num [abs_of_neg]) (by norm_num)
      (roundNearestEven_eq_of_lt _ _ (by norm_num) (by norm_num))).trans (by norm_num)
  have h6 : roundBinary 24 ((-(4194305 / 262144))) = (-(4194305 / 262144)) :=
    (roundBinary_eval 24 ((-(4194305 / 262144))) (4) (-8388610) (1 / 524288)
      (by norm_num [abs_of_neg]) (by norm_num [abs_of_neg]) (by norm_num)
      (roundNearestEven_eq_of_lt _ _ (by norm_num) (by norm_num))).trans (by norm_num)
  have h7 : roundBinary 24 (ARDUINO_PI) = (13176795 / 4194304) :=
    (roundBinary_eval 24 (ARDUINO_PI) (1) (13176795) (1 / 4194304)
      (by norm_num [abs_of_pos, ARDUINO_PI]) (by norm_num [abs_of_pos, ARDUINO_PI]) (by norm_num)
      (roundNearestEven_eq_of_lt _ _ (by norm_num [ARDUINO_PI]) (by norm_num [ARDUINO_PI]))).trans (by norm_num)
  have h8 : roundBinary 24 ((13176795 / 4194304) * (20.0 : ℚ)) = (8235497 / 131072) :=
    (roundBinary_eval 24 ((13176795 / 4194304) * (20.0 : ℚ)) (5) (16470994) (1 / 262144)
      (by norm_num [abs_of_pos]) (by norm_num [abs_of_pos]) (by norm_num)
      (roundNearestEven_eq_of_lt _ _ (by norm_num) (by norm_num))).trans (by norm_num)
  have h9 : roundBinary 24 ((8235497 / 131072) * (20.0 : ℚ)) = (10294371 / 8192) :=
    (roundBinary_eval 24 ((8235497 / 131072) * (20.0 : ℚ)) (10) (10294371) (1 / 8192)
      (by norm_num [abs_of_pos]) (by norm_num [abs_of_pos]) (by norm_num)
      (roundNearestEven_eq_of_lt _ _ (by norm_num) (by norm_num))).trans (by norm_num)
  have h10 : roundBinary 24 ((10294371 / 8192) * (-(4194305 / 262144))) = (-(10294373 / 512)) :=
    (roundBinary_eval 24 ((10294371 / 8192) * (-(4194305 / 262144))) (14) (-10294373) (1 / 512)
      (by norm_num [abs_of_neg]) (by norm_num [abs_of_neg]) (by norm_num)
      (roundNearestEven_eq_of_lt _ _ (by norm_num) (by norm_num))).trans (by norm_num)
  have h11 : roundBinary 24 ((-(10294373 / 512)) / (1000.0 : ℚ)) = (-(5270719 / 262144)) :=
    (roundBinary_eval 24 ((-(10294373 / 512)) / (1000.0 : ℚ)) (4) (-10541438) (1 / 524288)
      (by norm_num [abs_of_neg]) (by norm_num [abs_of_neg]) (by norm_num)
      (roundNearestEven_eq_of_lt _ _ (by norm_num) (by norm_num))).trans (by norm_num)
  have h12 : roundBinary 24 ((-(5270719 / 262144))) = (-(5270719 / 262144)) :=
    (roundBinary_eval 24 ((-(5270719 / 262144))) (4) (-10541438) (1 / 524288)
      (by norm_num [abs_of_neg]) (by norm_num [abs_of_neg]) (by norm_num)
      (roundNearestEven_eq_of_lt _ _ (by norm_num) (by norm_num))).trans (by norm_num)
  have h13 : roundBinary 24 (0.00025 : ℚ) = (8589935 / 34359738368) :=
    (roundBinary_eval 24 (0.00025 : ℚ) (-12) (8589935) (1 / 34359738368)
      (by norm_num [abs_of_pos]) (by norm_num [abs_of_pos]) (by norm_num)
      (roundNearestEven_eq_of_lt _ _ (by norm_num) (by norm_num))).trans (by norm_num)
  have h14 : roundBinary 24 ((-(5270719 / 262144)) * (8589935 / 34359738368)) = (-(10794433 / 2147483648)) :=
    (roundBinary_eval 24 ((-(5270719 / 262144)) * (8589935 / 34359738368)) (-8) (-10794433) (1 / 2147483648)
      (by norm_num [abs_of_neg]) (by norm_num [abs_of_neg]) (by norm_num)
      (roundNearestEven_eq_of_lt _ _ (by norm_num) (by norm_num))).trans (by norm_num)
  have h15 : roundBinary 24 ((-(10794433 / 2147483648)) * 1000000) = (-(5147187 / 1024)) :=
    (roundBinary_eval 24 ((-(10794433 / 2147483648)) * 1000000) (12) (-10294374) (1 / 2048)
      (by norm_num [abs_of_neg]) (by norm_num [abs_of_neg]) (by norm_num)
      (roundNearestEven_eq_of_lt _ _ (by norm_num) (by norm_num))).trans (by norm_num)
  simp only [Rounded.dosingDuration, Rounded.calculateReservoirVolume,
    Rounded.measureWaterLevel, avrArith, RESERVOIR_HEIGHT, RESERVOIR_RADIUS, DOSAGE_RATE]
  rw [h1, h2, h3, h4, h5, h6, h7, h8, h9, h10, h11, h12, h13, h14, h15]
  apply truncToLong_eq_of_neg_bounds <;> norm_num

/-- The dosing duration computed from an echo time of 0 microseconds, with binary64 operations on binary32 variables. -/
theorem Rounded.stored_esp_0 :
    Rounded.dosingDuration espArith (Rounded.calculateReservoirVolume espArith ARDUINO_PI
      (Rounded.measureWaterLevel espArith 0)) = 10995 := by
  have h1 : roundBinary 53 (((0 : Int) : ℚ)) = 0 := by
    norm_num [roundBinary]
  have h2 : roundBinary 53 (0.034 : ℚ) = (1224979098644775 / 36028797018963968) :=
    (roundBinary_eval 53 (0.034 : ℚ) (-5) (4899916394579100) (1 / 144115188075855872)
      (by norm_num [abs_of_pos]) (by norm_num [abs_of_pos]) (by norm_num)
      (roundNearestEven_eq_of_lt _ _ (by norm_num) (by norm_num))).trans (by norm_num)
  have h3 : roundBinary 53 (0 * (1224979098644775 / 36028797018963968)) = 0 := by
    norm_num [roundBinary]
  have h4 : roundBinary 53 (0 / 2) = 0 := by
    norm_num [roundBinary]
  have h5 : roundBinary 53 ((35.0 : ℚ) - 0) = 35 :=
    (roundBinary_eval 53 ((35.0 : ℚ) - 0) (5) (4925812092436480) (1 / 140737488355328)
      (by norm_num [abs_of_pos]) (by norm_num [abs_of_pos]) (by norm_num)
      (roundNearestEven_eq_of_lt _ _ (by norm_num) (by norm_num))).trans (by norm_num)
  have h6 : roundBinary 24 (35) = 35 :=
    (roundBinary_eval 24 (35) (5) (9175040) (1 / 262144)
      (by norm_num [abs_of_pos]) (by norm_num [abs_of_pos]) (by norm_num)
      (roundNearestEven_eq_of_lt _ _ (by norm_num) (by norm_num))).trans (by norm_num)
  have h7 : roundBinary 53 (ARDUINO_PI) = (884279719003555 / 281474976710656) :=
    (roundBinary_eval 53 (ARDUINO_PI) (1) (7074237752028440) (1 / 2251799813685248)
      (by norm_num [abs_of_pos, ARDUINO_PI]) (by norm_num [abs_of_pos, ARDUINO_PI]) (by norm_num)
      (roundNearestEven_eq_of_lt _ _ (by norm_num [ARDUINO_PI]) (by norm_num [ARDUINO_PI]))).trans (by norm_num)
  have h8 : roundBinary 53 ((884279719003555 / 281474976710656) * (20.0 : ℚ)) = (4421398595017775 / 70368744177664) :=
    (roundBinary_eval 53 ((884279719003555 / 281474976710656) * (20.0 : ℚ)) (5) (8842797190035550) (1 / 140737488355328)
      (by norm_num [abs_of_pos]) (by norm_num [abs_of_pos]) (by norm_num)
      (roundNearestEven_eq_of_lt _ _ (by norm_num) (by norm_num))).trans (by norm_num)
  have h9 : roundBinary 53 ((4421398595017775 / 70368744177664) * (20.0 : ℚ)) = (5526748243772219 / 4398046511104) :=
    (roundBinary_eval 53 ((4421398595017775 / 70368744177664) * (20.0 : ℚ)) (10) (5526748243772219) (1 / 4398046511104)
      (by norm_num [abs_of_pos]) (by norm_num [abs_of_pos]) (by norm_num)
      (roundNearestEven_eq_of_lt _ _ (by norm_num) (by norm_num))).trans (by norm_num)
  have h10 : roundBinary 53 ((5526748243772219 / 4398046511104) * 35) = (6044880891625865 / 137438953472) :=
    (roundBinary_eval 53 ((5526748243772219 / 4398046511104) * 35) (15) (6044880891625865) (1 / 137438953472)
      (by norm_num [abs_of_pos]) (by norm_num [abs_of_pos]) (by norm_num)
      (roundNearestEven_eq_of_lt _ _ (by norm_num) (by norm_num))).trans (by norm_num)
  have h11 : roundBinary 53 ((6044880891625865 / 137438953472) / (1000.0 : ℚ)) = (3094979016512443 / 70368744177664) :=
    (roundBinary_eval 53 ((6044880891625865 / 137438953472) / (1000.0 : ℚ)) (5) (6189958033024886) (1 / 140737488355328)
      (by norm_num [abs_of_pos]) (by norm_num [abs_of_pos]) (by norm_num)
      (roundNearestEven_eq_of_lt _ _ (by norm_num) (by norm_num))).trans (by norm_num)
  have h12 : roundBinary 24 (3094979016512443 / 70368744177664) = (11529695 / 262144) :=
    (roundBinary_eval 24 (3094979016512443 / 70368744177664) (5) (11529695) (1 / 262144)
      (by norm_num [abs_of_pos]) (by norm_num [abs_of_pos]) (by norm_num)
      (roundNearestEven_eq_of_lt _ _ (by norm_num) (by norm_num))).trans (by norm_num)
  have h13 : roundBinary 53 (0.00025 : ℚ) = (1152921504606847 / 4611686018427387904) :=
    (roundBinary_eval 53 (0.00025 : ℚ) (-12) (4611686018427388) (1 / 18446744073709551616)
      (by norm_num [abs_of_pos]) (by norm_num [abs_of_pos]) (by norm_num)
      (roundNearestEven_eq_of_lt _ _ (by norm_num) (by norm_num))).trans (by norm_num)
  have h14 : roundBinary 53 ((11529695 / 262144) * (1152921504606847 / 4611686018427387904)) = (1584629214651351 / 144115188075855872) :=
    (roundBinary_eval 53 ((11529695 / 262144) * (1152921504606847 / 4611686018427387904)) (-7) (6338516858605404) (1 / 576460752303423488)
      (by norm_num [abs_of_pos]) (by norm_num [abs_of_pos]) (by norm_num)
      (roundNearestEven_eq_of_lt _ _ (by norm_num) (by norm_num))).trans (by norm_num)
  have h15 : roundBinary 53 ((1584629214651351 / 144115188075855872) * 1000000) = (1441211875 / 131072) :=
    (roundBinary_eval 53 ((1584629214651351 / 144115188075855872) * 1000000) (13) (6044880732160000) (1 / 549755813888)
      (by norm_num [abs_of_pos]) (by norm_num [abs_of_pos]) (by norm_num)
      (roundNearestEven_eq_of_lt _ _ (by norm_num) (by norm_num))).trans (by norm_num)
  simp only [Rounded.dosingDuration, Rounded.calculateReservoirVolume,
    Rounded.measureWaterLevel, espArith, RESERVOIR_HEIGHT, RESERVOIR_RADIUS, DOSAGE_RATE]
  rw [h1, h2, h3, h4, h5, h6, h7, h8, h9, h10, h11, h12, h13, h14, h15]
  apply truncToLong_eq_of_bounds <;> norm_num

/-- The dosing duration computed from an echo time of 1000 microseconds, with binary64 operations on binary32 variables. -/
theorem Rounded.stored_esp_1000 :
    Rounded.dosingDuration espArith (Rounded.calculateReservoirVolume espArith ARDUINO_PI
      (Rounded.measureWaterLevel espArith 1000)) = 5654 := by
  have h1 : roundBinary 53 (((1000 : Int) : ℚ)) = 1000 :=
    (roundBinary_eval 53 (((1000 : Int) : ℚ)) (9) (8796093022208000) (1 / 8796093022208)
      (by norm_num [abs_of_pos]) (by norm_num [abs_of_pos]) (by norm_num)
      (roundNearestEven_eq_of_lt _ _ (by norm_num) (by norm_num))).trans (by norm_num)
  have h2 : roundBinary 53 (0.034 : ℚ) = (1224979098644775 / 36028797018963968) :=
    (roundBinary_eval 53 (0.034 : ℚ) (-5) (4899916394579100) (1 / 144115188075855872)
      (by norm_num [abs_of_pos]) (by norm_num [abs_of_pos]) (by norm_num)
      (roundNearestEven_eq_of_lt _ _ (by norm_num) (by norm_num))).trans (by norm_num)
  have h3 : roundBinary 53 (1000 * (1224979098644775 / 36028797018963968)) = 34 :=
    (roundBinary_eval 53 (1000 * (1224979098644775 / 36028797018963968)) (5) (4785074604081152) (1 / 140737488355328)
      (by norm_num [abs_of_pos]) (by norm_num [abs_of_pos]) (by norm_num)
      (roundNearestEven_eq_of_lt _ _ (by norm_num) (by norm_num))).trans (by norm_num)
  have h4 : roundBinary 53 (34 / 2) = 17 :=
    (roundBinary_eval 53 (34 / 2) (4) (4785074604081152) (1 / 281474976710656)
      (by norm_num [abs_of_pos]) (by norm_num [abs_of_pos]) (by norm_num)
      (roundNearestEven_eq_of_lt _ _ (by norm_num) (by norm_num))).trans (by norm_num)
  have h5 : roundBinary 53 ((35.0 : ℚ) - 17) = 18 :=
    (roundBinary_eval 53 ((35.0 : ℚ) - 17) (4) (5066549580791808) (1 / 281474976710656)
      (by norm_num [abs_of_pos]) (by norm_num [abs_of_pos]) (by norm_num)
      (roundNearestEven_eq_of_lt _ _ (by norm_num) (by norm_num))).trans (by norm_num)
  have h6 : roundBinary 24 (18) = 18 :=
    (roundBinary_eval 24 (18) (4) (9437184) (1 / 524288)
      (by norm_num [abs_of_pos]) (by norm_num [abs_of_pos]) (by norm_num)
      (roundNearestEven_eq_of_lt _ _ (by norm_num) (by norm_num))).trans (by norm_num)
  have h7 : roundBinary 53 (ARDUINO_PI) = (884279719003555 / 281474976710656) :=
    (roundBinary_eval 53 (ARDUINO_PI) (1) (7074237752028440) (1 / 2251799813685248)
      (by norm_num [abs_of_pos, ARDUINO_PI]) (by norm_num [abs_of_pos, ARDUINO_PI]) (by norm_num)
      (roundNearestEven_eq_of_lt _ _ (by norm_num [ARDUINO_PI]) (by norm_num [ARDUINO_PI]))).trans (by norm_num)
  have h8 : roundBinary 53 ((884279719003555 / 281474976710656) * (20.0 : ℚ)) = (4421398595017775 / 70368744177664) :=
    (roundBinary_eval 53 ((884279719003555 / 281474976710656) * (20.0 : ℚ)) (5) (8842797190035550) (1 / 140737488355328)
      (by norm_num [abs_of_pos]) (by norm_num [abs_of_pos]) (by norm_num)
      (roundNearestEven_eq_of_lt _ _ (by norm_num) (by norm_num))).trans (by norm_num)
  have h9 : roundBinary 53 ((4421398595017775 / 70368744177664) * (20.0 : ℚ)) = (5526748243772219 / 4398046511104) :=
    (roundBinary_eval 53 ((4421398595017775 / 70368744177664) * (20.0 : ℚ)) (10) (5526748243772219) (1 / 4398046511104)
      (by norm_num [abs_of_pos]) (by norm_num [abs_of_pos]) (by norm_num)
      (roundNearestEven_eq_of_lt _ _ (by norm_num) (by norm_num))).trans (by norm_num)
  have h10 : roundBinary 53 ((5526748243772219 / 4398046511104) * 18) = (3108795887121873 / 137438953472) :=
    (roundBinary_eval 53 ((5526748243772219 / 4398046511104) * 18) (14) (6217591774243746) (1 / 274877906944)
      (by norm_num [abs_of_pos]) (by norm_num [abs_of_pos]) (by norm_num)
      (roundNearestEven_eq_of_lt _ _ (by norm_num) (by norm_num))).trans (by norm_num)
  have h11 : roundBinary 53 ((3108795887121873 / 137438953472) / (1000.0 : ℚ)) = (1591703494206399 / 70368744177664) :=
    (roundBinary_eval 53 ((3108795887121873 / 137438953472) / (1000.0 : ℚ)) (4) (6366813976825596) (1 / 281474976710656)
      (by norm_num [abs_of_pos]) (by norm_num [abs_of_pos]) (by norm_num)
      (roundNearestEven_eq_of_lt _ _ (by norm_num) (by norm_num))).trans (by norm_num)
  have h12 : roundBinary 24 (1591703494206399 / 70368744177664) = (11859115 / 524288) :=
    (roundBinary_eval 24 (1591703494206399 / 70368744177664) (4) (11859115) (1 / 524288)
      (by norm_num [abs_of_pos]) (by norm_num [abs_of_pos]) (by norm_num)
      (roundNearestEven_eq_of_lt _ _ (by norm_num) (by norm_num))).trans (by norm_num)
  have h13 : roundBinary 53 (0.00025 : ℚ) = (1152921504606847 / 4611686018427387904) :=
    (roundBinary_eval 53 (0.00025 : ℚ) (-12) (4611686018427388) (1 / 18446744073709551616)
      (by norm_num [abs_of_pos]) (by norm_num [abs_of_pos]) (by norm_num)
      (roundNearestEven_eq_of_lt _ _ (by norm_num) (by norm_num))).trans (by norm_num)
  have h14 : roundBinary 53 ((11859115 / 524288) * (1152921504606847 / 4611686018427387904)) = (6519617418816389 / 1152921504606846976) :=
    (roundBinary_eval 53 ((11859115 / 524288) * (1152921504606847 / 4611686018427387904)) (-8) (6519617418816389) (1 / 1152921504606846976)
      (by norm_num [abs_of_pos]) (by norm_num [abs_of_pos]) (by norm_num)
      (roundNearestEven_eq_of_lt _ _ (by norm_num) (by norm_num))).trans (by norm_num)
  have h15 : roundBinary 53 ((6519617418816389 / 1152921504606846976) * 1000000) = (1482389375 / 262144) :=
    (roundBinary_eval 53 ((6519617418816389 / 1152921504606846976) * 1000000) (12) (6217591685120000) (1 / 1099511627776)
      (by norm_num [abs_of_pos]) (by norm_num [abs_of_pos]) (by norm_num)
      (roundNearestEven_eq_of_lt _ _ (by norm_num) (by norm_num))).trans (by norm_num)
  simp only [Rounded.dosingDuration, Rounded.calculateReservoirVolume,
    Rounded.measureWaterLevel, espArith, RESERVOIR_HEIGHT, RESERVOIR_RADIUS, DOSAGE_RATE]
  rw [h1, h2, h3, h4, h5, h6, h7, h8, h9, h10, h11, h12, h13, h14, h15]
  apply truncToLong_eq_of_bounds <;> norm_num

/-- The dosing duration computed from an echo time of 3000 microseconds, with binary64 operations on binary32 variables. -/
theorem Rounded.stored_esp_3000 :
    Rounded.dosingDuration espArith (Rounded.calculateReservoirVolume espArith ARDUINO_PI
      (Rounded.measureWaterLevel espArith 3000)) = (-5026) := by
  have h1 : roundBinary 53 (((3000 : Int) : ℚ)) = 3000 :=
    (roundBinary_eval 53 (((3000 : Int) : ℚ)) (11) (6597069766656000) (1 / 2199023255552)
      (by norm_num [abs_of_pos]) (by norm_num [abs_of_pos]) (by norm_num)
      (roundNearestEven_eq_of_lt _ _ (by norm_num) (by norm_num))).trans (by norm_num)
  have h2 : roundBinary 53 (0.034 : ℚ) = (1224979098644775 / 36028797018963968) :=
    (roundBinary_eval 53 (0.034 : ℚ) (-5) (4899916394579100) (1 / 144115188075855872)
      (by norm_num [abs_of_pos]) (by norm_num [abs_of_pos]) (by norm_num)
      (roundNearestEven_eq_of_lt _ _ (by norm_num) (by norm_num))).trans (by norm_num)
  have h3 : roundBinary 53 (3000 * (1224979098644775 / 36028797018963968)) = (7177611906121729 / 70368744177664) :=
    (roundBinary_eval 53 (3000 * (1224979098644775 / 36028797018963968)) (6) (7177611906121729) (1 / 70368744177664)
      (by norm_num [abs_of_pos]) (by norm_num [abs_of_pos]) (by norm_num)
      (roundNearestEven_eq_of_lt _ _ (by norm_num) (by norm_num))).trans (by norm_num)
  have h4 : roundBinary 53 ((7177611906121729 / 70368744177664) / 2) = (7177611906121729 / 140737488355328) :=
    (roundBinary_eval 53 ((7177611906121729 / 70368744177664) / 2) (5) (7177611906121729) (1 / 140737488355328)
      (by norm_num [abs_of_pos]) (by norm_num [abs_of_pos]) (by norm_num)
      (roundNearestEven_eq_of_lt _ _ (by norm_num) (by norm_num))).trans (by norm_num)
  have h5 : roundBinary 53 ((35.0 : ℚ) - (7177611906121729 / 140737488355328)) = (-(2251799813685249 / 140737488355328)) :=
    (roundBinary_eval 53 ((35.0 : ℚ) - (7177611906121729 / 140737488355328)) (4) (-4503599627370498) (1 / 281474976710656)
      (by norm_num [abs_of_neg]) (by norm_num [abs_of_neg]) (by norm_num)
      (roundNearestEven_eq_of_lt _ _ (by norm_num) (by norm_num))).trans (by norm_num)
  have h6 : roundBinary 24 ((-(2251799813685249 / 140737488355328))) = (-16) :=
    (roundBinary_eval 24 ((-(2251799813685249 / 140737488355328))) (4) (-8388608) (1 / 524288)
      (by norm_num [abs_of_neg]) (by norm_num [abs_of_neg]) (by norm_num)
      (roundNearestEven_eq_of_lt _ _ (by norm_num) (by norm_num))).trans (by norm_num)
  have h7 : roundBinary 53 (ARDUINO_PI) = (884279719003555 / 281474976710656) :=
    (roundBinary_eval 53 (ARDUINO_PI) (1) (7074237752028440) (1 / 2251799813685248)
      (by norm_num [abs_of_pos, ARDUINO_PI]) (by norm_num [abs_of_pos, ARDUINO_PI]) (by norm_num)
      (roundNearestEven_eq_of_lt _ _ (by norm_num [ARDUINO_PI]) (by norm_num [ARDUINO_PI]))).trans (by norm_num)
  have h8 : roundBinary 53 ((884279719003555 / 281474976710656) * (20.0 : ℚ)) = (4421398595017775 / 70368744177664) :=
    (roundBinary_eval 53 ((884279719003555 / 281474976710656) * (20.0 : ℚ)) (5) (8842797190035550) (1 / 140737488355328)
      (by norm_num [abs_of_pos]) (by norm_num [abs_of_pos]) (by norm_num)
      (roundNearestEven_eq_of_lt _ _ (by norm_num) (by norm_num))).trans (by norm_num)
  have h9 : roundBinary 53 ((4421398595017775 / 70368744177664) * (20.0 : ℚ)) = (5526748243772219 / 4398046511104) :=
    (roundBinary_eval 53 ((4421398595017775 / 70368744177664) * (20.0 : ℚ)) (10) (5526748243772219) (1 / 4398046511104)
      (by norm_num [abs_of_pos]) (by norm_num [abs_of_pos]) (by norm_num)
      (roundNearestEven_eq_of_lt _ _ (by norm_num) (by norm_num))).trans (by norm_num)
  have h10 : roundBinary 53 ((5526748243772219 / 4398046511104) * (-16)) = (-(5526748243772219 / 274877906944)) :=
    (roundBinary_eval 53 ((5526748243772219 / 4398046511104) * (-16)) (14) (-5526748243772219) (1 / 274877906944)
      (by norm_num [abs_of_neg]) (by norm_num [abs_of_neg]) (by norm_num)
      (roundNearestEven_eq_of_lt _ _ (by norm_num) (by norm_num))).trans (by norm_num)
  have h11 : roundBinary 53 ((-(5526748243772219 / 274877906944)) / (1000.0 : ℚ)) = (-(176855943800711 / 8796093022208)) :=
    (roundBinary_eval 53 ((-(5526748243772219 / 274877906944)) / (1000.0 : ℚ)) (4) (-5659390201622752) (1 / 281474976710656)
      (by norm_num [abs_of_neg]) (by norm_num [abs_of_neg]) (by norm_num)
      (roundNearestEven_eq_of_lt _ _ (by norm_num) (by norm_num))).trans (by norm_num)
  have h12 : roundBinary 24 ((-(176855943800711 / 8796093022208))) = (-(2635359 / 131072)) :=
    (roundBinary_eval 24 ((-(176855943800711 / 8796093022208))) (4) (-10541436) (1 / 524288)
      (by norm_num [abs_of_neg]) (by norm_num [abs_of_neg]) (by norm_num)
      (roundNearestEven_eq_of_lt _ _ (by norm_num) (by norm_num))).trans (by norm_num)
  have h13 : roundBinary 53 (0.00025 : ℚ) = (1152921504606847 / 4611686018427387904) :=
    (roundBinary_eval 53 (0.00025 : ℚ) (-12) (4611686018427388) (1 / 18446744073709551616)
      (by norm_num [abs_of_pos]) (by norm_num [abs_of_pos]) (by norm_num)
      (roundNearestEven_eq_of_lt _ _ (by norm_num) (by norm_num))).trans (by norm_num)
  have h14 : roundBinary 53 ((-(2635359 / 131072)) * (1152921504606847 / 4611686018427387904)) = (-(5795215727728263 / 1152921504606846976)) :=
    (roundBinary_eval 53 ((-(2635359 / 131072)) * (1152921504606847 / 4611686018427387904)) (-8) (-5795215727728263) (1 / 1152921504606846976)
      (by norm_num [abs_of_neg]) (by norm_num [abs_of_neg]) (by norm_num)
      (roundNearestEven_eq_of_lt _ _ (by norm_num) (by norm_num))).trans (by norm_num)
  have h15 : roundBinary 53 ((-(5795215727728263 / 1152921504606846976)) * 1000000) = (-(329419875 / 65536)) :=
    (roundBinary_eval 53 ((-(5795215727728263 / 1152921504606846976)) * 1000000) (12) (-5526748397568000) (1 / 1099511627776)
      (by norm_num [abs_of_neg]) (by norm_num [abs_of_neg]) (by norm_num)
      (roundNearestEven_eq_of_lt _ _ (by norm_num) (by norm_num))).trans (by norm_num)
  simp only [Rounded.dosingDuration, Rounded.calculateReservoirVolume,
    Rounded.measureWaterLevel, espArith, RESERVOIR_HEIGHT, RESERVOIR_RADIUS, DOSAGE_RATE]
  rw [h1, h2, h3, h4, h5, h6, h7, h8, h9, h10, h11, h12, h13, h14, h15]
  apply truncToLong_eq_of_neg_bounds <;> norm_num

/-! ## Dosing duration with rounding (C6) -/

/-- A due reservoir check stores the dosing duration of the computed volume. -/
theorem Rounded.checkReservoirVolume_duration (A : FloatArith) (PI : ℚ) (s : State)
    (currentTime : Nat) (waterLevel : ℚ)
    (hdue : usub currentTime s.lastReservoirCheckTime ≥ 3600) :
    (Rounded.checkReservoirVolume A PI s currentTime waterLevel).ph_pump_duration =
      Rounded.dosingDuration A (Rounded.calculateReservoirVolume A PI waterLevel) := by
  have h2 : usub currentTime s.lastReservoirCheckTime ≥ RESERVOIR_CHECK_INTERVAL := hdue
  simp only [Rounded.checkReservoirVolume, if_pos h2]

/-- The first reservoir check of a run, at 3600 ms, is due. -/
theorem initState_reservoir_due : usub 3600 initState.lastReservoirCheckTime ≥ 3600 := by
  simp [usub, ULONG_RANGE, initState]

/-- C6, as stated, fails: the stored duration is not always `250 * V`
truncated.  In the binary32 arithmetic of the AVR boards an echo time of 304
microseconds gives the volume `V = 4913627 / 131072` (37.488 litres), for which
`V * 0.00025 * 1000000 = 250 * V` truncates to 9371, and the due check stores
9372; an echo time of 530 microseconds gives 8165 instead of 8164.  With the
binary64 operations of the ESP boards an echo time of 378156 microseconds gives
the volume -8034.5 and the check stores -2008624 instead of -2008625. -/
theorem C6_counterexample :
    usub 3600 initState.lastReservoirCheckTime ≥ 3600 ∧
    ((Rounded.checkReservoirVolume avrArith ARDUINO_PI initState 3600
        (Rounded.measureWaterLevel avrArith 304)).ph_pump_duration = 9372 ∧
      Rounded.calculateReservoirVolume avrArith ARDUINO_PI
        (Rounded.measureWaterLevel avrArith 304) = 4913627 / 131072 ∧
      truncToLong ((4913627 / 131072 : ℚ) * 0.00025 * 1000000) = 9371 ∧
      truncToLong (250 * (4913627 / 131072 : ℚ)) = 9371) ∧
    ((Rounded.checkReservoirVolume avrArith ARDUINO_PI initState 3600
        (Rounded.measureWaterLevel avrArith 530)).ph_pump_duration = 8165 ∧
      Rounded.calculateReservoirVolume avrArith ARDUINO_PI
        (Rounded.measureWaterLevel avrArith 530) = 8561623 / 262144 ∧
      truncToLong ((8561623 / 262144 : ℚ) * 0.00025 * 1000000) = 8164 ∧
      truncToLong (250 * (8561623 / 262144 : ℚ)) = 8164) ∧
    ((Rounded.checkReservoirVolume espArith ARDUINO_PI initState 3600
        (Rounded.measureWaterLevel espArith 378156)).ph_pump_duration = -2008624 ∧
      Rounded.calculateReservoirVolume espArith ARDUINO_PI
        (Rounded.measureWaterLevel espArith 378156) = -(16069 / 2) ∧
      truncToLong (-(16069 / 2 : ℚ) * 0.00025 * 1000000) = -2008625 ∧
      truncToLong (250 * -(16069 / 2 : ℚ)) = -2008625) := by
  have hdue := initState_reservoir_due
  refine ⟨hdue, ⟨?_, ?_, ?_, ?_⟩, ⟨?_, ?_, ?_, ?_⟩, ⟨?_, ?_, ?_, ?_⟩⟩
  · rw [Rounded.checkReservoirVolume_duration _ _ _ _ _ hdue, Rounded.measureWaterLevel_avr_304,
      Rounded.calculateReservoirVolume_avr_304, Rounded.dosingDuration_avr_304]
  · rw [Rounded.measureWaterLevel_avr_304, Rounded.calculateReservoirVolume_avr_304]
  · apply truncToLong_eq_of_bounds <;> norm_num
  · apply truncToLong_eq_of_bounds <;> norm_num
  · rw [Rounded.checkReservoirVolume_duration _ _ _ _ _ hdue, Rounded.measureWaterLevel_avr_530,
      Rounded.calculateReservoirVolume_avr_530, Rounded.dosingDuration_avr_530]
  · rw [Rounded.measureWaterLevel_avr_530, Rounded.calculateReservoirVolume_avr_530]
  · apply truncToLong_eq_of_bounds <;> norm_num
  · apply truncToLong_eq_of_bounds <;> norm_num
  · rw [Rounded.checkReservoirVolume_duration _ _ _ _ _ hdue, Rounded.measureWaterLevel_esp_378156,
      Rounded.calculateReservoirVolume_esp_378156, Rounded.dosingDuration_esp_378156]
  · rw [Rounded.measureWaterLevel_esp_378156, Rounded.calculateReservoirVolume_esp_378156]
  · apply truncToLong_eq_of_neg_bounds <;> norm_num
  · apply truncToLong_eq_of_neg_bounds <;> norm_num

/-- C6, amended: when a reservoir check is due, `checkReservoirVolume` stores
the floating-point product `V * 0.00025 * 1000000` truncated to an integer,
where `V` is the computed reservoir volume and each multiplication is rounded to
the nearest `double` of the board (binary32 on the AVR boards, binary64 on the
ESP boards).  Without rounding this is `250 * V` truncated; with rounding the
stored duration differs from `250 * V` truncated by at most 1 for volumes up to
16000 litres in magnitude.  The stored duration is non-decreasing in `V`, and
it is exactly 10000 for `V = 40`. -/
theorem C6_dosing_duration_rounded (A : FloatArith) (hA : A = avrArith ∨ A = espArith)
    (PI : ℚ) (s : State) (currentTime : Nat) (waterLevel : ℚ)
    (hdue : usub currentTime s.lastReservoirCheckTime ≥ 3600) :
    (Rounded.checkReservoirVolume A PI s currentTime waterLevel).ph_pump_duration =
      Rounded.dosingDuration A (Rounded.calculateReservoirVolume A PI waterLevel) ∧
    (∀ V : ℚ, Rounded.dosingDuration A V =
      truncToLong (A.roundDouble (A.roundDouble (V * A.roundDouble 0.00025) * 1000000))) ∧
    (∀ V : ℚ, Rounded.dosingDuration exactArith V = truncToLong (V * 0.00025 * 1000000) ∧
      V * 0.00025 * 1000000 = 250 * V) ∧
    (∀ V : ℚ, |V| ≤ 16000 →
      |Rounded.dosingDuration A V - truncToLong (250 * V)| ≤ 1) ∧
    (∀ V1 V2 : ℚ, V1 ≤ V2 → Rounded.dosingDuration A V1 ≤ Rounded.dosingDuration A V2) ∧
    (∀ (s2 : State) (currentTime2 : Nat) (waterLevel2 : ℚ),
      usub currentTime2 s2.lastReservoirCheckTime ≥ 3600 →
      Rounded.calculateReservoirVolume A PI waterLevel ≤
        Rounded.calculateReservoirVolume A PI waterLevel2 →
      (Rounded.checkReservoirVolume A PI s currentTime waterLevel).ph_pump_duration ≤
        (Rounded.checkReservoirVolume A PI s2 currentTime2 waterLevel2).ph_pump_duration) ∧
    Rounded.dosingDuration A 40 = 10000 ∧
    (Rounded.calculateReservoirVolume A PI waterLevel = 40 →
      (Rounded.checkReservoirVolume A PI s currentTime waterLevel).ph_pump_duration = 10000) := by
  have h40 : Rounded.dosingDuration A 40 = 10000 := by
    rcases hA with h | h
    · rw [h]; exact Rounded.dosingDuration_avr_40
    · rw [h]; exact Rounded.dosingDuration_esp_40
  have hst := Rounded.checkReservoirVolume_duration A PI s currentTime waterLevel hdue
  refine ⟨hst, ?_, ?_, ?_, ?_, ?_, h40, ?_⟩
  · intro V
    simp only [Rounded.dosingDuration, DOSAGE_RATE]
  · intro V
    refine ⟨?_, by ring⟩
    simp only [Rounded.dosingDuration, exactArith, DOSAGE_RATE, id]
  · intro V hV
    exact Rounded.dosingDuration_near A hA V hV
  · intro V1 V2 h
    exact Rounded.dosingDuration_mono A hA h
  · intro s2 currentTime2 waterLevel2 hdue2 hle
    rw [hst, Rounded.checkReservoirVolume_duration A PI s2 currentTime2 waterLevel2 hdue2]
    exact Rounded.dosingDuration_mono A hA hle
  · intro hV
    rw [hst, hV, h40]

/-- Witness for C6 (amended): the first check of a run on an AVR board, with the
level of an echo time of 304 microseconds. -/
theorem C6_dosing_duration_rounded_witness :
    (avrArith = avrArith ∨ avrArith = espArith) ∧
    usub 3600 initState.lastReservoirCheckTime ≥ 3600 ∧
    (Rounded.checkReservoirVolume avrArith ARDUINO_PI initState 3600
        (977535 / 32768)).ph_pump_duration =
      Rounded.dosingDuration avrArith
        (Rounded.calculateReservoirVolume avrArith ARDUINO_PI (977535 / 32768)) ∧
    Rounded.dosingDuration avrArith 40 = 10000 :=
  ⟨Or.inl rfl, initState_reservoir_due,
    (C6_dosing_duration_rounded avrArith (Or.inl rfl) ARDUINO_PI initState 3600 (977535 / 32768)
      initState_reservoir_due).1,
    (C6_dosing_duration_rounded avrArith (Or.inl rfl) ARDUINO_PI initState 3600 (977535 / 32768)
      initState_reservoir_due).2.2.2.2.2.2.1⟩

end Aeroponics
